import Mathlib

/-!
# Host-interface state machine of the WILC driver (`hif.c`)

A shallow embedding of the control-plane functions of `src/hif.c`.

* A device (`struct wilc`) is the list of its interfaces; an interface is named by its
  position in `vif_list`.  A position that names no interface behaves like an interface
  whose `hif_drv` is `NULL`.
* Pointers that may be `NULL` are `Option`s; a function pointer is `Option Nat`
  (`none` is `NULL`, the number names the function).
* A field is read from the context as it was when the function was entered as long as
  nothing in between can have written it; it is read again after a call that can.
* Everything a function does to the outside (callbacks, transport round trips, `kfree`,
  the external-authentication request) is appended to `World.log`, oldest entry first.
  Callbacks are opaque: running one adds its log entry and nothing else.
* The transport (`wilc_send_config_pkt`) and the allocator are not part of `hif.c`; their
  outcomes are read from `Env`, indexed by the number of earlier calls, so one `Env`
  describes an arbitrary sequence of outcomes.
* A dereference of a `NULL` `hif_drv` has no defined result: such a call yields `none`.
* The work queue belongs to the kernel: a task that `queue_work` accepts is an entry of
  `World.log`, and whether a submission succeeds is read from `Env`.
* A buffer is the list of its bytes; a store through a moving pointer (`cur_byte`) is a
  `poke` at the offset the pointer has reached, and a fresh allocation holds the bytes
  `Env.garbage` gives it.
* A read outside a list gives 0; which offsets a decoder reads is told separately by its
  `*_reads` function, so that a read outside the frame can be stated.
* A `memcpy` through the `NULL` a failed allocation returned has no defined result, like
  the dereference of a `NULL` `hif_drv`.
* The value of an attribute is the memory behind its pointer `val`; the transport sends the
  first `size` bytes of it.
-/

namespace Hif

/-! ## Constants -/

/-- Errno value `EBUSY` of the Linux kernel ABI. -/
def EBUSY : Int := 16
/-- Errno value `EFAULT` of the Linux kernel ABI. -/
def EFAULT : Int := 14
/-- Errno value `ENOMEM` of the Linux kernel ABI. -/
def ENOMEM : Int := 12
/-- Errno value `EINVAL` of the Linux kernel ABI. -/
def EINVAL : Int := 22
/-- Status code `WLAN_STATUS_SUCCESS` of IEEE 802.11 (`linux/ieee80211.h`). -/
def WLAN_STATUS_SUCCESS : Nat := 0
/-- Length of an Ethernet address (`linux/if_ether.h`). -/
def ETH_ALEN : Nat := 6

def WILC_HIF_SCAN_TIMEOUT_MS : Nat := 5000
def WILC_HIF_CONNECT_TIMEOUT_MS : Nat := 9500
def WILC_FALSE_FRMWR_CHANNEL : Nat := 100
def WILC_SCAN_WID_LIST_SIZE : Nat := 6

/-- Constants and layouts that `hif.c` takes from `netdev.h` and the headers it pulls in.
Those headers are not part of the sources, so the values are parameters. -/
structure netdev_h where
  WILC_MAC_STATUS_DISCONNECTED : Nat
  WILC_MAC_STATUS_CONNECTED : Nat
  WILC_FW_AUTH_SAE : Nat
  WILC_FW_PASSIVE_SCAN : Nat
  WILC_MAX_ASSOC_RESP_FRAME_SIZE : Nat
  /-- Value of `sizeof(struct wilc_assoc_resp)`. -/
  sizeof_wilc_assoc_resp : Nat
  /-- Value of `offsetof(struct wilc_assoc_resp, status_code)`. -/
  offsetof_status_code : Nat
  /-- Value of `sizeof(struct wilc_join_bss_param)`. -/
  sizeof_wilc_join_bss_param : Nat
  WILC_NUM_CONCURRENT_IFC : Nat
  WILC_ADD_STA_LENGTH : Nat
  WILC_MAX_RATES_SUPPORTED : Nat
  TCP_ACK_FILTER_LINK_SPEED_THRESH : Nat
  DEFAULT_LINK_SPEED : Nat
  WILC_MAX_NUM_STA : Nat

/-! ## Data model -/

/-- The host-interface states `enum host_if_state` that the specification names. -/
inductive host_if_state where
  | HOST_IF_IDLE
  | HOST_IF_SCANNING
  | HOST_IF_WAITING_CONN_RESP
  | HOST_IF_EXTERNAL_AUTH
  | HOST_IF_CONNECTED
  | HOST_IF_P2P_LISTEN
  deriving DecidableEq, Repr

/-- Events of the scan-result callback, `enum scan_event`. -/
inductive scan_event where
  | SCAN_EVENT_NETWORK_FOUND
  | SCAN_EVENT_DONE
  | SCAN_EVENT_ABORTED
  deriving DecidableEq, Repr

/-- Events of the connect-result callback, `enum conn_event`. -/
inductive conn_event where
  | CONN_DISCONN_EVENT_CONN_RESP
  | CONN_DISCONN_EVENT_DISCONN_NOTIF
  deriving DecidableEq, Repr

/-- The attribute identifiers used by the functions embedded here. -/
inductive wid_id where
  | WID_ABORT_RUNNING_SCAN
  | WID_SSID_PROBE_REQ
  | WID_INFO_ELEMENT_PROBE
  | WID_SCAN_TYPE
  | WID_PASSIVE_SCAN_TIME
  | WID_SCAN_CHANNEL_LIST
  | WID_START_SCAN_REQ
  | WID_SET_MFP
  | WID_INFO_ELEMENT_ASSOCIATE
  | WID_11I_MODE
  | WID_AUTH_TYPE
  | WID_JOIN_REQ_EXTENDED
  | WID_DISCONNECT
  | WID_ASSOC_RES_INFO
  | WID_REMAIN_ON_CHAN
  | WID_ADD_STA
  | WID_ADD_BEACON
  | WID_LINKSPEED
  | WID_RSSI
  | WID_SUCCESS_FRAME_COUNT
  | WID_RECEIVED_FRAGMENT_COUNT
  | WID_FAILED_COUNT
  | WID_SETUP_MULTICAST_FILTER
  | WID_DEL_ALL_STA
  deriving DecidableEq, Repr

/-- The attribute types, `enum wid_type`. -/
inductive wid_type where
  | WID_CHAR
  | WID_SHORT
  | WID_INT
  | WID_STR
  | WID_BIN_DATA
  | WID_BIN
  deriving DecidableEq, Repr

/-- One attribute, `struct wid`; `val` holds the bytes the pointer refers to. -/
structure wid where
  id : wid_id
  type : wid_type
  size : Nat
  val : List Nat
  deriving DecidableEq, Repr

/-- Transport operation of `wilc_send_config_pkt`. -/
inductive cfg_mode where
  | WILC_GET_CFG
  | WILC_SET_CFG
  deriving DecidableEq, Repr

/-- Scan request of an interface, `struct wilc_user_scan_req`. -/
structure wilc_user_scan_req where
  scan_result : Option Nat
  arg : Nat
  ch_cnt : Nat
  deriving DecidableEq, Repr

/-- Connection information of an interface, `struct wilc_conn_info` (the fields `hif.c`
uses). A present `req_ies` or `resp_ies` holds the bytes of the allocated buffer. -/
structure wilc_conn_info where
  bssid : List Nat
  security : Nat
  auth_type : Nat
  mfp_type : Nat
  ch : Nat
  /-- Bytes of the `struct wilc_join_bss_param` that `param` points to. -/
  param : List Nat
  conn_result : Option Nat
  arg : Nat
  status : Nat
  req_ies : Option (List Nat)
  req_ies_len : Nat
  resp_ies : Option (List Nat)
  resp_ies_len : Nat
  deriving DecidableEq, Repr

/-- Remain-on-channel descriptor, `struct wilc_remain_ch`. -/
structure wilc_remain_ch where
  ch : Nat
  duration : Nat
  expired : Option Nat
  arg : Nat
  cookie : Nat
  deriving DecidableEq, Repr

/-- Driver context of an interface, `struct host_if_drv`. A timer is `some ms` while it is
pending with the delay it was armed for, and `none` otherwise. -/
structure host_if_drv where
  usr_scan_req : wilc_user_scan_req
  conn_info : wilc_conn_info
  remain_on_ch : wilc_remain_ch
  hif_state : host_if_state
  assoc_bssid : List Nat
  assoc_resp : List Nat
  scan_timer : Option Nat
  connect_timer : Option Nat
  remain_on_ch_timer : Option Nat
  scan_timer_vif : Option Nat
  connect_timer_vif : Option Nat
  remain_on_ch_timer_vif : Option Nat
  p2p_timeout : Nat
  deriving DecidableEq, Repr

/-- One virtual interface, `struct wilc_vif` (the fields `hif.c` uses). -/
structure wilc_vif where
  idx : Nat
  connecting : Bool
  hif_drv : Option host_if_drv
  deriving DecidableEq, Repr

/-- The device, `struct wilc`: its interface list. -/
structure wilc where
  vif_list : List wilc_vif
  deriving DecidableEq, Repr

/-- Buffers whose release is recorded. -/
inductive heap_obj where
  | req_ies
  | resp_ies
  | search_ssid_vals
  | wid_val
  | msg
  | mgmt
  | supported_rates
  | hif_drv
  | send_buff_eap_buff
  | mc_list
  deriving DecidableEq, Repr

/-- The timers `wilc_deinit` cancels. -/
inductive timer_id where
  | scan_timer
  | connect_timer
  | periodic_rssi
  | remain_on_ch_timer
  deriving DecidableEq, Repr

/-- The network information a scan-result callback is handed, `struct wilc_rcvd_net_info`;
`mgmt` is the memory behind the pointer, the copy of the management frame. `ch` is a `u8`
and `frame_len` a `u16`. -/
structure wilc_rcvd_net_info where
  rssi : Nat
  ch : Nat
  frame_len : Nat
  mgmt : List Nat
  deriving DecidableEq, Repr

/-- A task record, `struct host_if_msg`, as far as the queue sees it: the handler `fn`
together with the part of `body` that handler reads. The interface it is for is kept next
to it. -/
inductive host_if_msg where
  | handle_rcvd_ntwrk_info (frame_len rssi : Nat) (mgmt : List Nat)
  | handle_rcvd_gnrl_async_info (status : Nat)
  | handle_scan_complete
  | handle_send_buffered_eap (deliver_to_stack eap_buf_param : Nat) (buff : Option (List Nat))
      (size pkt_offset user_arg : Nat)
  deriving DecidableEq, Repr

/-- What a function does to the outside. -/
inductive Ev where
  /-- Call of `usr_scan_req.scan_result(evt, NULL, arg)` of interface `vif`. -/
  | scan_result (vif fn : Nat) (evt : scan_event) (arg : Nat)
  /-- Call of `conn_info.conn_result(evt, mac_status, arg)` of interface `vif`. -/
  | conn_result (vif fn : Nat) (evt : conn_event) (mac_status : Nat) (arg : Nat)
  /-- Call of `remain_on_ch.expired(arg, cookie)` of interface `vif`. -/
  | expired (vif fn arg cookie : Nat)
  /-- Call of `wilc_send_config_pkt(vif, mode, wids, count)`. -/
  | send_config_pkt (vif : Nat) (mode : cfg_mode) (wids : List wid)
  /-- Call of `cfg80211_external_auth_request` for interface `vif`. -/
  | external_auth_request (vif : Nat)
  /-- Call of `kfree` on a non-`NULL` buffer of interface `vif`. -/
  | kfree (vif : Nat) (obj : heap_obj)
  /-- A task for interface `vif` accepted by `queue_work`. -/
  | queue_work (vif : Nat) (msg : host_if_msg)
  /-- Call of `del_timer_sync` on a timer of interface `vif`. -/
  | del_timer_sync (vif : Nat) (t : timer_id)
  /-- Call of `wilc_enable_tcp_ack_filter(vif, value)`. -/
  | wilc_enable_tcp_ack_filter (vif : Nat) (value : Bool)
  /-- Call of `usr_scan_req.scan_result(evt, rcvd_info, arg)` of interface `vif` with the
  network information `rcvd_info`. -/
  | scan_result_info (vif fn : Nat) (evt : scan_event) (rcvd_info : wilc_rcvd_net_info)
      (arg : Nat)
  deriving DecidableEq, Repr

/-- One transport request, as `wilc_send_config_pkt` receives it. -/
structure Request where
  vif : Nat
  mode : cfg_mode
  wids : List wid
  deriving DecidableEq, Repr

/-- Outcome of one transport round trip: the return value and, for a GET, the size stored
for the first attribute and the bytes the transport stored through the value pointers,
attribute after attribute. -/
structure Reply where
  result : Int
  size : Nat
  val : List Nat
  deriving DecidableEq, Repr

/-- The collaborators of `hif.c`: header constants, the transport and the allocator.
`send_config_pkt n r` is the outcome of request `r` when `n` requests were made before;
`kmalloc n` tells whether the allocation succeeds when `n` allocations were made before. -/
structure Env where
  h : netdev_h
  /-- Build configuration: `KERNEL_VERSION(4, 8, 0) <= LINUX_VERSION_CODE`, the kernels
  whose scan request carries a per-channel `duration`. -/
  scan_duration_supported : Bool
  /-- Build configuration: `sizeof(void *)`, 4 or 8. -/
  sizeof_pointer : Nat
  send_config_pkt : Nat → Request → Reply
  kmalloc : Nat → Bool
  /-- Byte `i` of the buffer handed out by allocation number `n`, before anything is written
  to it. -/
  garbage : Nat → Nat → Nat
  /-- Whether a submission to the work queue succeeds (the device has a work queue and
  `queue_work` accepts the task), for a submission made after `n` allocations. Every
  submission follows the allocation of its task record, so one `Env` describes an arbitrary
  sequence of outcomes. -/
  queue_work : Nat → Bool
  /-- Return value of `cfg80211_external_auth_request` for interface `vif`. -/
  cfg80211_external_auth_request : Nat → Int

/-- The device together with the record of what was done to the outside. -/
structure World where
  wilc : wilc
  log : List Ev
  cfg_calls : Nat
  allocs : Nat
  deriving DecidableEq, Repr

/-- The interface at position `vif` of the device list. -/
def World.getVif (s : World) (vif : Nat) : Option wilc_vif :=
  s.wilc.vif_list[vif]?

/-- Value of `vif->hif_drv` for the interface at position `vif`. -/
def World.getDrv (s : World) (vif : Nat) : Option host_if_drv :=
  match s.wilc.vif_list[vif]? with
  | some v => v.hif_drv
  | none => none

/-- Store through the pointer `vif->hif_drv`: the driver context of interface `vif`, when
there is one, becomes `f` of what it was. -/
def World.updDrv (s : World) (vif : Nat) (f : host_if_drv → host_if_drv) : World :=
  { s with wilc :=
      { vif_list := s.wilc.vif_list.modify (fun v => { v with hif_drv := v.hif_drv.map f }) vif } }

/-- Append one entry to the record. -/
def World.emit (s : World) (e : Ev) : World :=
  { s with log := s.log ++ [e] }

/-- The all-zero address `null_bssid`. -/
def null_bssid : List Nat := [0, 0, 0, 0, 0, 0]

/-- Little-endian 16-bit value at offset `off` of `buf` (bytes missing from `buf` read 0).-/
def get_le16 (buf : List Nat) (off : Nat) : Nat :=
  (buf.getD off 0) % 256 + 256 * ((buf.getD (off + 1) 0) % 256)

/-- The transport call `wilc_send_config_pkt`: the request is recorded and answered by
the environment. -/
def wilc_send_config_pkt (env : Env) (s : World) (vif : Nat) (mode : cfg_mode)
    (wids : List wid) : Reply × World :=
  (env.send_config_pkt s.cfg_calls ⟨vif, mode, wids⟩,
   { s with log := s.log ++ [Ev.send_config_pkt vif mode wids], cfg_calls := s.cfg_calls + 1 })

/-- Call of `kfree(p)` on buffer `obj` of interface `vif`: recorded when `p` is not `NULL`
(`kfree(NULL)` does nothing). -/
def kfree {α : Type} (s : World) (vif : Nat) (obj : heap_obj) (p : Option α) : World :=
  if p.isSome then s.emit (Ev.kfree vif obj) else s

/-- One allocation (`kmalloc`, `kmemdup`): whether it succeeds is read from the
environment. -/
def kmalloc (env : Env) (s : World) : Bool × World :=
  (env.kmalloc s.allocs, { s with allocs := s.allocs + 1 })

/-! ## Scan -/

/-- Embedding of `handle_scan_done`. -/
def handle_scan_done (env : Env) (s : World) (vif : Nat) (evt : scan_event) : Int × World :=
  match s.getDrv vif with
  | none => (0, s)
  | some hif_drv =>
    let step : Int × World :=
      if evt = scan_event.SCAN_EVENT_DONE then
        (0, s.updDrv vif fun d =>
          { d with hif_state :=
              if hif_drv.assoc_bssid = null_bssid then host_if_state.HOST_IF_IDLE
              else host_if_state.HOST_IF_CONNECTED })
      else if evt = scan_event.SCAN_EVENT_ABORTED then
        let r := wilc_send_config_pkt env s vif cfg_mode.WILC_SET_CFG
          [⟨wid_id.WID_ABORT_RUNNING_SCAN, wid_type.WID_CHAR, 1, [1]⟩]
        (if r.1.result ≠ 0 then -EFAULT else 0, r.2)
      else (0, s)
    match hif_drv.usr_scan_req.scan_result with
    | some fn =>
      (step.1, (step.2.emit (Ev.scan_result vif fn evt hif_drv.usr_scan_req.arg)).updDrv vif
        fun d => { d with usr_scan_req := { d.usr_scan_req with scan_result := none } })
    | none => step

/-- One entry of the SSID array of a scan request, `struct cfg80211_ssid`. -/
structure cfg80211_ssid where
  ssid : List Nat
  ssid_len : Nat
  deriving DecidableEq, Repr

/-- The fields of `struct cfg80211_scan_request` that `wilc_scan` reads; `n_ssids` is the
length of `ssids`. -/
structure cfg80211_scan_request where
  ssids : List cfg80211_ssid
  ie : List Nat
  ie_len : Nat
  duration : Nat
  deriving DecidableEq, Repr

/-- The interface-list test of `wilc_scan`: some interface with a driver context is in a
state other than `HOST_IF_IDLE` and `HOST_IF_CONNECTED`. -/
def scan_busy (w : wilc) : Bool :=
  w.vif_list.any fun vif_tmp =>
    match vif_tmp.hif_drv with
    | none => false
    | some hif_drv_tmp =>
      decide (hif_drv_tmp.hif_state ≠ host_if_state.HOST_IF_IDLE ∧
        hif_drv_tmp.hif_state ≠ host_if_state.HOST_IF_CONNECTED)

/-- The 8-bit accumulator `valuesize` of `wilc_scan` after its first loop. -/
def ssid_valuesize (ssids : List cfg80211_ssid) : Nat :=
  ssids.foldl (fun valuesize x => (valuesize + (x.ssid_len + 1)) % 256) 0

/-- The bytes `wilc_scan` writes through `buffer`: the SSID count, then every SSID as
its length byte followed by its bytes. -/
def ssid_probe_bytes (ssids : List cfg80211_ssid) : List Nat :=
  (ssids.length % 256) ::
    (ssids.map fun x => (x.ssid_len % 256) :: x.ssid.take x.ssid_len).flatten

/-- The in-place update of the channel list in `wilc_scan`: each of the first
`ch_list_len` entries that is above 0 is lowered by 1. -/
def lower_channels (ch_freq_list : Option (List Nat)) (ch_list_len : Nat) :
    Option (List Nat) :=
  match ch_freq_list with
  | none => none
  | some l =>
    if 0 < ch_list_len then
      some ((l.take ch_list_len).map (fun c => if 0 < c then c - 1 else c) ++
        l.drop ch_list_len)
    else some l

/-- What `wilc_scan` hands back: its return value, the caller's channel list as the
call left it, and the world. -/
structure scan_outcome where
  result : Int
  ch_freq_list : Option (List Nat)
  world : World
  deriving DecidableEq, Repr

/-- Embedding of `wilc_scan`. -/
def wilc_scan (env : Env) (s : World) (vif : Nat) (scan_source scan_type : Nat)
    (ch_freq_list : Option (List Nat)) (ch_list_len : Nat)
    (scan_result_fn : Option Nat) (user_arg : Nat) (request : cfg80211_scan_request) :
    Option scan_outcome :=
  match s.getVif vif, s.getDrv vif with
  | some v, some _ =>
    if scan_busy s.wilc then
      some ⟨-EBUSY, ch_freq_list, s⟩
    else if v.connecting then
      some ⟨-EBUSY, ch_freq_list, s⟩
    else
      let s1 := s.updDrv vif fun d => { d with usr_scan_req := { d.usr_scan_req with ch_cnt := 0 } }
      let valuesize := ssid_valuesize request.ssids
      -- the SSID attribute, when there are SSIDs and the buffer could be allocated
      let a := if request.ssids.length ≠ 0 then kmalloc env s1 else (false, s1)
      let search_ssid_vals : Option (List Nat) :=
        if a.1 then some (ssid_probe_bytes request.ssids) else none
      let w_ssid : List wid :=
        if a.1 then
          [⟨wid_id.WID_SSID_PROBE_REQ, wid_type.WID_STR, valuesize + 1,
            ssid_probe_bytes request.ssids⟩]
        else []
      let w_ie : List wid :=
        [⟨wid_id.WID_INFO_ELEMENT_PROBE, wid_type.WID_BIN_DATA, request.ie_len, request.ie⟩,
         ⟨wid_id.WID_SCAN_TYPE, wid_type.WID_CHAR, 1, [scan_type]⟩]
      let passive : Bool := env.scan_duration_supported &&
        decide (scan_type = env.h.WILC_FW_PASSIVE_SCAN) && decide (request.duration ≠ 0)
      let w_time : List wid :=
        if passive then
          [⟨wid_id.WID_PASSIVE_SCAN_TIME, wid_type.WID_SHORT, 2,
            [request.duration % 256, request.duration / 256 % 256]⟩]
        else []
      let scan_timeout : Nat :=
        if passive then (request.duration * ch_list_len + 500) % 2 ^ 32
        else WILC_HIF_SCAN_TIMEOUT_MS
      let ch := lower_channels ch_freq_list ch_list_len
      let w_ch : List wid :=
        [⟨wid_id.WID_SCAN_CHANNEL_LIST, wid_type.WID_BIN_DATA, ch_list_len, ch.getD []⟩,
         ⟨wid_id.WID_START_SCAN_REQ, wid_type.WID_CHAR, 1, [scan_source]⟩]
      let s2 := a.2.updDrv vif fun d =>
        { d with usr_scan_req := { d.usr_scan_req with scan_result := scan_result_fn, arg := user_arg } }
      let r := wilc_send_config_pkt env s2 vif cfg_mode.WILC_SET_CFG
        (w_ssid ++ w_ie ++ w_time ++ w_ch)
      let s3 :=
        if r.1.result ≠ 0 then r.2
        else r.2.updDrv vif fun d =>
          { d with scan_timer_vif := some vif, scan_timer := some scan_timeout }
      some ⟨r.1.result, ch, kfree s3 vif heap_obj.search_ssid_vals search_ssid_vals⟩
  | _, _ => none

/-- Embedding of `handle_scan_timer` (the task record is not modelled). -/
def handle_scan_timer (env : Env) (s : World) (vif : Nat) : World :=
  (handle_scan_done env s vif scan_event.SCAN_EVENT_ABORTED).2

/-- Embedding of `handle_scan_complete` (the task record is not modelled). -/
def handle_scan_complete (env : Env) (s : World) (vif : Nat) : Option World :=
  match s.getDrv vif with
  | none => none
  | some _ =>
    some (handle_scan_done env (s.updDrv vif fun d => { d with scan_timer := none }) vif
      scan_event.SCAN_EVENT_DONE).2

/-! ## Connect -/

/-- The interface-list test of `wilc_send_connect_wid` and of `wilc_disconnect`: some
interface with a driver context is in `HOST_IF_SCANNING`. -/
def some_vif_scanning (w : wilc) : Bool :=
  w.vif_list.any fun vif_tmp =>
    match vif_tmp.hif_drv with
    | none => false
    | some hif_drv_tmp => decide (hif_drv_tmp.hif_state = host_if_state.HOST_IF_SCANNING)

/-- Embedding of `wilc_send_connect_wid`. -/
def wilc_send_connect_wid (env : Env) (s : World) (vif : Nat) : Option (Int × World) :=
  match s.getDrv vif with
  | none => none
  | some hif_drv =>
    let conn_attr := hif_drv.conn_info
    let error (result : Int) (s1 : World) : Option (Int × World) :=
      some (result, (kfree s1 vif heap_obj.req_ies conn_attr.req_ies).updDrv vif fun d =>
        { d with conn_info := { d.conn_info with req_ies := none } })
    if some_vif_scanning s.wilc then
      error (-EBUSY) s
    else
      let wid_list : List wid :=
        [⟨wid_id.WID_SET_MFP, wid_type.WID_CHAR, 1, [conn_attr.mfp_type]⟩,
         ⟨wid_id.WID_INFO_ELEMENT_ASSOCIATE, wid_type.WID_BIN_DATA, conn_attr.req_ies_len,
           conn_attr.req_ies.getD []⟩,
         ⟨wid_id.WID_11I_MODE, wid_type.WID_CHAR, 1, [conn_attr.security]⟩,
         ⟨wid_id.WID_AUTH_TYPE, wid_type.WID_CHAR, 1, [conn_attr.auth_type]⟩,
         ⟨wid_id.WID_JOIN_REQ_EXTENDED, wid_type.WID_STR, env.h.sizeof_wilc_join_bss_param,
           conn_attr.param⟩]
      let r := wilc_send_config_pkt env s vif cfg_mode.WILC_SET_CFG wid_list
      if r.1.result ≠ 0 then
        error r.1.result r.2
      else
        some (0, r.2.updDrv vif fun d =>
          { d with hif_state :=
              if conn_attr.auth_type = env.h.WILC_FW_AUTH_SAE then
                host_if_state.HOST_IF_EXTERNAL_AUTH
              else host_if_state.HOST_IF_WAITING_CONN_RESP })

/-- Embedding of `wilc_set_join_req`. -/
def wilc_set_join_req (env : Env) (s : World) (vif : Nat) (bssid : Option (List Nat))
    (ies : Option (List Nat)) (ies_len : Nat) : Option (Int × World) :=
  match s.getDrv vif with
  | none => none
  | some _ =>
    let s1 :=
      match bssid with
      | some b => s.updDrv vif fun d => { d with conn_info := { d.conn_info with bssid := b } }
      | none => s
    let copy : Bool × World :=
      match ies with
      | some i =>
        let a := kmalloc env s1
        (a.1, a.2.updDrv vif fun d =>
          { d with conn_info := { d.conn_info with
              req_ies_len := ies_len,
              req_ies := if a.1 then some (i.take ies_len) else none } })
      | none => (true, s1)
    if copy.1 = false then
      some (-ENOMEM, copy.2)
    else
      match wilc_send_connect_wid env copy.2 vif with
      | none => none
      | some (result, s2) =>
        if result ≠ 0 then
          some (result, kfree s2 vif heap_obj.req_ies ((s2.getDrv vif).bind fun d => d.conn_info.req_ies))
        else
          some (0, s2.updDrv vif fun d =>
            { d with connect_timer_vif := some vif,
                     connect_timer := some WILC_HIF_CONNECT_TIMEOUT_MS })

/-- Embedding of `handle_connect_cancel`. -/
def handle_connect_cancel (s : World) (vif : Nat) : Option World :=
  match s.getDrv vif with
  | none => none
  | some hif_drv =>
    let s1 :=
      match hif_drv.conn_info.conn_result with
      | some fn =>
        s.emit (Ev.conn_result vif fn conn_event.CONN_DISCONN_EVENT_DISCONN_NOTIF 0
          hif_drv.conn_info.arg)
      | none => s
    some ((kfree s1 vif heap_obj.req_ies hif_drv.conn_info.req_ies).updDrv vif fun d =>
      { d with assoc_bssid := null_bssid,
               conn_info := { d.conn_info with req_ies_len := 0, req_ies := none },
               hif_state := host_if_state.HOST_IF_IDLE })

/-- Embedding of `handle_connect_timeout` (the task record is not modelled). -/
def handle_connect_timeout (env : Env) (s : World) (vif : Nat) : World :=
  match s.getDrv vif with
  | none => s
  | some hif_drv =>
    let s1 := s.updDrv vif fun d => { d with hif_state := host_if_state.HOST_IF_IDLE }
    let s2 :=
      match hif_drv.conn_info.conn_result with
      | some fn =>
        s1.emit (Ev.conn_result vif fn conn_event.CONN_DISCONN_EVENT_CONN_RESP
          env.h.WILC_MAC_STATUS_DISCONNECTED hif_drv.conn_info.arg)
      | none => s1
    let r := wilc_send_config_pkt env s2 vif cfg_mode.WILC_SET_CFG
      [⟨wid_id.WID_DISCONNECT, wid_type.WID_CHAR, 1, [0, 0]⟩]
    (kfree r.2 vif heap_obj.req_ies hif_drv.conn_info.req_ies).updDrv vif fun d =>
      { d with conn_info := { d.conn_info with req_ies_len := 0, req_ies := none } }

/-! ## Association response and MAC-status events -/

/-- Embedding of `host_int_get_assoc_res_info`: the value is the received length
`*rcvd_assoc_resp_info_len`; the bytes the transport stored are written over the start
of the interface's `assoc_resp` buffer. -/
def host_int_get_assoc_res_info (env : Env) (s : World) (vif : Nat)
    (max_assoc_resp_info_len : Nat) : Nat × World :=
  let buf := ((s.getDrv vif).map fun d => d.assoc_resp).getD []
  let r := wilc_send_config_pkt env s vif cfg_mode.WILC_GET_CFG
    [⟨wid_id.WID_ASSOC_RES_INFO, wid_type.WID_STR, max_assoc_resp_info_len, buf⟩]
  let s1 := r.2.updDrv vif fun d =>
    { d with assoc_resp := r.1.val.take d.assoc_resp.length ++ d.assoc_resp.drop r.1.val.length }
  if r.1.result ≠ 0 then (0, s1) else (r.1.size % 2 ^ 32, s1)

/-- Embedding of `wilc_parse_assoc_resp_info`: the return value and the connection
information it leaves. `ies_len` is the 16-bit truncation of `buffer_len - sizeof(*res)`. -/
def wilc_parse_assoc_resp_info (env : Env) (s : World) (buffer : List Nat) (buffer_len : Nat)
    (ret_conn_info : wilc_conn_info) : Int × wilc_conn_info × World :=
  let status := get_le16 buffer env.h.offsetof_status_code
  let c1 := { ret_conn_info with status := status }
  if status = WLAN_STATUS_SUCCESS then
    let ies := buffer.drop env.h.sizeof_wilc_assoc_resp
    let ies_len := (((buffer_len : Int) - (env.h.sizeof_wilc_assoc_resp : Int)) % 65536).toNat
    let a := kmalloc env s
    if a.1 = false then
      (-ENOMEM, { c1 with resp_ies := none }, a.2)
    else
      (0, { c1 with resp_ies := some (ies.take ies_len), resp_ies_len := ies_len }, a.2)
  else (0, c1, s)

/-- The first statement of `host_int_parse_assoc_resp_info`, the block under
`if (mac_status == WILC_MAC_STATUS_CONNECTED)`: the connection information and the world
after the optional fetch and parse of the association response. -/
def fetch_assoc_resp (env : Env) (s : World) (vif : Nat) (mac_status : Nat)
    (hif_drv : host_if_drv) : wilc_conn_info × World :=
  if mac_status = env.h.WILC_MAC_STATUS_CONNECTED then
    let s0 := s.updDrv vif fun d =>
      { d with assoc_resp := List.replicate env.h.WILC_MAX_ASSOC_RESP_FRAME_SIZE 0 }
    let g := host_int_get_assoc_res_info env s0 vif env.h.WILC_MAX_ASSOC_RESP_FRAME_SIZE
    if g.1 ≠ 0 then
      let assoc_resp := ((g.2.getDrv vif).map fun d => d.assoc_resp).getD []
      let p := wilc_parse_assoc_resp_info env g.2 assoc_resp g.1 hif_drv.conn_info
      (p.2.1, p.2.2)
    else (hif_drv.conn_info, g.2)
  else (hif_drv.conn_info, s)

/-- Embedding of `host_int_parse_assoc_resp_info`. The function calls
`conn_info->conn_result` without a test, so a `NULL` callback has no defined result. -/
def host_int_parse_assoc_resp_info (env : Env) (s : World) (vif : Nat) (mac_status : Nat) :
    Option World :=
  match s.getDrv vif with
  | none => none
  | some hif_drv =>
    match hif_drv.conn_info.conn_result with
    | none => none
    | some fn =>
      let fetched := fetch_assoc_resp env s vif mac_status hif_drv
      let conn_info := fetched.1
      let s2 := (fetched.2.updDrv vif fun d => { d with connect_timer := none }).emit
        (Ev.conn_result vif fn conn_event.CONN_DISCONN_EVENT_CONN_RESP mac_status
          conn_info.arg)
      let s3 :=
        if mac_status = env.h.WILC_MAC_STATUS_CONNECTED ∧
            conn_info.status = WLAN_STATUS_SUCCESS then
          s2.updDrv vif fun d =>
            { d with assoc_bssid := conn_info.bssid,
                     hif_state := host_if_state.HOST_IF_CONNECTED }
        else
          s2.updDrv vif fun d => { d with hif_state := host_if_state.HOST_IF_IDLE }
      let s4 := kfree (kfree s3 vif heap_obj.resp_ies conn_info.resp_ies) vif
        heap_obj.req_ies conn_info.req_ies
      some (s4.updDrv vif fun d =>
        { d with conn_info := { conn_info with
            resp_ies := none, resp_ies_len := 0, req_ies := none, req_ies_len := 0 } })

/-- Embedding of `host_int_handle_disconnect`. -/
def host_int_handle_disconnect (env : Env) (s : World) (vif : Nat) : Option World :=
  match s.getDrv vif with
  | none => none
  | some hif_drv =>
    let s1 :=
      match hif_drv.usr_scan_req.scan_result with
      | some _ =>
        (handle_scan_done env (s.updDrv vif fun d => { d with scan_timer := none }) vif
          scan_event.SCAN_EVENT_ABORTED).2
      | none => s
    let s2 :=
      match hif_drv.conn_info.conn_result with
      | some fn =>
        s1.emit (Ev.conn_result vif fn conn_event.CONN_DISCONN_EVENT_DISCONN_NOTIF 0
          hif_drv.conn_info.arg)
      | none => s1
    some ((kfree s2 vif heap_obj.req_ies hif_drv.conn_info.req_ies).updDrv vif fun d =>
      { d with assoc_bssid := null_bssid,
               conn_info := { d.conn_info with req_ies_len := 0, req_ies := none },
               hif_state := host_if_state.HOST_IF_IDLE })

/-- Embedding of `handle_rcvd_gnrl_async_info`; `status` is `msg->body.mac_info.status`
(the task record is not modelled). -/
def handle_rcvd_gnrl_async_info (env : Env) (s : World) (vif : Nat) (status : Nat) :
    Option World :=
  match s.getDrv vif with
  | none => some s
  | some hif_drv =>
    match hif_drv.conn_info.conn_result with
    | none => some s
    | some _ =>
      if hif_drv.hif_state = host_if_state.HOST_IF_EXTERNAL_AUTH then
        -- `ret` is assigned and never read
        let _ret := env.cfg80211_external_auth_request vif
        some ((s.emit (Ev.external_auth_request vif)).updDrv vif fun d =>
          { d with hif_state := host_if_state.HOST_IF_WAITING_CONN_RESP })
      else if hif_drv.hif_state = host_if_state.HOST_IF_WAITING_CONN_RESP then
        host_int_parse_assoc_resp_info env s vif status
      else if status = env.h.WILC_MAC_STATUS_DISCONNECTED then
        if hif_drv.hif_state = host_if_state.HOST_IF_CONNECTED then
          host_int_handle_disconnect env s vif
        else if hif_drv.usr_scan_req.scan_result.isSome then
          some (handle_scan_done env (s.updDrv vif fun d => { d with scan_timer := none }) vif
            scan_event.SCAN_EVENT_ABORTED).2
        else some s
      else some s

/-! ## Disconnect -/

/-- The interface-list loop of `wilc_disconnect` over the positions `l`: the scan of
every interface in `HOST_IF_SCANNING` is aborted. -/
def abort_scans (env : Env) : List Nat → World → World
  | [], s => s
  | vif_tmp :: l, s =>
    match s.getDrv vif_tmp with
    | none => abort_scans env l s
    | some hif_drv_tmp =>
      if hif_drv_tmp.hif_state = host_if_state.HOST_IF_SCANNING then
        abort_scans env l
          (handle_scan_done env (s.updDrv vif_tmp fun d => { d with scan_timer := none })
            vif_tmp scan_event.SCAN_EVENT_ABORTED).2
      else abort_scans env l s

/-- Embedding of `wilc_disconnect`. -/
def wilc_disconnect (env : Env) (s : World) (vif : Nat) : Option (Int × World) :=
  let s1 := abort_scans env (List.range s.wilc.vif_list.length) s
  let r := wilc_send_config_pkt env s1 vif cfg_mode.WILC_SET_CFG
    [⟨wid_id.WID_DISCONNECT, wid_type.WID_CHAR, 1, [0, 0]⟩]
  if r.1.result ≠ 0 then
    some (r.1.result, r.2)
  else
    match r.2.getDrv vif with
    | none => none
    | some hif_drv =>
      let s2 :=
        match hif_drv.usr_scan_req.scan_result with
        | some fn =>
          ((r.2.updDrv vif fun d => { d with scan_timer := none }).emit
            (Ev.scan_result vif fn scan_event.SCAN_EVENT_ABORTED hif_drv.usr_scan_req.arg)).updDrv
            vif fun d => { d with usr_scan_req := { d.usr_scan_req with scan_result := none } }
        | none => r.2
      let s3 :=
        match hif_drv.conn_info.conn_result with
        | some fn =>
          if hif_drv.hif_state = host_if_state.HOST_IF_WAITING_CONN_RESP ∨
              hif_drv.hif_state = host_if_state.HOST_IF_EXTERNAL_AUTH then
            (s2.updDrv vif fun d => { d with connect_timer := none }).emit
              (Ev.conn_result vif fn conn_event.CONN_DISCONN_EVENT_CONN_RESP
                env.h.WILC_MAC_STATUS_DISCONNECTED hif_drv.conn_info.arg)
          else if hif_drv.hif_state = host_if_state.HOST_IF_CONNECTED then
            s2.emit (Ev.conn_result vif fn conn_event.CONN_DISCONN_EVENT_DISCONN_NOTIF
              env.h.WILC_MAC_STATUS_DISCONNECTED hif_drv.conn_info.arg)
          else s2
        | none => s2
      some (0, (kfree s3 vif heap_obj.req_ies hif_drv.conn_info.req_ies).updDrv vif fun d =>
        { d with hif_state := host_if_state.HOST_IF_IDLE,
                 assoc_bssid := null_bssid,
                 conn_info := { d.conn_info with
                   req_ies_len := 0, req_ies := none, conn_result := none } })

/-! ## Remain on channel -/

/-- The interface-list test of `handle_remain_on_chan`: some interface with a driver
context is in `HOST_IF_SCANNING`, or in a state other than `HOST_IF_IDLE` and
`HOST_IF_CONNECTED`. -/
def roc_busy (w : wilc) : Bool :=
  w.vif_list.any fun vif_tmp =>
    match vif_tmp.hif_drv with
    | none => false
    | some hif_drv_tmp =>
      decide (hif_drv_tmp.hif_state = host_if_state.HOST_IF_SCANNING) ||
      decide (hif_drv_tmp.hif_state ≠ host_if_state.HOST_IF_IDLE ∧
        hif_drv_tmp.hif_state ≠ host_if_state.HOST_IF_CONNECTED)

/-- Embedding of `handle_remain_on_chan`. -/
def handle_remain_on_chan (env : Env) (s : World) (vif : Nat) (hif_remain_ch : wilc_remain_ch) :
    Int × World :=
  match s.getVif vif, s.getDrv vif with
  | some v, some _ =>
    if roc_busy s.wilc then (-EBUSY, s)
    else if v.connecting then (-EBUSY, s)
    else
      let a := kmalloc env s
      if a.1 = false then (-ENOMEM, a.2)
      else
        let r := wilc_send_config_pkt env a.2 vif cfg_mode.WILC_SET_CFG
          [⟨wid_id.WID_REMAIN_ON_CHAN, wid_type.WID_STR, 2, [1, hif_remain_ch.ch % 256]⟩]
        let s1 := kfree r.2 vif heap_obj.wid_val (some ())
        if r.1.result ≠ 0 then (-EBUSY, s1)
        else
          (r.1.result, s1.updDrv vif fun d =>
            { d with remain_on_ch := { d.remain_on_ch with
                       arg := hif_remain_ch.arg, expired := hif_remain_ch.expired,
                       ch := hif_remain_ch.ch, cookie := hif_remain_ch.cookie },
                     hif_state := host_if_state.HOST_IF_P2P_LISTEN,
                     remain_on_ch_timer_vif := some vif })
  | _, _ => (-EFAULT, s)

/-- Embedding of `wilc_remain_on_channel`. -/
def wilc_remain_on_channel (env : Env) (s : World) (vif : Nat) (cookie duration chan : Nat)
    (expired : Option Nat) (user_arg : Nat) : Int × World :=
  handle_remain_on_chan env s vif
    { ch := chan, expired := expired, arg := user_arg, duration := duration, cookie := cookie }

/-- Embedding of `wilc_handle_roc_expired`. -/
def wilc_handle_roc_expired (env : Env) (s : World) (vif : Nat) (cookie : Nat) :
    Option (Int × World) :=
  match s.getDrv vif with
  | none => none
  | some hif_drv =>
    if hif_drv.hif_state = host_if_state.HOST_IF_P2P_LISTEN then
      let a := kmalloc env s
      if a.1 = false then some (-ENOMEM, a.2)
      else
        let r := wilc_send_config_pkt env a.2 vif cfg_mode.WILC_SET_CFG
          [⟨wid_id.WID_REMAIN_ON_CHAN, wid_type.WID_STR, 2, [0, WILC_FALSE_FRMWR_CHANNEL]⟩]
        let s1 := kfree r.2 vif heap_obj.wid_val (some ())
        if r.1.result ≠ 0 then some (-EINVAL, s1)
        else
          let s2 :=
            match hif_drv.remain_on_ch.expired with
            | some fn => s1.emit (Ev.expired vif fn hif_drv.remain_on_ch.arg cookie)
            | none => s1
          some (0, s2.updDrv vif fun d =>
            { d with hif_state :=
                if hif_drv.assoc_bssid = null_bssid then host_if_state.HOST_IF_IDLE
                else host_if_state.HOST_IF_CONNECTED })
    else some (0, s)

/-- Embedding of `wilc_handle_listen_state_expired`, the task of the listen timer;
`cookie` is `msg->body.remain_on_ch.cookie` (the task record is not modelled). The
result of `wilc_handle_roc_expired` is dropped. -/
def wilc_handle_listen_state_expired (env : Env) (s : World) (vif : Nat) (cookie : Nat) :
    Option World :=
  (wilc_handle_roc_expired env s vif cookie).map fun r => r.2

/-- Embedding of `wilc_listen_state_expired`. -/
def wilc_listen_state_expired (env : Env) (s : World) (vif : Nat) (cookie : Nat) :
    Option (Int × World) :=
  match s.getDrv vif with
  | none => some (-EFAULT, s)
  | some _ =>
    wilc_handle_roc_expired env (s.updDrv vif fun d => { d with remain_on_ch_timer := none })
      vif cookie

/-! ## Start of day -/

/-- The driver context `wilc_init` creates: zeroed by `kzalloc`, state `HOST_IF_IDLE`. A
zeroed 6-byte address is `null_bssid`; the other zeroed arrays are empty lists. -/
def hif_drv_init : host_if_drv :=
  { usr_scan_req := { scan_result := none, arg := 0, ch_cnt := 0 },
    conn_info :=
      { bssid := null_bssid, security := 0, auth_type := 0, mfp_type := 0, ch := 0, param := [],
        conn_result := none, arg := 0, status := 0, req_ies := none, req_ies_len := 0,
        resp_ies := none, resp_ies_len := 0 },
    remain_on_ch := { ch := 0, duration := 0, expired := none, arg := 0, cookie := 0 },
    hif_state := host_if_state.HOST_IF_IDLE,
    assoc_bssid := null_bssid,
    assoc_resp := [],
    scan_timer := none, connect_timer := none, remain_on_ch_timer := none,
    scan_timer_vif := none, connect_timer_vif := none, remain_on_ch_timer_vif := none,
    p2p_timeout := 0 }

/-- A device of `n` interfaces, each just set up by `wilc_init`, with nothing recorded. -/
def World.start (n : Nat) : World :=
  { wilc := { vif_list := (List.range n).map fun i =>
      { idx := i, connecting := false, hif_drv := some hif_drv_init } },
    log := [], cfg_calls := 0, allocs := 0 }

/-! ## Runs of the state machine -/

/-- The writes of the wireless-configuration layer into `conn_info` before a join
request. That layer is not part of `hif.c`; the fields are the ones `hif.c` only reads. -/
structure conn_params where
  security : Nat
  auth_type : Nat
  mfp_type : Nat
  ch : Nat
  param : List Nat
  conn_result : Option Nat
  arg : Nat
  deriving DecidableEq, Repr

/-- One step of a run: an operation entry point, a queued task, or a write of the
wireless-configuration layer. -/
inductive Op where
  | scan (vif scan_source scan_type : Nat) (ch_freq_list : Option (List Nat))
      (ch_list_len : Nat) (scan_result_fn : Option Nat) (user_arg : Nat)
      (request : cfg80211_scan_request)
  | set_join_req (vif : Nat) (bssid : Option (List Nat)) (ies : Option (List Nat))
      (ies_len : Nat)
  | remain_on_channel (vif cookie duration chan : Nat) (expired : Option Nat) (user_arg : Nat)
  | disconnect (vif : Nat)
  | listen_state_expired (vif cookie : Nat)
  | connect_cancel (vif : Nat)
  | rcvd_gnrl_async_info (vif status : Nat)
  | scan_complete (vif : Nat)
  | scan_timer (vif : Nat)
  | connect_timeout (vif : Nat)
  | listen_timer (vif cookie : Nat)
  | set_conn_params (vif : Nat) (p : conn_params)
  | set_connecting (vif : Nat) (connecting : Bool)
  deriving DecidableEq, Repr

/-- The interface a step is about. -/
def Op.vif : Op → Nat
  | Op.scan vif _ _ _ _ _ _ _ => vif
  | Op.set_join_req vif _ _ _ => vif
  | Op.remain_on_channel vif _ _ _ _ _ => vif
  | Op.disconnect vif => vif
  | Op.listen_state_expired vif _ => vif
  | Op.connect_cancel vif => vif
  | Op.rcvd_gnrl_async_info vif _ => vif
  | Op.scan_complete vif => vif
  | Op.scan_timer vif => vif
  | Op.connect_timeout vif => vif
  | Op.listen_timer vif _ => vif
  | Op.set_conn_params vif _ => vif
  | Op.set_connecting vif _ => vif

/-- Store into `vif->connecting`. -/
def World.setConnecting (s : World) (vif : Nat) (b : Bool) : World :=
  { s with wilc := { vif_list := s.wilc.vif_list.modify (fun v => { v with connecting := b }) vif } }

/-- The world after one step; `none` when the step has no defined result. Return values
are dropped. -/
def step (env : Env) (s : World) : Op → Option World
  | Op.scan vif scan_source scan_type ch_freq_list ch_list_len scan_result_fn user_arg request =>
    (wilc_scan env s vif scan_source scan_type ch_freq_list ch_list_len scan_result_fn
      user_arg request).map fun r => r.world
  | Op.set_join_req vif bssid ies ies_len =>
    (wilc_set_join_req env s vif bssid ies ies_len).map fun r => r.2
  | Op.remain_on_channel vif cookie duration chan expired user_arg =>
    some (wilc_remain_on_channel env s vif cookie duration chan expired user_arg).2
  | Op.disconnect vif => (wilc_disconnect env s vif).map fun r => r.2
  | Op.listen_state_expired vif cookie =>
    (wilc_listen_state_expired env s vif cookie).map fun r => r.2
  | Op.connect_cancel vif => handle_connect_cancel s vif
  | Op.rcvd_gnrl_async_info vif status => handle_rcvd_gnrl_async_info env s vif status
  | Op.scan_complete vif => handle_scan_complete env s vif
  | Op.scan_timer vif => some (handle_scan_timer env s vif)
  | Op.connect_timeout vif => some (handle_connect_timeout env s vif)
  | Op.listen_timer vif cookie => wilc_handle_listen_state_expired env s vif cookie
  | Op.set_conn_params vif p =>
    some (s.updDrv vif fun d =>
      { d with conn_info := { d.conn_info with
          security := p.security, auth_type := p.auth_type, mfp_type := p.mfp_type, ch := p.ch,
          param := p.param, conn_result := p.conn_result, arg := p.arg } })
  | Op.set_connecting vif b => some (s.setConnecting vif b)

/-- The world after a sequence of steps. -/
def run (env : Env) : World → List Op → Option World
  | s, [] => some s
  | s, op :: ops =>
    match step env s op with
    | none => none
    | some s1 => run env s1 ops

/-- State of interface `vif`, when it has a driver context. -/
def World.state (s : World) (vif : Nat) : Option host_if_state :=
  (s.getDrv vif).map fun d => d.hif_state

/-- A state in which the interface holds the radio outside normal operation according to
the specification: every state but `HOST_IF_IDLE` and `HOST_IF_CONNECTED`. -/
def host_if_state.exclusive (st : host_if_state) : Bool :=
  decide (st ≠ host_if_state.HOST_IF_IDLE ∧ st ≠ host_if_state.HOST_IF_CONNECTED)

/-- A state that only an accepted scan or remain-on-channel request stands for. -/
def host_if_state.scan_or_listen (st : host_if_state) : Bool :=
  decide (st = host_if_state.HOST_IF_SCANNING ∨ st = host_if_state.HOST_IF_P2P_LISTEN)

/-- At most one interface is in a state selected by `p`. -/
def at_most_one (p : host_if_state → Bool) (s : World) : Prop :=
  ∀ i j st_i st_j, s.state i = some st_i → s.state j = some st_j →
    p st_i = true → p st_j = true → i = j

/-! ## Reading the record -/

/-- Calls of the connect-result callback of interface `vif`. -/
def is_conn_result (vif : Nat) : Ev → Bool
  | Ev.conn_result v _ _ _ _ => v == vif
  | _ => false

/-- Calls of the scan-result callback of interface `vif` with `SCAN_EVENT_ABORTED`. -/
def is_scan_aborted (vif : Nat) : Ev → Bool
  | Ev.scan_result v _ scan_event.SCAN_EVENT_ABORTED _ => v == vif
  | _ => false

/-- Calls of the expired-callback of interface `vif`. -/
def is_expired (vif : Nat) : Ev → Bool
  | Ev.expired v _ _ _ => v == vif
  | _ => false

/-- Transport round trips. -/
def is_send_config_pkt : Ev → Bool
  | Ev.send_config_pkt _ _ _ => true
  | _ => false

/-! ## Sample inputs -/

/-- Errno value `EIO` of the Linux kernel ABI. -/
def EIO_errno : Int := 5

/-- Sample header values (those of the upstream driver). -/
def sample_h : netdev_h :=
  { WILC_MAC_STATUS_DISCONNECTED := 0, WILC_MAC_STATUS_CONNECTED := 1, WILC_FW_AUTH_SAE := 128,
    WILC_FW_PASSIVE_SCAN := 0, WILC_MAX_ASSOC_RESP_FRAME_SIZE := 256,
    sizeof_wilc_assoc_resp := 6, offsetof_status_code := 2, sizeof_wilc_join_bss_param := 100,
    WILC_NUM_CONCURRENT_IFC := 2, WILC_ADD_STA_LENGTH := 40, WILC_MAX_RATES_SUPPORTED := 12,
    TCP_ACK_FILTER_LINK_SPEED_THRESH := 54, DEFAULT_LINK_SPEED := 72, WILC_MAX_NUM_STA := 9 }

/-- Sample collaborators: every round trip succeeds and stores nothing, every allocation
succeeds. -/
def env_ok : Env :=
  { h := sample_h, scan_duration_supported := true, sizeof_pointer := 8,
    send_config_pkt := fun _ _ => { result := 0, size := 0, val := [] },
    kmalloc := fun _ => true,
    garbage := fun _ _ => 170,
    queue_work := fun _ => true,
    cfg80211_external_auth_request := fun _ => 0 }

/-- Sample collaborators: every round trip fails with `-EIO`. -/
def env_fail : Env :=
  { env_ok with send_config_pkt := fun _ _ => { result := -EIO_errno, size := 0, val := [] } }

/-- Sample collaborators: every SET succeeds and every GET fails with `-EIO`. -/
def env_get_fails : Env :=
  { env_ok with send_config_pkt := fun _ r =>
      { result := if r.mode = cfg_mode.WILC_GET_CFG then -EIO_errno else 0, size := 0, val := [] } }

/-- Sample collaborators: every round trip succeeds and a GET stores an 8-byte association
response whose status code is 17. -/
def env_refused : Env :=
  { env_ok with send_config_pkt := fun _ _ =>
      { result := 0, size := 8, val := [1, 4, 17, 0, 0, 0, 1, 0] } }

/-- Sample collaborators: every round trip succeeds and a GET stores an 8-byte association
response whose status code is 0 (success). -/
def env_accepted : Env :=
  { env_ok with send_config_pkt := fun _ _ =>
      { result := 0, size := 8, val := [1, 4, 0, 0, 1, 192, 1, 0] } }

/-- Sample driver context in state `st`: callbacks registered, a request-IE buffer, a
requested BSSID and the association `assoc`. -/
def sample_drv (st : host_if_state) (assoc : List Nat) : host_if_drv :=
  { hif_drv_init with
    hif_state := st,
    assoc_bssid := assoc,
    usr_scan_req := { scan_result := some 5, arg := 6, ch_cnt := 0 },
    remain_on_ch := { ch := 6, duration := 100, expired := some 3, arg := 4, cookie := 8 },
    conn_info := { hif_drv_init.conn_info with
      bssid := [2, 0, 0, 0, 0, 1], conn_result := some 1, arg := 2,
      req_ies := some [48, 0], req_ies_len := 2 } }

/-- Sample device of two interfaces: interface 0 holds `sample_drv st assoc`, interface
1 is as `wilc_init` left it. -/
def sample_world (st : host_if_state) (assoc : List Nat) : World :=
  (World.start 2).updDrv 0 fun _ => sample_drv st assoc

/-! ## Notions used in the statements and proofs -/

/-- The transport's answer to the GET of `WID_ASSOC_RES_INFO` that
`host_int_parse_assoc_resp_info` makes for interface `vif` in world `s`. -/
def assoc_reply (env : Env) (s : World) (vif : Nat) : Reply :=
  env.send_config_pkt s.cfg_calls
    ⟨vif, cfg_mode.WILC_GET_CFG,
      [⟨wid_id.WID_ASSOC_RES_INFO, wid_type.WID_STR, env.h.WILC_MAX_ASSOC_RESP_FRAME_SIZE,
        List.replicate env.h.WILC_MAX_ASSOC_RESP_FRAME_SIZE 0⟩]⟩

/-- The `assoc_resp` buffer after that GET: the stored bytes over the zeroed buffer. -/
def assoc_buffer (env : Env) (s : World) (vif : Nat) : List Nat :=
  (assoc_reply env s vif).val.take env.h.WILC_MAX_ASSOC_RESP_FRAME_SIZE ++
    (List.replicate env.h.WILC_MAX_ASSOC_RESP_FRAME_SIZE 0).drop (assoc_reply env s vif).val.length

/-- Two driver contexts differ at most in the scan timer and the pending scan callback. -/
def same_but_scan (d d1 : host_if_drv) : Prop :=
  d1 = { d with scan_timer := d1.scan_timer,
                usr_scan_req := { d.usr_scan_req with scan_result := d1.usr_scan_req.scan_result } }

/-- Number of scan callbacks an interface still has pending: 1 or 0. -/
def pending_scan (s : World) (vif : Nat) : Nat :=
  match s.getDrv vif with
  | some d => if d.usr_scan_req.scan_result.isSome then 1 else 0
  | none => 0

/-- What a step on interface `vif` may do to the states of the device: every interface
keeps its state, except that `vif` may move to a state that is neither
`HOST_IF_SCANNING` nor `HOST_IF_P2P_LISTEN`. -/
def Frame (vif : Nat) (s s1 : World) : Prop :=
  ∀ j, s1.state j = s.state j ∨
    (j = vif ∧ (s.state j).isSome ∧ ∃ st, s1.state j = some st ∧ st.scan_or_listen = false)

/-- An accepted remain-on-channel request of interface `vif`: no interface was outside
`HOST_IF_IDLE` and `HOST_IF_CONNECTED`, and only `vif` changes state. -/
def Granted (vif : Nat) (s s1 : World) : Prop :=
  scan_busy s.wilc = false ∧ (s.state vif).isSome ∧
    s1.state vif = some host_if_state.HOST_IF_P2P_LISTEN ∧ ∀ j, j ≠ vif → s1.state j = s.state j

/-- Every one of the first `n` interfaces has a driver context. -/
def Present (n : Nat) (s : World) : Prop :=
  ∀ j, j < n → (s.state j).isSome

/-! ## Interface index -/

/-- Embedding of `wilc_get_vif_idx`: the index the device uses for an interface whose
`idx` field is `idx`. -/
def wilc_get_vif_idx (v : wilc_vif) : Int :=
  (v.idx : Int) + 1

/-- The loop of `wilc_get_vif_from_idx`: position (counted from `pos`) of the first
interface of the list whose `idx` field equals `index`. -/
def find_vif (index : Int) : List wilc_vif → Nat → Option Nat
  | [], _ => none
  | v :: l, pos => if (v.idx : Int) = index then some pos else find_vif index l (pos + 1)

/-- The value of an integer stored to an `int` (two's complement, 32 bits). -/
def wrap_int (x : Int) : Int :=
  (x + 2147483648) % 4294967296 - 2147483648

/-- Embedding of `wilc_get_vif_from_idx`. The result is the interface found, named by its
position in the list; `none` is `NULL`. The subtraction is done in `int`. -/
def wilc_get_vif_from_idx (h : netdev_h) (w : wilc) (idx : Int) : Option Nat :=
  let index := wrap_int (idx - 1)
  if index < 0 ∨ index ≥ (h.WILC_NUM_CONCURRENT_IFC : Int) then none
  else find_vif index w.vif_list 0

/-! ## Work queue and event decoders -/

/-- Little-endian 32-bit value at offset `off` of `buf` (bytes missing from `buf` read 0). -/
def get_unaligned_le32 (buf : List Nat) (off : Nat) : Nat :=
  (buf.getD off 0) % 256 + 256 * ((buf.getD (off + 1) 0) % 256)
    + 65536 * ((buf.getD (off + 2) 0) % 256) + 16777216 * ((buf.getD (off + 3) 0) % 256)

/-- The value of a `u32` stored to an `int`. -/
def int_of_u32 (x : Nat) : Int :=
  if x % 4294967296 < 2147483648 then ((x % 4294967296 : Nat) : Int)
  else ((x % 4294967296 : Nat) : Int) - 4294967296

/-- The interface index a frame ends with: `get_unaligned_le32(&buffer[length - 4])`, with
`length - 4` computed in `u32`. -/
def frame_id (buffer : List Nat) (length : Nat) : Int :=
  int_of_u32 (get_unaligned_le32 buffer ((length % 4294967296 + 4294967296 - 4) % 4294967296))

/-- Embedding of `wilc_alloc_work` as called by the decoders (the handler is never `NULL`
there): the allocation of the task record. -/
def wilc_alloc_work (env : Env) (s : World) : Bool × World :=
  kmalloc env s

/-- Embedding of `wilc_enqueue_work` for an existing interface: `-EINVAL` when the device
has no work queue or `queue_work` refuses the task, otherwise the task is queued. -/
def wilc_enqueue_work (env : Env) (s : World) (vif : Nat) (msg : host_if_msg) : Int × World :=
  if env.queue_work s.allocs then (0, s.emit (Ev.queue_work vif msg)) else (-EINVAL, s)

/-- Embedding of `wilc_network_info_received`. `frame_len` is a `u16` field of the task
record. -/
def wilc_network_info_received (env : Env) (s : World) (buffer : List Nat) (length : Nat) :
    World :=
  let id := frame_id buffer length
  match wilc_get_vif_from_idx env.h s.wilc id with
  | none => s
  | some vif =>
    match s.getDrv vif with
    | none => s
    | some _ =>
      let a := wilc_alloc_work env s
      if a.1 = false then a.2
      else
        let frame_len := (get_le16 buffer 6 + 65536 - 1) % 65536
        let rssi := buffer.getD 8 0
        let m := kmalloc env a.2
        if m.1 = false then m.2.emit (Ev.kfree vif heap_obj.msg)
        else
          let mgmt := (buffer.drop 9).take frame_len
          let r := wilc_enqueue_work env m.2 vif
            (host_if_msg.handle_rcvd_ntwrk_info frame_len rssi mgmt)
          if r.1 ≠ 0 then
            (r.2.emit (Ev.kfree vif heap_obj.mgmt)).emit (Ev.kfree vif heap_obj.msg)
          else r.2

/-- Embedding of `wilc_gnrl_async_info_received`. -/
def wilc_gnrl_async_info_received (env : Env) (s : World) (buffer : List Nat) (length : Nat) :
    World :=
  let id := frame_id buffer length
  match wilc_get_vif_from_idx env.h s.wilc id with
  | none => s
  | some vif =>
    match s.getDrv vif with
    | none => s
    | some hif_drv =>
      if hif_drv.conn_info.conn_result = none then s
      else
        let a := wilc_alloc_work env s
        if a.1 = false then a.2
        else
          let r := wilc_enqueue_work env a.2 vif
            (host_if_msg.handle_rcvd_gnrl_async_info (buffer.getD 7 0))
          if r.1 ≠ 0 then r.2.emit (Ev.kfree vif heap_obj.msg) else r.2

/-- Embedding of `wilc_scan_complete_received`. -/
def wilc_scan_complete_received (env : Env) (s : World) (buffer : List Nat) (length : Nat) :
    World :=
  let id := frame_id buffer length
  match wilc_get_vif_from_idx env.h s.wilc id with
  | none => s
  | some vif =>
    match s.getDrv vif with
    | none => s
    | some hif_drv =>
      if hif_drv.usr_scan_req.scan_result ≠ none then
        let a := wilc_alloc_work env s
        if a.1 = false then a.2
        else
          let r := wilc_enqueue_work env a.2 vif host_if_msg.handle_scan_complete
          if r.1 ≠ 0 then r.2.emit (Ev.kfree vif heap_obj.msg) else r.2
      else s

/-- Whether an entry of the record is the submission of a task. -/
def is_queue_work : Ev → Bool
  | Ev.queue_work _ _ => true
  | _ => false

/-! ## Station parameters -/

/-- Value of `sizeof(struct ieee80211_ht_cap)`. -/
def sizeof_ieee80211_ht_cap : Nat := 26

/-- The message body `struct add_sta_param`. `bssid` is the six-byte array,
`supported_rates` the buffer behind the pointer (`none` is `NULL`), `ht_capa` the bytes of
the `struct ieee80211_ht_cap`. -/
structure add_sta_param where
  bssid : List Nat
  aid : Nat
  supported_rates_len : Nat
  supported_rates : Option (List Nat)
  ht_supported : Bool
  ht_capa : List Nat
  flags_mask : Nat
  flags_set : Nat
  deriving DecidableEq, Repr

/-- Store of `bytes` to `buf` from offset `off` on; the other bytes of `buf` stay. -/
def poke (buf : List Nat) (off : Nat) (bytes : List Nat) : List Nat :=
  buf.take off ++ bytes ++ buf.drop (off + bytes.length)

/-- The two bytes `put_unaligned_le16` stores. -/
def put_unaligned_le16 (v : Nat) : List Nat :=
  [v % 256, v / 256 % 256]

/-- Embedding of `wilc_hif_pack_sta_param`: `buf` is the buffer `cur_byte` points into, with
the bytes it held before; the result is the buffer after the stores. `cur` is the offset of
`cur_byte` from the start. -/
def wilc_hif_pack_sta_param (buf : List Nat) (params : add_sta_param) : List Nat :=
  let buf := poke buf 0 params.bssid
  let cur := ETH_ALEN
  let buf := poke buf cur (put_unaligned_le16 params.aid)
  let cur := cur + 2
  let buf := poke buf cur [params.supported_rates_len % 256]
  let cur := cur + 1
  let buf :=
    if params.supported_rates_len > 0 then
      poke buf cur ((params.supported_rates.getD []).take params.supported_rates_len)
    else buf
  let cur := cur + params.supported_rates_len
  let buf :=
    if params.ht_supported then poke (poke buf cur [1]) (cur + 1) params.ht_capa
    else poke buf cur [0]
  let cur := cur + 1 + sizeof_ieee80211_ht_cap
  let buf := poke buf cur (put_unaligned_le16 params.flags_mask)
  let cur := cur + 2
  poke buf cur (put_unaligned_le16 params.flags_set)

/-- The buffer a successful allocation number `n` of `size` bytes hands out. -/
def fresh_buffer (env : Env) (n size : Nat) : List Nat :=
  (List.range size).map (env.garbage n)

/-- Embedding of `handle_add_station`, the task `wilc_add_station` queues, for the
parameters carried by its task record. -/
def handle_add_station (env : Env) (s : World) (vif : Nat) (params : add_sta_param) : World :=
  let size := env.h.WILC_ADD_STA_LENGTH + params.supported_rates_len
  let a := kmalloc env s
  let s1 :=
    if a.1 = false then a.2
    else
      let val := wilc_hif_pack_sta_param (fresh_buffer env s.allocs size) params
      let r := wilc_send_config_pkt env a.2 vif cfg_mode.WILC_SET_CFG
        [⟨wid_id.WID_ADD_STA, wid_type.WID_BIN, size, val⟩]
      kfree r.2 vif heap_obj.wid_val (some val)
  let s2 := kfree s1 vif heap_obj.supported_rates params.supported_rates
  s2.emit (Ev.kfree vif heap_obj.msg)

/-- Sample station parameters: four rates, no HT capabilities. -/
def sample_sta : add_sta_param :=
  { bssid := [2, 0, 0, 0, 0, 9], aid := 258, supported_rates_len := 4,
    supported_rates := some [2, 4, 11, 22], ht_supported := false,
    ht_capa := List.replicate 26 0, flags_mask := 3, flags_set := 513 }

/-- Sample station parameters with HT capabilities. -/
def sample_sta_ht : add_sta_param :=
  { sample_sta with ht_supported := true, ht_capa := (List.range 26).map fun i => i + 100 }

/-- A scan request with two SSIDs, of lengths 4 and 8, each in its 32-byte array. -/
def sample_scan_request : cfg80211_scan_request :=
  { ssids := [⟨[119, 105, 108, 99] ++ List.replicate 28 0, 4⟩,
              ⟨[101, 109, 98, 101, 100, 100, 101, 100] ++ List.replicate 24 0, 8⟩],
    ie := [], ie_len := 0, duration := 0 }

/-- A frame of 15 bytes for interface index `id`: header, the 16-bit value 259 at offset 6
(its high byte, at offset 7, is the MAC status 1), byte 200 at offset 8, two payload bytes,
and the index in the last four bytes. -/
def sample_frame (id : Nat) : List Nat :=
  [73, 0, 15, 0, 0, 0, 3, 1, 200, 9, 8, id, 0, 0, 0]

/-! ## Bytes the event decoders read -/

/-- Whether an entry of the record is the call of a callback. -/
def is_callback : Ev → Bool
  | Ev.scan_result _ _ _ _ => true
  | Ev.scan_result_info _ _ _ _ _ => true
  | Ev.conn_result _ _ _ _ _ => true
  | Ev.expired _ _ _ _ => true
  | _ => false

/-! ## Teardown -/

/-- Store of `NULL` to `vif->hif_drv` of the interface at position `vif`. -/
def World.detach (s : World) (vif : Nat) : World :=
  { s with wilc := { vif_list := s.wilc.vif_list.modify (fun v => { v with hif_drv := none }) vif } }

/-- Embedding of `wilc_deinit`. The four cancellations are recorded, since the context that
holds three of the timers is released at the end; `deinit_lock` is not modelled. -/
def wilc_deinit (s : World) (vif : Nat) : Int × World :=
  match s.getDrv vif with
  | none => (-EFAULT, s)
  | some hif_drv =>
    let s1 := (s.emit (Ev.del_timer_sync vif timer_id.scan_timer)).updDrv vif fun d =>
      { d with scan_timer := none }
    let s2 := (s1.emit (Ev.del_timer_sync vif timer_id.connect_timer)).updDrv vif fun d =>
      { d with connect_timer := none }
    let s3 := s2.emit (Ev.del_timer_sync vif timer_id.periodic_rssi)
    let s4 := (s3.emit (Ev.del_timer_sync vif timer_id.remain_on_ch_timer)).updDrv vif fun d =>
      { d with remain_on_ch_timer := none }
    let s5 :=
      match hif_drv.usr_scan_req.scan_result with
      | some fn =>
        (s4.emit (Ev.scan_result vif fn scan_event.SCAN_EVENT_ABORTED
          hif_drv.usr_scan_req.arg)).updDrv vif fun d =>
            { d with usr_scan_req := { d.usr_scan_req with scan_result := none } }
      | none => s4
    let s6 := s5.updDrv vif fun d => { d with hif_state := host_if_state.HOST_IF_IDLE }
    (0, (s6.emit (Ev.kfree vif heap_obj.hif_drv)).detach vif)

/-! ## Statistics -/

/-- The statistics record `struct rf_info`. -/
structure rf_info where
  link_speed : Nat
  rssi : Nat
  tx_cnt : Nat
  rx_cnt : Nat
  tx_fail_cnt : Nat
  deriving DecidableEq, Repr

/-- The four bytes `put_unaligned_le32` stores. -/
def put_unaligned_le32 (v : Nat) : List Nat :=
  [v % 256, v / 256 % 256, v / 65536 % 256, v / 16777216 % 256]

/-- What `wilc_get_statistics` hands back: its return value, the caller's record as the
call left it, and the world. -/
structure statistics_outcome where
  result : Int
  stats : rf_info
  world : World
  deriving DecidableEq, Repr

/-- The record after the transport has stored the reply bytes `val` through the five value
pointers: one byte each for `link_speed` and `rssi`, four bytes each for the counters; a
field the reply does not reach keeps its value. -/
def stats_stored (stats : rf_info) (val : List Nat) : rf_info :=
  { link_speed := if 1 ≤ val.length then val.getD 0 0 % 256 else stats.link_speed,
    rssi := if 2 ≤ val.length then val.getD 1 0 % 256 else stats.rssi,
    tx_cnt := if 6 ≤ val.length then get_unaligned_le32 val 2 else stats.tx_cnt,
    rx_cnt := if 10 ≤ val.length then get_unaligned_le32 val 6 else stats.rx_cnt,
    tx_fail_cnt := if 14 ≤ val.length then get_unaligned_le32 val 10 else stats.tx_fail_cnt }

/-- Embedding of `wilc_get_statistics`. The local `result` is a `u32`: the return value of
the transport is reduced to 32 bits, tested, and handed back as an `int`. -/
def wilc_get_statistics (env : Env) (s : World) (vif : Nat) (stats : rf_info) :
    statistics_outcome :=
  let wid_list : List wid :=
    [⟨wid_id.WID_LINKSPEED, wid_type.WID_CHAR, 1, [stats.link_speed]⟩,
     ⟨wid_id.WID_RSSI, wid_type.WID_CHAR, 1, [stats.rssi]⟩,
     ⟨wid_id.WID_SUCCESS_FRAME_COUNT, wid_type.WID_INT, 4, put_unaligned_le32 stats.tx_cnt⟩,
     ⟨wid_id.WID_RECEIVED_FRAGMENT_COUNT, wid_type.WID_INT, 4, put_unaligned_le32 stats.rx_cnt⟩,
     ⟨wid_id.WID_FAILED_COUNT, wid_type.WID_INT, 4, put_unaligned_le32 stats.tx_fail_cnt⟩]
  let r := wilc_send_config_pkt env s vif cfg_mode.WILC_GET_CFG wid_list
  let stats1 := stats_stored stats r.1.val
  let result : Int := r.1.result % 4294967296
  if result ≠ 0 then ⟨wrap_int result, stats1, r.2⟩
  else if stats1.link_speed > env.h.TCP_ACK_FILTER_LINK_SPEED_THRESH ∧
      stats1.link_speed ≠ env.h.DEFAULT_LINK_SPEED then
    ⟨wrap_int result, stats1, r.2.emit (Ev.wilc_enable_tcp_ack_filter vif true)⟩
  else if stats1.link_speed ≠ env.h.DEFAULT_LINK_SPEED then
    ⟨wrap_int result, stats1, r.2.emit (Ev.wilc_enable_tcp_ack_filter vif false)⟩
  else ⟨wrap_int result, stats1, r.2⟩

/-! ## Buffered EAP frames -/

/-- Embedding of `wilc_send_buffered_eap`. `vif` and the two function pointers may be
`NULL`; `buff` is the memory behind the caller's pointer. `size + pkt_offset` is computed
in `unsigned int`. The buffer `kmalloc` returns is not tested: when the allocation fails,
`memcpy` stores `size + pkt_offset` bytes through `NULL`, which has no defined result
(`none`) unless the count is 0. -/
def wilc_send_buffered_eap (env : Env) (s : World) (vif : Option Nat)
    (deliver_to_stack eap_buf_param : Option Nat) (buff : List Nat)
    (size pkt_offset user_arg : Nat) : Option (Int × World) :=
  match vif, deliver_to_stack, eap_buf_param with
  | some vif, some deliver, some param =>
    let a := wilc_alloc_work env s
    if a.1 = false then some (-ENOMEM, a.2)
    else
      let n := (size + pkt_offset) % 4294967296
      let b := kmalloc env a.2
      if b.1 = false ∧ 0 < n then none
      else
        let copy : Option (List Nat) := if b.1 then some (buff.take n) else none
        let r := wilc_enqueue_work env b.2 vif
          (host_if_msg.handle_send_buffered_eap deliver param copy size pkt_offset user_arg)
        if r.1 ≠ 0 then
          some (r.1, (kfree r.2 vif heap_obj.send_buff_eap_buff copy).emit
            (Ev.kfree vif heap_obj.msg))
        else some (r.1, r.2)
  | _, _, _ => some (-EFAULT, s)

/-- Sample collaborators: the first allocation succeeds and every later one fails. -/
def env_second_alloc_fails : Env :=
  { env_ok with kmalloc := fun n => decide (n = 0) }

/-! ## Beacon -/

/-- The fields of `struct cfg80211_beacon_data` that `wilc_add_beacon` reads; `head` and
`tail` are the memory behind the two pointers. -/
structure cfg80211_beacon_data where
  head : List Nat
  tail : List Nat
  head_len : Nat
  tail_len : Nat
  deriving DecidableEq, Repr

/-- The bytes `wilc_add_beacon` leaves in the zeroed buffer of `size` bytes; `cur` is the
offset of `cur_byte` from the start. -/
def beacon_bytes (size interval dtim_period : Nat) (params : cfg80211_beacon_data) :
    List Nat :=
  let buf := List.replicate size 0
  let buf := poke buf 0 (put_unaligned_le32 interval)
  let cur := 4
  let buf := poke buf cur (put_unaligned_le32 dtim_period)
  let cur := cur + 4
  let buf := poke buf cur (put_unaligned_le32 params.head_len)
  let cur := cur + 4
  let buf :=
    if params.head_len > 0 then poke buf cur (params.head.take params.head_len) else buf
  let cur := cur + params.head_len
  let buf := poke buf cur (put_unaligned_le32 params.tail_len)
  let cur := cur + 4
  if params.tail_len > 0 then poke buf cur (params.tail.take params.tail_len) else buf

/-- Embedding of `wilc_add_beacon`. -/
def wilc_add_beacon (env : Env) (s : World) (vif : Nat) (interval dtim_period : Nat)
    (params : cfg80211_beacon_data) : Int × World :=
  let size := params.head_len + params.tail_len + 16
  let a := kmalloc env s
  if a.1 = false then (-ENOMEM, a.2)
  else
    let val := beacon_bytes size interval dtim_period params
    let r := wilc_send_config_pkt env a.2 vif cfg_mode.WILC_SET_CFG
      [⟨wid_id.WID_ADD_BEACON, wid_type.WID_BIN, size, val⟩]
    (r.1.result, kfree r.2 vif heap_obj.wid_val (some val))

/-- A sample beacon: three head bytes and two tail bytes. -/
def sample_beacon : cfg80211_beacon_data :=
  { head := [128, 0, 7], tail := [221, 9], head_len := 3, tail_len := 2 }

/-! ## Join parameters -/

/-- Maximum length of an SSID (`linux/ieee80211.h`). -/
def IEEE80211_MAX_SSID_LEN : Nat := 32
/-- Element identifier of the SSID (`linux/ieee80211.h`). -/
def WLAN_EID_SSID : Nat := 0
/-- Element identifier of the supported rates (`linux/ieee80211.h`). -/
def WLAN_EID_SUPP_RATES : Nat := 1
/-- Element identifier of the extended supported rates (`linux/ieee80211.h`). -/
def WLAN_EID_EXT_SUPP_RATES : Nat := 50

/-- The walk of the kernel's `cfg80211_find_ie` over a buffer of information elements: the
first element with identifier `eid` among the elements that lie whole within the buffer.
The result is the memory from the identifier byte of that element on. `fuel` bounds the
number of elements walked. -/
def find_ie_from (eid : Nat) : Nat → List Nat → Option (List Nat)
  | 0, _ => none
  | fuel + 1, id :: len :: rest =>
    if len ≤ rest.length then
      if id = eid then some (id :: len :: rest) else find_ie_from eid fuel (rest.drop len)
    else none
  | _ + 1, _ => none

/-- The kernel's `cfg80211_find_ie(eid, ies, len)`, `ies` being the `len` bytes of the
buffer. Every element takes at least two bytes, so the walk ends within `len` steps. -/
def cfg80211_find_ie (eid : Nat) (ies : List Nat) : Option (List Nat) :=
  find_ie_from eid ies.length ies

/-- The fields `ssid` and `supp_rates` of `struct wilc_join_bss_param`, arrays of
`IEEE80211_MAX_SSID_LEN` and `WILC_MAX_RATES_SUPPORTED + 1` bytes. -/
structure wilc_join_bss_param where
  ssid : List Nat
  supp_rates : List Nat
  deriving DecidableEq, Repr

/-- Embedding of `wilc_parse_join_bss_param` for the fields `ssid` and `supp_rates` of its
result: the statements that fill the other fields read neither of the two. `ies` is
`bss->ies->data`, of `bss->ies->len` bytes; `none` is the `NULL` returned when the
allocation fails. `rates_len`, `ext_rates` and the array entries are `u8`. -/
def wilc_parse_join_bss_param (env : Env) (s : World) (ies : List Nat) :
    Option wilc_join_bss_param × World :=
  let a := kmalloc env s
  if a.1 = false then (none, a.2)
  else
    let M := env.h.WILC_MAX_RATES_SUPPORTED
    let ssid0 := List.replicate IEEE80211_MAX_SSID_LEN 0
    let rates0 := List.replicate (M + 1) 0
    let ssid :=
      match cfg80211_find_ie WLAN_EID_SSID ies with
      | some ssid_elm =>
        if ssid_elm.getD 1 0 ≤ IEEE80211_MAX_SSID_LEN then
          poke ssid0 0 ((ssid_elm.drop 2).take (ssid_elm.getD 1 0))
        else ssid0
      | none => ssid0
    let rates_ie := cfg80211_find_ie WLAN_EID_SUPP_RATES ies
    let rates_len : Nat :=
      match rates_ie with
      | some e => if e.getD 1 0 > M then M % 256 else e.getD 1 0
      | none => 0
    let supp :=
      match rates_ie with
      | some e => poke (poke rates0 0 [rates_len]) 1 ((e.drop 2).take rates_len)
      | none => rates0
    let supp :=
      if rates_len < M then
        match cfg80211_find_ie WLAN_EID_EXT_SUPP_RATES ies with
        | some e =>
          let ext_rates := e.getD 1 0
          let cnt := if ext_rates > M - rates_len then M % 256
            else (supp.getD 0 0 + ext_rates) % 256
          poke (poke supp 0 [cnt]) (rates_len + 1) ((e.drop 2).take (cnt - rates_len))
        | none => supp
      else supp
    (some ⟨ssid, supp⟩, a.2)

/-- The length byte of an element found by `cfg80211_find_ie`, 0 when there is none. -/
def ie_len (e : Option (List Nat)) : Nat :=
  match e with
  | some e => e.getD 1 0
  | none => 0

/-- The payload of an element found by `cfg80211_find_ie`, empty when there is none. -/
def ie_payload (e : Option (List Nat)) : List Nat :=
  match e with
  | some e => (e.drop 2).take (e.getD 1 0)
  | none => []

/-- Sample information elements: an SSID of 4 bytes, 8 supported rates and 6 extended
supported rates. -/
def sample_ies : List Nat :=
  [0, 4, 119, 105, 108, 99] ++ [1, 8, 130, 132, 139, 150, 12, 18, 24, 36] ++
    [50, 6, 48, 72, 96, 108, 22, 44]

/-- Sample information elements whose SSID element announces 33 bytes. -/
def long_ssid_ies : List Nat :=
  [0, 33] ++ (List.range 33).map fun i => i + 65

/-! ## Multicast filter -/

/-- The message body `struct wilc_set_multicast`; `mc_list` is the memory behind the
pointer (`none` is `NULL`). `enabled` and `cnt` are `u32`. -/
structure wilc_set_multicast where
  enabled : Nat
  cnt : Nat
  mc_list : Option (List Nat)
  deriving DecidableEq, Repr

/-- Value of `sizeof(struct wilc_set_multicast)`: the two `u32` fields and the pointer
`mc_list`; with a pointer of 4 or 8 bytes the structure has no padding. -/
def sizeof_wilc_set_multicast (env : Env) : Nat :=
  4 + 4 + env.sizeof_pointer

/-- Embedding of `handle_set_mcast_filter`, the task `wilc_setup_multicast_filter` queues,
for the body carried by its task record. `cnt * ETH_ALEN` is computed in `u32`; the buffer
comes from `kmalloc`, so it holds what the allocator left in it. -/
def handle_set_mcast_filter (env : Env) (s : World) (vif : Nat) (set_mc : wilc_set_multicast) :
    World :=
  let size := sizeof_wilc_set_multicast env + set_mc.cnt * ETH_ALEN % 4294967296
  let a := kmalloc env s
  let val : Option (List Nat) :=
    if a.1 = false then none
    else
      let buf := fresh_buffer env s.allocs size
      let buf := poke buf 0 (put_unaligned_le32 set_mc.enabled)
      let cur := 4
      let buf := poke buf cur (put_unaligned_le32 set_mc.cnt)
      let cur := cur + 4
      match set_mc.mc_list with
      | some mc_list =>
        if set_mc.cnt > 0 then poke buf cur (mc_list.take (set_mc.cnt * ETH_ALEN % 4294967296))
        else buf
      | none => buf
  let s1 :=
    match val with
    | some v =>
      (wilc_send_config_pkt env a.2 vif cfg_mode.WILC_SET_CFG
        [⟨wid_id.WID_SETUP_MULTICAST_FILTER, wid_type.WID_BIN, size, v⟩]).2
    | none => a.2
  let s2 := kfree s1 vif heap_obj.mc_list set_mc.mc_list
  let s3 := kfree s2 vif heap_obj.wid_val val
  s3.emit (Ev.kfree vif heap_obj.msg)

/-- A sample multicast filter: enabled, one address. -/
def sample_mc : wilc_set_multicast :=
  { enabled := 1, cnt := 1, mc_list := some [1, 0, 94, 0, 0, 251] }

/-- Sample collaborators: as `env_ok`, with fresh allocations holding zeros. -/
def env_zero_garbage : Env :=
  { env_ok with garbage := fun _ _ => 0 }

/-- Sample collaborators: as `env_ok`, on a host with pointers of 4 bytes. -/
def env_32bit : Env :=
  { env_ok with sizeof_pointer := 4 }

/-- Sample collaborators: every allocation fails. -/
def env_no_memory : Env :=
  { env_ok with kmalloc := fun _ => false }

/-! ## Buffer of the SSID attribute -/

/-- Size of the buffer `wilc_scan` allocates for the SSID attribute,
`kmalloc(valuesize + 1, GFP_KERNEL)`, `valuesize` being the 8-bit accumulator. -/
def search_ssid_vals_size (ssids : List cfg80211_ssid) : Nat :=
  ssid_valuesize ssids + 1

/-- A scan request with eight SSIDs of 32 bytes each. -/
def eight_ssids_request : cfg80211_scan_request :=
  { ssids := List.replicate 8 ⟨List.replicate 32 97, 32⟩, ie := [], ie_len := 0, duration := 0 }

/-! ## Removal of all stations -/

/-- The kernel's `is_zero_ether_addr`: the six bytes of the address are 0. -/
def is_zero_ether_addr (addr : List Nat) : Bool :=
  (List.range ETH_ALEN).all fun i => addr.getD i 0 == 0

/-- The loop of `wilc_del_allstation` over the table positions `l`: `acc.1` is the `u8`
counter `assoc_sta`, `acc.2` the table `del_sta.mac`, which the loop writes at the
position it reads. -/
def del_allstation_loop (mac_addr : List (List Nat)) :
    List Nat → Nat × List (List Nat) → Nat × List (List Nat)
  | [], acc => acc
  | i :: l, acc =>
    if is_zero_ether_addr (mac_addr.getD i null_bssid) then del_allstation_loop mac_addr l acc
    else
      del_allstation_loop mac_addr l
        ((acc.1 + 1) % 256, acc.2.set i ((mac_addr.getD i null_bssid).take ETH_ALEN))

/-- Embedding of `wilc_del_allstation`; `mac_addr` is the caller's table of
`WILC_MAX_NUM_STA` addresses. The value of the attribute is the local
`struct wilc_del_all_sta`, the count byte followed by the table (all fields are `u8`, so
there is no padding); the transport sends the first `size` bytes of it. -/
def wilc_del_allstation (env : Env) (s : World) (vif : Nat) (mac_addr : List (List Nat)) :
    Int × World :=
  let acc := del_allstation_loop mac_addr (List.range env.h.WILC_MAX_NUM_STA)
    (0, List.replicate env.h.WILC_MAX_NUM_STA null_bssid)
  let assoc_sta := acc.1
  if assoc_sta = 0 then (0, s)
  else
    let del_sta := assoc_sta :: acc.2.flatten
    let r := wilc_send_config_pkt env s vif cfg_mode.WILC_SET_CFG
      [⟨wid_id.WID_DEL_ALL_STA, wid_type.WID_STR, assoc_sta * ETH_ALEN + 1, del_sta⟩]
    (r.1.result, r.2)

/-- A table of nine addresses whose only non-zero entry is at position 1. -/
def sample_sta_table : List (List Nat) :=
  [null_bssid, [2, 0, 0, 0, 0, 7]] ++ List.replicate 7 null_bssid

/-! ## Network information -/

/-- Element identifier of the DS parameter set (`linux/ieee80211.h`). -/
def WLAN_EID_DS_PARAMS : Nat := 3
/-- Value of `offsetof(struct ieee80211_mgmt, u.probe_resp.variable)`
(`linux/ieee80211.h`): the 24-byte header, the timestamp, the beacon interval and the
capabilities. -/
def offsetof_probe_resp_variable : Nat := 36
/-- Value of `offsetof(struct ieee80211_mgmt, u.beacon.variable)` (`linux/ieee80211.h`). -/
def offsetof_beacon_variable : Nat := 36

/-- The kernel's `ieee80211_is_probe_resp` on the value `fc` of the little-endian
`frame_control`: type management, subtype probe response. -/
def ieee80211_is_probe_resp (fc : Nat) : Bool :=
  (fc &&& 0x00fc) == 0x0050

/-- The kernel's `ieee80211_is_beacon`: type management, subtype beacon. -/
def ieee80211_is_beacon (fc : Nat) : Bool :=
  (fc &&& 0x00fc) == 0x0080

/-- The value of `offset` in `handle_rcvd_ntwrk_info`; `none` stands for the jump to
`done` when the frame is neither a probe response nor a beacon. -/
def ntwrk_info_offset (rcvd_info : wilc_rcvd_net_info) : Option Nat :=
  if ieee80211_is_probe_resp (get_le16 rcvd_info.mgmt 0) then some offsetof_probe_resp_variable
  else if ieee80211_is_beacon (get_le16 rcvd_info.mgmt 0) then some offsetof_beacon_variable
  else none

/-- Embedding of `handle_rcvd_ntwrk_info`, the task `wilc_network_info_received` queues, for
the network information carried by its task record. `ies_len` is an `int`: the difference
of the `u16` length and the offset, stored to 32 bits. `scan_req` points into the driver
context, so the read of `scan_req->scan_result` has no defined result without one. -/
def handle_rcvd_ntwrk_info (s : World) (vif : Nat) (rcvd_info : wilc_rcvd_net_info) :
    Option World :=
  let done (s1 : World) : Option World :=
    some ((s1.emit (Ev.kfree vif heap_obj.mgmt)).emit (Ev.kfree vif heap_obj.msg))
  match ntwrk_info_offset rcvd_info with
  | none => done s
  | some offset =>
    let ies := rcvd_info.mgmt.drop offsetof_beacon_variable
    let ies_len : Int := wrap_int (((rcvd_info.frame_len % 65536 : Nat) : Int) - (offset : Int))
    if ies_len ≤ 0 then done s
    else
      let ch_elm := cfg80211_find_ie WLAN_EID_DS_PARAMS (ies.take ies_len.toNat)
      let ch :=
        match ch_elm with
        | some e => if e.getD 1 0 > 0 then e.getD 2 0 else rcvd_info.ch
        | none => rcvd_info.ch
      match s.getDrv vif with
      | none => none
      | some hif_drv =>
        match hif_drv.usr_scan_req.scan_result with
        | some fn =>
          done (s.emit (Ev.scan_result_info vif fn scan_event.SCAN_EVENT_NETWORK_FOUND
            { rcvd_info with ch := ch } hif_drv.usr_scan_req.arg))
        | none => done s

/-- Whether an entry of the record is a call of the scan-result callback with
`SCAN_EVENT_NETWORK_FOUND`. -/
def is_network_found : Ev → Bool
  | Ev.scan_result_info _ _ scan_event.SCAN_EVENT_NETWORK_FOUND _ _ => true
  | Ev.scan_result _ _ scan_event.SCAN_EVENT_NETWORK_FOUND _ => true
  | _ => false

/-- A probe response of 45 bytes: the header, then an SSID element of 4 bytes and a DS
parameter set naming channel 6. -/
def sample_probe_resp : List Nat :=
  [80, 0] ++ List.replicate 34 0 ++ [0, 4, 119, 105, 108, 99] ++ [3, 1, 6]

/-- The network information a task carries for `sample_probe_resp`. -/
def sample_net_info : wilc_rcvd_net_info :=
  { rssi := 200, ch := 0, frame_len := 45, mgmt := sample_probe_resp }

/-! ## Frames delivered in a row -/

/-- The world after the general-async-info frames `frames` (buffer and length) were handed
to `wilc_gnrl_async_info_received` one after the other. -/
def gnrl_frames_received (env : Env) (s : World) (frames : List (List Nat × Nat)) : World :=
  frames.foldl (fun w f => wilc_gnrl_async_info_received env w f.1 f.2) s

/-! # Theorems -/

/-! ## Reading the world after a store -/

theorem getDrv_updDrv (s : World) (i j : Nat) (f : host_if_drv → host_if_drv) :
    (s.updDrv i f).getDrv j = if i = j then (s.getDrv j).map f else s.getDrv j := by
  unfold World.updDrv World.getDrv
  simp only [List.getElem?_modify]
  by_cases hij : i = j
  · subst hij
    cases hv : s.wilc.vif_list[i]? <;> simp
  · simp [hij]

@[simp] theorem getDrv_updDrv_same (s : World) (i : Nat) (f : host_if_drv → host_if_drv) :
    (s.updDrv i f).getDrv i = (s.getDrv i).map f := by
  simp [getDrv_updDrv]

@[simp] theorem log_updDrv (s : World) (i : Nat) (f : host_if_drv → host_if_drv) :
    (s.updDrv i f).log = s.log := rfl

@[simp] theorem cfg_calls_updDrv (s : World) (i : Nat) (f : host_if_drv → host_if_drv) :
    (s.updDrv i f).cfg_calls = s.cfg_calls := rfl

@[simp] theorem allocs_updDrv (s : World) (i : Nat) (f : host_if_drv → host_if_drv) :
    (s.updDrv i f).allocs = s.allocs := rfl

@[simp] theorem getDrv_emit (s : World) (e : Ev) (j : Nat) : (s.emit e).getDrv j = s.getDrv j := rfl

@[simp] theorem wilc_emit (s : World) (e : Ev) : (s.emit e).wilc = s.wilc := rfl

@[simp] theorem log_emit (s : World) (e : Ev) : (s.emit e).log = s.log ++ [e] := rfl

@[simp] theorem cfg_calls_emit (s : World) (e : Ev) : (s.emit e).cfg_calls = s.cfg_calls := rfl

@[simp] theorem allocs_emit (s : World) (e : Ev) : (s.emit e).allocs = s.allocs := rfl

@[simp] theorem getDrv_kfree {α : Type} (s : World) (vif : Nat) (obj : heap_obj) (p : Option α)
    (j : Nat) : (kfree s vif obj p).getDrv j = s.getDrv j := by
  unfold kfree; split <;> rfl

@[simp] theorem wilc_kfree {α : Type} (s : World) (vif : Nat) (obj : heap_obj) (p : Option α) :
    (kfree s vif obj p).wilc = s.wilc := by
  unfold kfree; split <;> rfl

theorem log_kfree {α : Type} (s : World) (vif : Nat) (obj : heap_obj) (p : Option α) :
    (kfree s vif obj p).log = s.log ++ (if p.isSome then [Ev.kfree vif obj] else []) := by
  unfold kfree; split <;> simp

@[simp] theorem cfg_calls_kfree {α : Type} (s : World) (vif : Nat) (obj : heap_obj)
    (p : Option α) : (kfree s vif obj p).cfg_calls = s.cfg_calls := by
  unfold kfree; split <;> rfl

@[simp] theorem allocs_kfree {α : Type} (s : World) (vif : Nat) (obj : heap_obj)
    (p : Option α) : (kfree s vif obj p).allocs = s.allocs := by
  unfold kfree; split <;> rfl

@[simp] theorem getDrv_send (env : Env) (s : World) (vif : Nat) (m : cfg_mode) (w : List wid)
    (j : Nat) : (wilc_send_config_pkt env s vif m w).2.getDrv j = s.getDrv j := rfl

@[simp] theorem wilc_send (env : Env) (s : World) (vif : Nat) (m : cfg_mode) (w : List wid) :
    (wilc_send_config_pkt env s vif m w).2.wilc = s.wilc := rfl

@[simp] theorem log_send (env : Env) (s : World) (vif : Nat) (m : cfg_mode) (w : List wid) :
    (wilc_send_config_pkt env s vif m w).2.log = s.log ++ [Ev.send_config_pkt vif m w] := rfl

@[simp] theorem reply_send (env : Env) (s : World) (vif : Nat) (m : cfg_mode) (w : List wid) :
    (wilc_send_config_pkt env s vif m w).1 = env.send_config_pkt s.cfg_calls ⟨vif, m, w⟩ := rfl

/-! ## Connect timeout -/

/-- Claim C5: `handle_connect_timeout` on an interface with a driver context, in any state
and for every outcome of the transport: the state becomes `HOST_IF_IDLE`, the request-IE
buffer is absent with length 0, and the record grows by exactly the call of the
connect-result callback with (connect-response, disconnected) when one is registered, one
SET of `WID_DISCONNECT`, and one release of the request-IE buffer when there was one. -/
theorem handle_connect_timeout_spec (env : Env) (s : World) (vif : Nat) (hif_drv : host_if_drv)
    (h : s.getDrv vif = some hif_drv) :
    (∃ d, (handle_connect_timeout env s vif).getDrv vif = some d ∧
      d.hif_state = host_if_state.HOST_IF_IDLE ∧
      d.conn_info.req_ies = none ∧ d.conn_info.req_ies_len = 0) ∧
    (handle_connect_timeout env s vif).log = s.log ++
      (match hif_drv.conn_info.conn_result with
        | some fn => [Ev.conn_result vif fn conn_event.CONN_DISCONN_EVENT_CONN_RESP
            env.h.WILC_MAC_STATUS_DISCONNECTED hif_drv.conn_info.arg]
        | none => []) ++
      [Ev.send_config_pkt vif cfg_mode.WILC_SET_CFG
        [⟨wid_id.WID_DISCONNECT, wid_type.WID_CHAR, 1, [0, 0]⟩]] ++
      (if hif_drv.conn_info.req_ies.isSome then [Ev.kfree vif heap_obj.req_ies] else []) := by
  unfold handle_connect_timeout
  cases hc : hif_drv.conn_info.conn_result <;> simp [h, hc, log_kfree]

/-- Claim C5 at a sample input: a connect timeout in `HOST_IF_WAITING_CONN_RESP` while the
transport fails. -/
theorem handle_connect_timeout_spec_witness :
    (sample_world host_if_state.HOST_IF_WAITING_CONN_RESP null_bssid).getDrv 0 =
      some (sample_drv host_if_state.HOST_IF_WAITING_CONN_RESP null_bssid) ∧
    (handle_connect_timeout env_fail
        (sample_world host_if_state.HOST_IF_WAITING_CONN_RESP null_bssid) 0).log =
      [Ev.conn_result 0 1 conn_event.CONN_DISCONN_EVENT_CONN_RESP 0 2,
       Ev.send_config_pkt 0 cfg_mode.WILC_SET_CFG
         [⟨wid_id.WID_DISCONNECT, wid_type.WID_CHAR, 1, [0, 0]⟩],
       Ev.kfree 0 heap_obj.req_ies] :=
  ⟨rfl, (handle_connect_timeout_spec env_fail
    (sample_world host_if_state.HOST_IF_WAITING_CONN_RESP null_bssid) 0
    (sample_drv host_if_state.HOST_IF_WAITING_CONN_RESP null_bssid) rfl).2⟩

@[simp] theorem getDrv_kmalloc (env : Env) (s : World) (j : Nat) :
    (kmalloc env s).2.getDrv j = s.getDrv j := rfl

@[simp] theorem wilc_kmalloc (env : Env) (s : World) : (kmalloc env s).2.wilc = s.wilc := rfl

@[simp] theorem log_kmalloc (env : Env) (s : World) : (kmalloc env s).2.log = s.log := rfl

@[simp] theorem cfg_calls_kmalloc (env : Env) (s : World) :
    (kmalloc env s).2.cfg_calls = s.cfg_calls := rfl

@[simp] theorem ok_kmalloc (env : Env) (s : World) :
    (kmalloc env s).1 = env.kmalloc s.allocs := rfl

@[simp] theorem cfg_calls_send (env : Env) (s : World) (vif : Nat) (m : cfg_mode)
    (w : List wid) : (wilc_send_config_pkt env s vif m w).2.cfg_calls = s.cfg_calls + 1 := rfl

@[simp] theorem allocs_send (env : Env) (s : World) (vif : Nat) (m : cfg_mode)
    (w : List wid) : (wilc_send_config_pkt env s vif m w).2.allocs = s.allocs := rfl

/-! ## MAC-status event while waiting for the connect response -/

/-- What `handle_rcvd_gnrl_async_info` leaves in state `HOST_IF_WAITING_CONN_RESP` with a
callback registered: the handler returns; `conn_info.status` is the status code of the
association response when one was fetched (MAC status connected, GET succeeded with a
non-zero length) and is untouched otherwise; the state is `HOST_IF_CONNECTED` with
`assoc_bssid` set to the requested BSSID when the MAC status is connected and that status
is success, and `HOST_IF_IDLE` otherwise. -/
theorem waiting_conn_resp_event (env : Env) (s : World) (vif status fn : Nat)
    (hif_drv : host_if_drv) (h : s.getDrv vif = some hif_drv)
    (hst : hif_drv.hif_state = host_if_state.HOST_IF_WAITING_CONN_RESP)
    (hcb : hif_drv.conn_info.conn_result = some fn) :
    ∃ s1 d, handle_rcvd_gnrl_async_info env s vif status = some s1 ∧
      s1.getDrv vif = some d ∧
      d.conn_info.bssid = hif_drv.conn_info.bssid ∧
      d.conn_info.status =
        (if status = env.h.WILC_MAC_STATUS_CONNECTED ∧ (assoc_reply env s vif).result = 0 ∧
            (assoc_reply env s vif).size % 2 ^ 32 ≠ 0 then
          get_le16 (assoc_buffer env s vif) env.h.offsetof_status_code
        else hif_drv.conn_info.status) ∧
      (status = env.h.WILC_MAC_STATUS_CONNECTED ∧ d.conn_info.status = WLAN_STATUS_SUCCESS →
        d.hif_state = host_if_state.HOST_IF_CONNECTED ∧
        d.assoc_bssid = hif_drv.conn_info.bssid) ∧
      (¬(status = env.h.WILC_MAC_STATUS_CONNECTED ∧ d.conn_info.status = WLAN_STATUS_SUCCESS) →
        d.hif_state = host_if_state.HOST_IF_IDLE) := by
  unfold handle_rcvd_gnrl_async_info host_int_parse_assoc_resp_info
  simp only [h, hst, hcb]
  unfold assoc_buffer assoc_reply fetch_assoc_resp host_int_get_assoc_res_info
    wilc_parse_assoc_resp_info
  simp only [cfg_calls_updDrv, getDrv_updDrv_same, h, Option.map_some', Option.getD_some,
    reply_send, ok_kmalloc, getDrv_send]
  generalize env.send_config_pkt s.cfg_calls _ = r
  generalize env.kmalloc _ = ok
  by_cases h1 : status = env.h.WILC_MAC_STATUS_CONNECTED
  · by_cases h2 : r.result = 0
    · by_cases h3 : r.size % 4294967296 = 0
      · simp [h1, h2, h3, h]
        split_ifs <;> simp_all
      · simp [h1, h2, h3, h]
        cases ok <;> split_ifs <;> simp_all
    · simp [h1, h2, h]
      split_ifs <;> simp_all
  · simp [h1, h]

/-- Claim C2: in state `HOST_IF_WAITING_CONN_RESP` with a connect-result callback
registered, `handle_rcvd_gnrl_async_info` returns, and with the status code that
`conn_info` holds: MAC status connected and status code success give state
`HOST_IF_CONNECTED` and `assoc_bssid` equal to the requested BSSID `conn_info.bssid`;
every other combination gives state `HOST_IF_IDLE`. -/
theorem handle_rcvd_gnrl_async_info_connect_result (env : Env) (s : World)
    (vif status fn : Nat) (hif_drv : host_if_drv) (h : s.getDrv vif = some hif_drv)
    (hst : hif_drv.hif_state = host_if_state.HOST_IF_WAITING_CONN_RESP)
    (hcb : hif_drv.conn_info.conn_result = some fn) :
    ∃ s1 d, handle_rcvd_gnrl_async_info env s vif status = some s1 ∧
      s1.getDrv vif = some d ∧
      d.conn_info.bssid = hif_drv.conn_info.bssid ∧
      (status = env.h.WILC_MAC_STATUS_CONNECTED ∧ d.conn_info.status = WLAN_STATUS_SUCCESS →
        d.hif_state = host_if_state.HOST_IF_CONNECTED ∧ d.assoc_bssid = d.conn_info.bssid) ∧
      (¬(status = env.h.WILC_MAC_STATUS_CONNECTED ∧ d.conn_info.status = WLAN_STATUS_SUCCESS) →
        d.hif_state = host_if_state.HOST_IF_IDLE) := by
  obtain ⟨s1, d, e1, e2, hb, _, hc, hi⟩ := waiting_conn_resp_event env s vif status fn hif_drv h hst hcb
  exact ⟨s1, d, e1, e2, hb, fun hh => ⟨(hc hh).1, by rw [hb]; exact (hc hh).2⟩, hi⟩

/-- Claim C2 at a sample input: MAC status connected and an accepted association. -/
theorem handle_rcvd_gnrl_async_info_connect_result_witness :
    (sample_world host_if_state.HOST_IF_WAITING_CONN_RESP null_bssid).getDrv 0 =
      some (sample_drv host_if_state.HOST_IF_WAITING_CONN_RESP null_bssid) ∧
    (sample_drv host_if_state.HOST_IF_WAITING_CONN_RESP null_bssid).hif_state =
      host_if_state.HOST_IF_WAITING_CONN_RESP ∧
    (sample_drv host_if_state.HOST_IF_WAITING_CONN_RESP null_bssid).conn_info.conn_result =
      some 1 ∧
    ∃ s1 d, handle_rcvd_gnrl_async_info env_accepted
        (sample_world host_if_state.HOST_IF_WAITING_CONN_RESP null_bssid) 0 1 = some s1 ∧
      s1.getDrv 0 = some d ∧ d.conn_info.bssid = [2, 0, 0, 0, 0, 1] ∧
      (1 = env_accepted.h.WILC_MAC_STATUS_CONNECTED ∧ d.conn_info.status = WLAN_STATUS_SUCCESS →
        d.hif_state = host_if_state.HOST_IF_CONNECTED ∧ d.assoc_bssid = d.conn_info.bssid) ∧
      (¬(1 = env_accepted.h.WILC_MAC_STATUS_CONNECTED ∧
          d.conn_info.status = WLAN_STATUS_SUCCESS) →
        d.hif_state = host_if_state.HOST_IF_IDLE) :=
  ⟨rfl, rfl, rfl, handle_rcvd_gnrl_async_info_connect_result env_accepted
    (sample_world host_if_state.HOST_IF_WAITING_CONN_RESP null_bssid) 0 1 1
    (sample_drv host_if_state.HOST_IF_WAITING_CONN_RESP null_bssid) rfl rfl rfl⟩

/-- Claim C3, as the code has it: in state `HOST_IF_WAITING_CONN_RESP` with a callback
registered, `handle_rcvd_gnrl_async_info` calls the connect-result callback exactly once,
for every MAC status and status code, with the connect-response event and the MAC status
of the event. -/
theorem handle_rcvd_gnrl_async_info_callback (env : Env) (s : World)
    (vif status fn : Nat) (hif_drv : host_if_drv) (h : s.getDrv vif = some hif_drv)
    (hst : hif_drv.hif_state = host_if_state.HOST_IF_WAITING_CONN_RESP)
    (hcb : hif_drv.conn_info.conn_result = some fn) :
    ∃ s1, handle_rcvd_gnrl_async_info env s vif status = some s1 ∧
      s1.log.filter (is_conn_result vif) = s.log.filter (is_conn_result vif) ++
        [Ev.conn_result vif fn conn_event.CONN_DISCONN_EVENT_CONN_RESP status
          hif_drv.conn_info.arg] := by
  unfold handle_rcvd_gnrl_async_info host_int_parse_assoc_resp_info
  simp only [h, hst, hcb]
  unfold fetch_assoc_resp host_int_get_assoc_res_info wilc_parse_assoc_resp_info
  simp only [cfg_calls_updDrv, getDrv_updDrv_same, h, Option.map_some', Option.getD_some,
    reply_send, ok_kmalloc, getDrv_send]
  generalize env.send_config_pkt s.cfg_calls _ = r
  generalize env.kmalloc _ = ok
  by_cases h1 : status = env.h.WILC_MAC_STATUS_CONNECTED
  · by_cases h2 : r.result = 0
    · by_cases h3 : r.size % 4294967296 = 0
      · simp [h1, h2, h3, h, log_kfree, is_conn_result]
        all_goals (split_ifs <;> simp_all [log_kfree, is_conn_result])
      · simp [h1, h2, h3, h, log_kfree, is_conn_result]
        all_goals (cases ok <;> split_ifs <;> simp_all [log_kfree, is_conn_result])
    · simp [h1, h2, h, log_kfree, is_conn_result]
      all_goals (split_ifs <;> simp_all [log_kfree, is_conn_result])
  · simp [h1, h, log_kfree, is_conn_result]

set_option maxRecDepth 100000 in
/-- Claim C3 fails as stated: in state `HOST_IF_WAITING_CONN_RESP`, on a MAC status
connected (1) whose association response carries status code 17, the handler leaves the
interface in `HOST_IF_IDLE`, and the only call of the connect-result callback carries the
connect-response event and MAC status connected, not the disconnect-notify event. -/
theorem handle_rcvd_gnrl_async_info_callback_counterexample :
    (handle_rcvd_gnrl_async_info env_refused
        (sample_world host_if_state.HOST_IF_WAITING_CONN_RESP null_bssid) 0 1).map
      (fun s1 => (s1.state 0, s1.log.filter (is_conn_result 0))) =
    some (some host_if_state.HOST_IF_IDLE,
      [Ev.conn_result 0 1 conn_event.CONN_DISCONN_EVENT_CONN_RESP 1 2]) := by
  decide

set_option maxRecDepth 100000 in
/-- Claim C4, the code at the failing input: an interface set up by `wilc_init`, a
connect-result callback registered, a join request sent, then a MAC status connected (1)
while every GET fails. Nothing is fetched or parsed, `conn_info.status` still holds the 0
of the zeroed context, and the interface ends in `HOST_IF_CONNECTED` with `assoc_bssid`
set to the requested BSSID. -/
theorem stale_status_connects :
    (run env_get_fails (World.start 1)
        [Op.set_conn_params 0
          { security := 0, auth_type := 0, mfp_type := 0, ch := 6, param := [],
            conn_result := some 1, arg := 2 },
         Op.set_join_req 0 (some [2, 0, 0, 0, 0, 1]) none 0,
         Op.rcvd_gnrl_async_info 0 1]).map
      (fun s1 => (s1.getDrv 0).map fun d => (d.hif_state, d.assoc_bssid, d.conn_info.status)) =
    some (some (host_if_state.HOST_IF_CONNECTED, [2, 0, 0, 0, 0, 1], 0)) := by
  decide

/-! ## Disconnect -/

theorem getDrv_updDrv_ne (s : World) {i j : Nat} (f : host_if_drv → host_if_drv) (hij : i ≠ j) :
    (s.updDrv i f).getDrv j = s.getDrv j := by
  simp [getDrv_updDrv, hij]

theorem same_but_scan_refl (d : host_if_drv) : same_but_scan d d := by
  unfold same_but_scan; rfl

theorem same_but_scan_trans {a b c : host_if_drv} (h1 : same_but_scan a b)
    (h2 : same_but_scan b c) : same_but_scan a c := by
  unfold same_but_scan at *
  rw [h2, h1]

/-- One pass of the loop body of `wilc_disconnect` on interface `vif_tmp`, seen from
interface `vif`: its context changes at most in the scan timer and the pending scan
callback, an aborted-scan callback of `vif` is delivered exactly when one stops being
pending, and no connect-result callback is called. -/
theorem abort_one (env : Env) (s : World) (vif_tmp vif : Nat) (d : host_if_drv)
    (h : s.getDrv vif = some d) :
    let s1 := (handle_scan_done env (s.updDrv vif_tmp fun d => { d with scan_timer := none })
      vif_tmp scan_event.SCAN_EVENT_ABORTED).2
    (∃ d1, s1.getDrv vif = some d1 ∧ same_but_scan d d1) ∧
    (s1.log.filter (is_scan_aborted vif)).length + pending_scan s1 vif =
      (s.log.filter (is_scan_aborted vif)).length + pending_scan s vif ∧
    s1.log.filter (is_conn_result vif) = s.log.filter (is_conn_result vif) := by
  intro s1
  by_cases hv : vif_tmp = vif
  · subst hv
    simp only [s1]
    unfold handle_scan_done
    cases hs : d.usr_scan_req.scan_result with
    | none =>
      simp [h, hs, pending_scan, same_but_scan, is_scan_aborted, is_conn_result]
      rw [← hs]
    | some fn =>
      simp [h, hs, pending_scan, same_but_scan, is_scan_aborted, is_conn_result]
  · simp only [s1]
    unfold handle_scan_done
    cases ht : s.getDrv vif_tmp with
    | none =>
      simp [ht, getDrv_updDrv, hv, h, pending_scan, same_but_scan_refl]
    | some dt =>
      cases hs : dt.usr_scan_req.scan_result <;>
        simp [ht, hs, getDrv_updDrv, hv, h, pending_scan, same_but_scan_refl, is_scan_aborted,
          is_conn_result]

theorem same_but_scan_fields {d d1 : host_if_drv} (h : same_but_scan d d1) :
    d1.hif_state = d.hif_state ∧ d1.conn_info = d.conn_info ∧ d1.assoc_bssid = d.assoc_bssid ∧
    d1.usr_scan_req.arg = d.usr_scan_req.arg ∧ d1.remain_on_ch = d.remain_on_ch := by
  unfold same_but_scan at h
  rw [h]
  exact ⟨rfl, rfl, rfl, rfl, rfl⟩

/-- The interface-list loop of `wilc_disconnect`, seen from interface `vif`. -/
theorem abort_scans_spec (env : Env) (vif : Nat) (l : List Nat) :
    ∀ (s : World) (d : host_if_drv), s.getDrv vif = some d →
      (∃ d1, (abort_scans env l s).getDrv vif = some d1 ∧ same_but_scan d d1) ∧
      ((abort_scans env l s).log.filter (is_scan_aborted vif)).length +
          pending_scan (abort_scans env l s) vif =
        (s.log.filter (is_scan_aborted vif)).length + pending_scan s vif ∧
      (abort_scans env l s).log.filter (is_conn_result vif) =
        s.log.filter (is_conn_result vif) := by
  induction l with
  | nil =>
    intro s d h
    exact ⟨⟨d, h, same_but_scan_refl d⟩, rfl, rfl⟩
  | cons vif_tmp l ih =>
    intro s d h
    unfold abort_scans
    cases ht : s.getDrv vif_tmp with
    | none => exact ih s d h
    | some dt =>
      by_cases hsc : dt.hif_state = host_if_state.HOST_IF_SCANNING
      · simp only [hsc, if_true]
        obtain ⟨⟨d1, e1, r1⟩, c1, f1⟩ := abort_one env s vif_tmp vif d h
        obtain ⟨⟨d2, e2, r2⟩, c2, f2⟩ := ih _ d1 e1
        exact ⟨⟨d2, e2, same_but_scan_trans r1 r2⟩, c2.trans c1, f2.trans f1⟩
      · simp only [hsc, if_false]
        exact ih s d h

/-- Claim C6: `wilc_disconnect` on an interface with a driver context, when the SET of
`WID_DISCONNECT` succeeds: the function returns 0, the state is `HOST_IF_IDLE` and
`assoc_bssid` is all zeros; the scan-result callback of the interface receives
`SCAN_EVENT_ABORTED` exactly once when a scan was pending (and not at all otherwise),
whatever the interface-list loop did before; and in `HOST_IF_WAITING_CONN_RESP` or
`HOST_IF_EXTERNAL_AUTH` with a connect-result callback, that callback is called exactly
once, with (connect-response, disconnected). -/
theorem wilc_disconnect_success (env : Env) (s : World) (vif : Nat) (d : host_if_drv)
    (h : s.getDrv vif = some d)
    (hok : ∀ n, (env.send_config_pkt n ⟨vif, cfg_mode.WILC_SET_CFG,
      [⟨wid_id.WID_DISCONNECT, wid_type.WID_CHAR, 1, [0, 0]⟩]⟩).result = 0) :
    ∃ s1 d1, wilc_disconnect env s vif = some (0, s1) ∧ s1.getDrv vif = some d1 ∧
      d1.hif_state = host_if_state.HOST_IF_IDLE ∧ d1.assoc_bssid = null_bssid ∧
      (s1.log.filter (is_scan_aborted vif)).length =
        (s.log.filter (is_scan_aborted vif)).length +
          (if d.usr_scan_req.scan_result.isSome then 1 else 0) ∧
      (d.hif_state = host_if_state.HOST_IF_WAITING_CONN_RESP ∨
          d.hif_state = host_if_state.HOST_IF_EXTERNAL_AUTH →
        ∀ fn, d.conn_info.conn_result = some fn →
          s1.log.filter (is_conn_result vif) = s.log.filter (is_conn_result vif) ++
            [Ev.conn_result vif fn conn_event.CONN_DISCONN_EVENT_CONN_RESP
              env.h.WILC_MAC_STATUS_DISCONNECTED d.conn_info.arg]) := by
  obtain ⟨⟨dm, em, rm⟩, cm, fm⟩ :=
    abort_scans_spec env vif (List.range s.wilc.vif_list.length) s d h
  obtain ⟨hst, hci, hab, harg, _⟩ := same_but_scan_fields rm
  unfold wilc_disconnect
  simp only [reply_send, hok, ne_eq, not_true_eq_false, if_false, getDrv_send, em]
  generalize abort_scans env (List.range s.wilc.vif_list.length) s = sm at *
  simp only [pending_scan, h, em] at cm
  cases hs : dm.usr_scan_req.scan_result <;> cases hc : d.conn_info.conn_result <;>
    cases hh : d.hif_state <;>
    simp_all [log_kfree, is_scan_aborted, is_conn_result] <;> split_ifs <;> simp_all [is_scan_aborted, is_conn_result]

/-- Claim C6 at a sample input: a disconnect in `HOST_IF_WAITING_CONN_RESP` with a scan
pending. -/
theorem wilc_disconnect_success_witness :
    (sample_world host_if_state.HOST_IF_WAITING_CONN_RESP null_bssid).getDrv 0 =
      some (sample_drv host_if_state.HOST_IF_WAITING_CONN_RESP null_bssid) ∧
    (∀ n, (env_ok.send_config_pkt n ⟨0, cfg_mode.WILC_SET_CFG,
      [⟨wid_id.WID_DISCONNECT, wid_type.WID_CHAR, 1, [0, 0]⟩]⟩).result = 0) ∧
    ∃ s1, wilc_disconnect env_ok
        (sample_world host_if_state.HOST_IF_WAITING_CONN_RESP null_bssid) 0 = some (0, s1) ∧
      s1.state 0 = some host_if_state.HOST_IF_IDLE ∧
      (s1.log.filter (is_scan_aborted 0)).length = 1 ∧
      s1.log.filter (is_conn_result 0) =
        [Ev.conn_result 0 1 conn_event.CONN_DISCONN_EVENT_CONN_RESP 0 2] := by
  refine ⟨rfl, fun _ => rfl, ?_⟩
  obtain ⟨s1, d1, e1, e2, hst, _, hsc, hcr⟩ := wilc_disconnect_success env_ok
    (sample_world host_if_state.HOST_IF_WAITING_CONN_RESP null_bssid) 0
    (sample_drv host_if_state.HOST_IF_WAITING_CONN_RESP null_bssid) rfl (fun _ => rfl)
  exact ⟨s1, e1, by simp [World.state, e2, hst], hsc, hcr (Or.inl rfl) 1 rfl⟩

/-- Claim C7 fails as stated: on a connected interface with a connect-result callback,
when the SET of `WID_DISCONNECT` fails with `-EIO`, `wilc_disconnect` returns `-EIO`, the
interface is still in `HOST_IF_CONNECTED` with its `assoc_bssid`, and the connect-result
callback was not called. -/
theorem wilc_disconnect_failure_counterexample :
    (wilc_disconnect env_fail
        (sample_world host_if_state.HOST_IF_CONNECTED [2, 0, 0, 0, 0, 1]) 0).map
      (fun r => (r.1, (r.2.getDrv 0).map (fun d => (d.hif_state, d.assoc_bssid)),
        r.2.log.filter (is_conn_result 0))) =
    some (-EIO_errno, some (host_if_state.HOST_IF_CONNECTED, [2, 0, 0, 0, 0, 1]), []) := by
  decide

/-- Claim C7, as the code has it: when the SET of `WID_DISCONNECT` fails,
`wilc_disconnect` returns the transport's failure code and stops there: the interface
keeps its state, its `assoc_bssid` and its connection information (the connect-result
callback stays registered), and no connect-result callback is called. -/
theorem wilc_disconnect_failure (env : Env) (s : World) (vif : Nat) (d : host_if_drv)
    (h : s.getDrv vif = some d)
    (hfail : ∀ n, (env.send_config_pkt n ⟨vif, cfg_mode.WILC_SET_CFG,
      [⟨wid_id.WID_DISCONNECT, wid_type.WID_CHAR, 1, [0, 0]⟩]⟩).result ≠ 0) :
    ∃ rc s1 d1, wilc_disconnect env s vif = some (rc, s1) ∧ rc ≠ 0 ∧
      (∃ n, rc = (env.send_config_pkt n ⟨vif, cfg_mode.WILC_SET_CFG,
        [⟨wid_id.WID_DISCONNECT, wid_type.WID_CHAR, 1, [0, 0]⟩]⟩).result) ∧
      s1.getDrv vif = some d1 ∧
      d1.hif_state = d.hif_state ∧ d1.assoc_bssid = d.assoc_bssid ∧
      d1.conn_info = d.conn_info ∧
      s1.log.filter (is_conn_result vif) = s.log.filter (is_conn_result vif) := by
  obtain ⟨⟨dm, em, rm⟩, _, fm⟩ :=
    abort_scans_spec env vif (List.range s.wilc.vif_list.length) s d h
  obtain ⟨hst, hci, hab, _, _⟩ := same_but_scan_fields rm
  unfold wilc_disconnect
  simp only [reply_send, hfail, ne_eq, not_false_eq_true, if_true]
  exact ⟨_, _, dm, rfl, hfail _, ⟨_, rfl⟩, by simpa using em, hst, hab, hci,
    by simp [fm, is_conn_result]⟩

/-- Claim C7 at a sample input: a disconnect of a connected interface while the transport
fails. -/
theorem wilc_disconnect_failure_witness :
    (sample_world host_if_state.HOST_IF_CONNECTED [2, 0, 0, 0, 0, 1]).getDrv 0 =
      some (sample_drv host_if_state.HOST_IF_CONNECTED [2, 0, 0, 0, 0, 1]) ∧
    (∀ n, (env_fail.send_config_pkt n ⟨0, cfg_mode.WILC_SET_CFG,
      [⟨wid_id.WID_DISCONNECT, wid_type.WID_CHAR, 1, [0, 0]⟩]⟩).result ≠ 0) ∧
    ∃ rc s1, wilc_disconnect env_fail
        (sample_world host_if_state.HOST_IF_CONNECTED [2, 0, 0, 0, 0, 1]) 0 = some (rc, s1) ∧
      rc ≠ 0 ∧ s1.state 0 = some host_if_state.HOST_IF_CONNECTED := by
  refine ⟨rfl, fun _ => (by decide : (-EIO_errno : Int) ≠ 0), ?_⟩
  obtain ⟨rc, s1, d1, e1, hrc, _, e2, hst, _, _, _⟩ := wilc_disconnect_failure env_fail
    (sample_world host_if_state.HOST_IF_CONNECTED [2, 0, 0, 0, 0, 1]) 0
    (sample_drv host_if_state.HOST_IF_CONNECTED [2, 0, 0, 0, 0, 1]) rfl (fun _ => (by decide : (-EIO_errno : Int) ≠ 0))
  exact ⟨rc, s1, e1, hrc, by simp [World.state, e2, hst]; rfl⟩

/-! ## Remain on channel -/

/-- Claim C8 fails as stated: in `HOST_IF_P2P_LISTEN`, when the SET that clears the
remain-on-channel flag fails, the expiry (through `wilc_listen_state_expired` and through
the listen-timer task alike) calls no expired-callback and leaves the interface in
`HOST_IF_P2P_LISTEN`; `wilc_listen_state_expired` returns `-EINVAL`. -/
theorem listen_expiry_counterexample :
    (wilc_listen_state_expired env_fail
        (sample_world host_if_state.HOST_IF_P2P_LISTEN null_bssid) 0 8).map
      (fun r => (r.1, r.2.state 0, r.2.log.filter (is_expired 0))) =
      some (-EINVAL, some host_if_state.HOST_IF_P2P_LISTEN, []) ∧
    (wilc_handle_listen_state_expired env_fail
        (sample_world host_if_state.HOST_IF_P2P_LISTEN null_bssid) 0 8).map
      (fun s1 => (s1.state 0, s1.log.filter (is_expired 0))) =
      some (some host_if_state.HOST_IF_P2P_LISTEN, []) := by
  decide

/-- The core of an expiry, `wilc_handle_roc_expired`, in `HOST_IF_P2P_LISTEN` when the
buffer is allocated and the SET succeeds. -/
theorem roc_expired_granted (env : Env) (s : World) (vif cookie : Nat) (d : host_if_drv)
    (h : s.getDrv vif = some d) (hst : d.hif_state = host_if_state.HOST_IF_P2P_LISTEN)
    (halloc : env.kmalloc s.allocs = true)
    (hok : (env.send_config_pkt s.cfg_calls ⟨vif, cfg_mode.WILC_SET_CFG,
      [⟨wid_id.WID_REMAIN_ON_CHAN, wid_type.WID_STR, 2, [0, WILC_FALSE_FRMWR_CHANNEL]⟩]⟩).result
        = 0) :
    ∃ s1 d1, wilc_handle_roc_expired env s vif cookie = some (0, s1) ∧
      s1.getDrv vif = some d1 ∧
      d1.hif_state = (if d.assoc_bssid = null_bssid then host_if_state.HOST_IF_IDLE
        else host_if_state.HOST_IF_CONNECTED) ∧
      s1.log.filter (is_expired vif) = s.log.filter (is_expired vif) ++
        (match d.remain_on_ch.expired with
          | some fn => [Ev.expired vif fn d.remain_on_ch.arg cookie]
          | none => []) := by
  unfold wilc_handle_roc_expired
  cases he : d.remain_on_ch.expired <;>
    simp [h, hst, halloc, hok, he, log_kfree, is_expired]

/-- An expiry outside `HOST_IF_P2P_LISTEN` does nothing. -/
theorem roc_expired_idle (env : Env) (s : World) (vif cookie : Nat) (d : host_if_drv)
    (h : s.getDrv vif = some d) (hst : d.hif_state ≠ host_if_state.HOST_IF_P2P_LISTEN) :
    wilc_handle_roc_expired env s vif cookie = some (0, s) := by
  unfold wilc_handle_roc_expired
  simp [h, hst]


/-- Claim C8, as the code has it: in `HOST_IF_P2P_LISTEN` with an expired-callback
registered, an expiry event whose buffer is allocated and whose SET clearing the
remain-on-channel flag succeeds - through `wilc_listen_state_expired` or through the
listen-timer task `wilc_handle_listen_state_expired` - calls the expired-callback exactly
once, with the cookie of the event, and sets the state to `HOST_IF_IDLE` when `assoc_bssid`
is all zeros and to `HOST_IF_CONNECTED` otherwise; a second expiry event afterwards, with
any cookie and any outcomes of the collaborators, calls no callback, makes no round trip
and leaves that state. -/
theorem listen_expiry_granted (env : Env) (s : World) (vif cookie fn : Nat) (d : host_if_drv)
    (h : s.getDrv vif = some d) (hst : d.hif_state = host_if_state.HOST_IF_P2P_LISTEN)
    (hcb : d.remain_on_ch.expired = some fn)
    (halloc : env.kmalloc s.allocs = true)
    (hok : (env.send_config_pkt s.cfg_calls ⟨vif, cfg_mode.WILC_SET_CFG,
      [⟨wid_id.WID_REMAIN_ON_CHAN, wid_type.WID_STR, 2, [0, WILC_FALSE_FRMWR_CHANNEL]⟩]⟩).result
        = 0) :
    (∃ s1, wilc_listen_state_expired env s vif cookie = some (0, s1) ∧
      s1.state vif = some (if d.assoc_bssid = null_bssid then host_if_state.HOST_IF_IDLE
        else host_if_state.HOST_IF_CONNECTED) ∧
      s1.log.filter (is_expired vif) =
        s.log.filter (is_expired vif) ++ [Ev.expired vif fn d.remain_on_ch.arg cookie] ∧
      ∀ (env2 : Env) (cookie2 : Nat),
        (∃ s2, wilc_listen_state_expired env2 s1 vif cookie2 = some (0, s2) ∧
          s2.log = s1.log ∧ s2.state vif = s1.state vif) ∧
        wilc_handle_listen_state_expired env2 s1 vif cookie2 = some s1) ∧
    (∃ s1, wilc_handle_listen_state_expired env s vif cookie = some s1 ∧
      s1.state vif = some (if d.assoc_bssid = null_bssid then host_if_state.HOST_IF_IDLE
        else host_if_state.HOST_IF_CONNECTED) ∧
      s1.log.filter (is_expired vif) =
        s.log.filter (is_expired vif) ++ [Ev.expired vif fn d.remain_on_ch.arg cookie] ∧
      ∀ (env2 : Env) (cookie2 : Nat),
        (∃ s2, wilc_listen_state_expired env2 s1 vif cookie2 = some (0, s2) ∧
          s2.log = s1.log ∧ s2.state vif = s1.state vif) ∧
        wilc_handle_listen_state_expired env2 s1 vif cookie2 = some s1) := by
  have second : ∀ (s1 : World) (d1 : host_if_drv), s1.getDrv vif = some d1 →
      d1.hif_state ≠ host_if_state.HOST_IF_P2P_LISTEN →
      ∀ (env2 : Env) (cookie2 : Nat),
        (∃ s2, wilc_listen_state_expired env2 s1 vif cookie2 = some (0, s2) ∧
          s2.log = s1.log ∧ s2.state vif = s1.state vif) ∧
        wilc_handle_listen_state_expired env2 s1 vif cookie2 = some s1 := by
    intro s1 d1 e1 hne env2 cookie2
    constructor
    · unfold wilc_listen_state_expired
      simp only [e1]
      rw [roc_expired_idle env2 _ vif cookie2 { d1 with remain_on_ch_timer := none }
        (by simp [e1]) hne]
      exact ⟨_, rfl, rfl, by simp [World.state, e1]⟩
    · unfold wilc_handle_listen_state_expired
      rw [roc_expired_idle env2 s1 vif cookie2 d1 e1 hne]
      rfl
  have hne : (if d.assoc_bssid = null_bssid then host_if_state.HOST_IF_IDLE
      else host_if_state.HOST_IF_CONNECTED) ≠ host_if_state.HOST_IF_P2P_LISTEN := by
    split <;> simp
  constructor
  · obtain ⟨s1, d1, e1, e2, hs1, hl1⟩ := roc_expired_granted env
      (s.updDrv vif fun d => { d with remain_on_ch_timer := none }) vif cookie
      { d with remain_on_ch_timer := none } (by simp [h]) hst halloc hok
    refine ⟨s1, ?_, ?_, ?_, second s1 d1 e2 (by rw [hs1]; exact hne)⟩
    · unfold wilc_listen_state_expired
      simp only [h]
      exact e1
    · simp [World.state, e2, hs1]
    · simpa [hcb] using hl1
  · obtain ⟨s1, d1, e1, e2, hs1, hl1⟩ := roc_expired_granted env s vif cookie d h hst halloc hok
    refine ⟨s1, ?_, ?_, ?_, second s1 d1 e2 (by rw [hs1]; exact hne)⟩
    · unfold wilc_handle_listen_state_expired
      rw [e1]; rfl
    · simp [World.state, e2, hs1]
    · simpa [hcb] using hl1

/-- Claim C8 at a sample input: an explicit expiry on an associated, listening interface. -/
theorem listen_expiry_granted_witness :
    (sample_world host_if_state.HOST_IF_P2P_LISTEN [2, 0, 0, 0, 0, 1]).getDrv 0 =
      some (sample_drv host_if_state.HOST_IF_P2P_LISTEN [2, 0, 0, 0, 0, 1]) ∧
    env_ok.kmalloc (sample_world host_if_state.HOST_IF_P2P_LISTEN [2, 0, 0, 0, 0, 1]).allocs =
      true ∧
    ∃ s1, wilc_listen_state_expired env_ok
        (sample_world host_if_state.HOST_IF_P2P_LISTEN [2, 0, 0, 0, 0, 1]) 0 8 = some (0, s1) ∧
      s1.state 0 = some host_if_state.HOST_IF_CONNECTED ∧
      s1.log.filter (is_expired 0) = [Ev.expired 0 3 4 8] := by
  refine ⟨rfl, rfl, ?_⟩
  obtain ⟨⟨s1, e1, hs, hl, _⟩, _⟩ := listen_expiry_granted env_ok
    (sample_world host_if_state.HOST_IF_P2P_LISTEN [2, 0, 0, 0, 0, 1]) 0 8 3
    (sample_drv host_if_state.HOST_IF_P2P_LISTEN [2, 0, 0, 0, 0, 1]) rfl rfl rfl rfl rfl
  exact ⟨s1, e1, hs, hl⟩

/-! ## Busy rejection of scan and remain-on-channel requests -/

theorem getDrv_eq_some_iff (s : World) (j : Nat) (dj : host_if_drv) :
    s.getDrv j = some dj ↔ ∃ v, s.wilc.vif_list[j]? = some v ∧ v.hif_drv = some dj := by
  unfold World.getDrv
  cases s.wilc.vif_list[j]? <;> simp

theorem scan_busy_iff (s : World) :
    scan_busy s.wilc = true ↔
      ∃ j dj, s.getDrv j = some dj ∧ dj.hif_state ≠ host_if_state.HOST_IF_IDLE ∧
        dj.hif_state ≠ host_if_state.HOST_IF_CONNECTED := by
  unfold scan_busy
  rw [List.any_eq_true]
  constructor
  · rintro ⟨v, hmem, hv⟩
    obtain ⟨j, hj⟩ := List.mem_iff_getElem?.mp hmem
    cases hd : v.hif_drv with
    | none => simp [hd] at hv
    | some dj =>
      simp only [hd, decide_eq_true_eq] at hv
      exact ⟨j, dj, (getDrv_eq_some_iff s j dj).mpr ⟨v, hj, hd⟩, hv⟩
  · rintro ⟨j, dj, hj, hne⟩
    obtain ⟨v, hv, hd⟩ := (getDrv_eq_some_iff s j dj).mp hj
    exact ⟨v, List.mem_iff_getElem?.mpr ⟨j, hv⟩, by simp [hd, hne]⟩

theorem roc_busy_eq_scan_busy (w : wilc) : roc_busy w = scan_busy w := by
  unfold roc_busy scan_busy
  congr 1
  funext v
  cases v.hif_drv with
  | none => rfl
  | some d => by_cases e : d.hif_state = host_if_state.HOST_IF_SCANNING <;> simp [e]

/-- Claim C10: `wilc_scan`, called for an interface with a driver context while some
interface of the device that has a driver context is in a state other than `HOST_IF_IDLE`
and `HOST_IF_CONNECTED`, returns `-EBUSY` and leaves the world and the caller's channel
list as they were: no round trip, no scan timer armed, no callback registered. -/
theorem wilc_scan_busy (env : Env) (s : World) (vif scan_source scan_type : Nat)
    (ch_freq_list : Option (List Nat)) (ch_list_len : Nat) (scan_result_fn : Option Nat)
    (user_arg : Nat) (request : cfg80211_scan_request) (d : host_if_drv)
    (h : s.getDrv vif = some d) (j : Nat) (dj : host_if_drv) (hj : s.getDrv j = some dj)
    (hbusy : dj.hif_state ≠ host_if_state.HOST_IF_IDLE ∧
      dj.hif_state ≠ host_if_state.HOST_IF_CONNECTED) :
    wilc_scan env s vif scan_source scan_type ch_freq_list ch_list_len scan_result_fn
      user_arg request = some ⟨-EBUSY, ch_freq_list, s⟩ := by
  have hb : scan_busy s.wilc = true := (scan_busy_iff s).mpr ⟨j, dj, hj, hbusy⟩
  obtain ⟨v, hv, _⟩ := (getDrv_eq_some_iff s vif d).mp h
  unfold wilc_scan
  simp [World.getVif, hv, h, hb]

/-- Claim C10 at a sample input: a scan request on interface 1 while interface 0 waits for
a connect response. -/
theorem wilc_scan_busy_witness :
    (sample_world host_if_state.HOST_IF_WAITING_CONN_RESP null_bssid).getDrv 1 =
      some hif_drv_init ∧
    (sample_world host_if_state.HOST_IF_WAITING_CONN_RESP null_bssid).getDrv 0 =
      some (sample_drv host_if_state.HOST_IF_WAITING_CONN_RESP null_bssid) ∧
    wilc_scan env_ok (sample_world host_if_state.HOST_IF_WAITING_CONN_RESP null_bssid) 1 0 1
        (some [1, 6, 11]) 3 (some 7) 9 ⟨[], [], 0, 0⟩ =
      some ⟨-EBUSY, some [1, 6, 11],
        sample_world host_if_state.HOST_IF_WAITING_CONN_RESP null_bssid⟩ :=
  ⟨rfl, rfl, wilc_scan_busy env_ok
    (sample_world host_if_state.HOST_IF_WAITING_CONN_RESP null_bssid) 1 0 1
    (some [1, 6, 11]) 3 (some 7) 9 ⟨[], [], 0, 0⟩ hif_drv_init rfl 0
    (sample_drv host_if_state.HOST_IF_WAITING_CONN_RESP null_bssid) rfl
    ⟨by decide, by decide⟩⟩

/-- Claim C9: `wilc_remain_on_channel`, called for an interface with a driver context,
returns `-EBUSY` whenever some interface of the device that has a driver context is in
`HOST_IF_SCANNING`, `HOST_IF_WAITING_CONN_RESP`, `HOST_IF_EXTERNAL_AUTH` or
`HOST_IF_P2P_LISTEN`, or the `connecting` flag of the requesting interface is set; the
world is then as it was: no round trip, and the state and the stored remain-on-channel
descriptor of the interface are unchanged. -/
theorem wilc_remain_on_channel_busy (env : Env) (s : World)
    (vif cookie duration chan : Nat) (expired : Option Nat) (user_arg : Nat)
    (v : wilc_vif) (d : host_if_drv)
    (hv : s.getVif vif = some v) (hd : v.hif_drv = some d)
    (hbusy : (∃ j dj, s.getDrv j = some dj ∧
        (dj.hif_state = host_if_state.HOST_IF_SCANNING ∨
         dj.hif_state = host_if_state.HOST_IF_WAITING_CONN_RESP ∨
         dj.hif_state = host_if_state.HOST_IF_EXTERNAL_AUTH ∨
         dj.hif_state = host_if_state.HOST_IF_P2P_LISTEN)) ∨
      v.connecting = true) :
    wilc_remain_on_channel env s vif cookie duration chan expired user_arg = (-EBUSY, s) := by
  have h : s.getDrv vif = some d :=
    (getDrv_eq_some_iff s vif d).mpr ⟨v, hv, hd⟩
  unfold wilc_remain_on_channel handle_remain_on_chan
  simp only [hv, h]
  rcases hbusy with ⟨j, dj, hj, hst⟩ | hc
  · have hb : roc_busy s.wilc = true := by
      rw [roc_busy_eq_scan_busy]
      refine (scan_busy_iff s).mpr ⟨j, dj, hj, ?_⟩
      rcases hst with e | e | e | e <;> simp [e]
    simp [hb]
  · simp [hc]

/-- Claim C9 at a sample input: a remain-on-channel request on interface 1 while interface
0 is in `HOST_IF_EXTERNAL_AUTH`. -/
theorem wilc_remain_on_channel_busy_witness :
    (sample_world host_if_state.HOST_IF_EXTERNAL_AUTH null_bssid).getVif 1 =
      some { idx := 1, connecting := false, hif_drv := some hif_drv_init } ∧
    (sample_world host_if_state.HOST_IF_EXTERNAL_AUTH null_bssid).getDrv 0 =
      some (sample_drv host_if_state.HOST_IF_EXTERNAL_AUTH null_bssid) ∧
    wilc_remain_on_channel env_ok
        (sample_world host_if_state.HOST_IF_EXTERNAL_AUTH null_bssid) 1 8 100 6 (some 3) 4 =
      (-EBUSY, sample_world host_if_state.HOST_IF_EXTERNAL_AUTH null_bssid) :=
  ⟨rfl, rfl, wilc_remain_on_channel_busy env_ok
    (sample_world host_if_state.HOST_IF_EXTERNAL_AUTH null_bssid) 1 8 100 6 (some 3) 4
    { idx := 1, connecting := false, hif_drv := some hif_drv_init } hif_drv_init rfl rfl
    (Or.inl ⟨0, sample_drv host_if_state.HOST_IF_EXTERNAL_AUTH null_bssid, rfl,
      Or.inr (Or.inr (Or.inl rfl))⟩)⟩

/-! ## Cross-interface exclusion -/

theorem state_updDrv (s : World) (i j : Nat) (f : host_if_drv → host_if_drv) :
    (s.updDrv i f).state j =
      if i = j then (s.getDrv j).map (fun d => (f d).hif_state) else s.state j := by
  unfold World.state
  rw [getDrv_updDrv]
  split <;> simp [Function.comp_def]

@[simp] theorem state_emit (s : World) (e : Ev) (j : Nat) : (s.emit e).state j = s.state j := rfl

@[simp] theorem state_kfree {α : Type} (s : World) (vif : Nat) (obj : heap_obj) (p : Option α)
    (j : Nat) : (kfree s vif obj p).state j = s.state j := by
  simp [World.state]

@[simp] theorem state_send (env : Env) (s : World) (vif : Nat) (m : cfg_mode) (w : List wid)
    (j : Nat) : (wilc_send_config_pkt env s vif m w).2.state j = s.state j := rfl

@[simp] theorem state_kmalloc (env : Env) (s : World) (j : Nat) :
    (kmalloc env s).2.state j = s.state j := rfl

theorem Frame.refl (vif : Nat) (s : World) : Frame vif s s := fun _ => Or.inl rfl

theorem Frame.of_state_eq {vif : Nat} {s s1 : World} (h : ∀ j, s1.state j = s.state j) :
    Frame vif s s1 := fun j => Or.inl (h j)

theorem Frame.trans {vif : Nat} {s s1 s2 : World} (h1 : Frame vif s s1) (h2 : Frame vif s1 s2) :
    Frame vif s s2 := by
  intro j
  rcases h2 j with e2 | ⟨hj, hp, st, e2, hq⟩
  · rcases h1 j with e1 | ⟨hj, hp, st, e1, hq⟩
    · exact Or.inl (e2.trans e1)
    · exact Or.inr ⟨hj, hp, st, e2.trans e1, hq⟩
  · refine Or.inr ⟨hj, ?_, st, e2, hq⟩
    rcases h1 j with e1 | ⟨_, hp1, _⟩
    · rw [← e1]; exact hp
    · exact hp1

/-- A store into the context of `vif` that keeps the state or sets a state that is neither
scanning nor listening. -/
theorem Frame.updDrv (vif : Nat) (s : World) (f : host_if_drv → host_if_drv)
    (hf : ∀ d, (f d).hif_state = d.hif_state ∨ (f d).hif_state.scan_or_listen = false) :
    Frame vif s (s.updDrv vif f) := by
  intro j
  rw [state_updDrv]
  by_cases hj : vif = j
  · subst hj
    rw [if_pos rfl]
    cases hd : s.getDrv vif with
    | none => left; simp [World.state, hd]
    | some d =>
      rcases hf d with e | e
      · left; simp [World.state, hd, e]
      · right; exact ⟨rfl, by simp [World.state, hd], _, by simp, e⟩
  · simp [hj]

theorem Frame.step_updDrv {vif : Nat} {s s1 : World} {f : host_if_drv → host_if_drv}
    (hf : ∀ d, (f d).hif_state = d.hif_state ∨ (f d).hif_state.scan_or_listen = false)
    (F : Frame vif s s1) : Frame vif s (s1.updDrv vif f) :=
  F.trans (Frame.updDrv vif s1 f hf)

theorem Frame.step_emit {vif : Nat} {s s1 : World} {e : Ev} (F : Frame vif s s1) :
    Frame vif s (s1.emit e) :=
  F.trans (Frame.of_state_eq (fun _ => rfl))

theorem Frame.step_kfree {α : Type} {vif v : Nat} {s s1 : World} {obj : heap_obj}
    {p : Option α} (F : Frame vif s s1) : Frame vif s (kfree s1 v obj p) :=
  F.trans (Frame.of_state_eq (fun j => state_kfree s1 v obj p j))

theorem Frame.step_send {vif v : Nat} {s s1 : World} {env : Env} {m : cfg_mode}
    {w : List wid} (F : Frame vif s s1) :
    Frame vif s (wilc_send_config_pkt env s1 v m w).2 :=
  F.trans (Frame.of_state_eq (fun _ => rfl))

theorem Frame.step_kmalloc {vif : Nat} {s s1 : World} {env : Env} (F : Frame vif s s1) :
    Frame vif s (kmalloc env s1).2 :=
  F.trans (Frame.of_state_eq (fun _ => rfl))

theorem Frame.keeps_exclusion {vif : Nat} {s s1 : World} (hF : Frame vif s s1)
    (hinv : at_most_one host_if_state.scan_or_listen s) :
    at_most_one host_if_state.scan_or_listen s1 := by
  intro i j sti stj hi hj pi pj
  have key : ∀ k st, s1.state k = some st → st.scan_or_listen = true → s.state k = some st := by
    intro k st hk hp
    rcases hF k with e | ⟨_, _, st1, e, hq⟩
    · rw [← e]; exact hk
    · rw [hk] at e
      cases e
      rw [hp] at hq
      cases hq
  exact hinv i j sti stj (key i sti hi pi) (key j stj hj pj) pi pj

theorem Frame.keeps_present {vif : Nat} {s s1 : World} (hF : Frame vif s s1) (j : Nat)
    (hj : (s.state j).isSome) : (s1.state j).isSome := by
  rcases hF j with e | ⟨_, _, st, e, _⟩
  · rw [e]; exact hj
  · rw [e]; rfl

theorem scan_busy_false (s : World) (h : scan_busy s.wilc = false) (j : Nat)
    (st : host_if_state) (hj : s.state j = some st) : st.scan_or_listen = false := by
  unfold World.state at hj
  cases hd : s.getDrv j with
  | none => simp [hd] at hj
  | some d =>
    simp only [hd, Option.map_some', Option.some.injEq] at hj
    subst hj
    by_contra hne
    have : scan_busy s.wilc = true := by
      refine (scan_busy_iff s).mpr ⟨j, d, hd, ?_⟩
      revert hne
      unfold host_if_state.scan_or_listen
      cases d.hif_state <;> simp
    rw [h] at this
    cases this

theorem Granted.gives_exclusion {vif : Nat} {s s1 : World} (hG : Granted vif s s1) :
    at_most_one host_if_state.scan_or_listen s1 := by
  obtain ⟨hb, _, _, hother⟩ := hG
  intro i j sti stj hi hj pi pj
  have key : ∀ k st, s1.state k = some st → st.scan_or_listen = true → k = vif := by
    intro k st hk hp
    by_contra hne
    rw [hother k hne] at hk
    have := scan_busy_false s hb k st hk
    rw [hp] at this
    cases this
  rw [key i sti hi pi, key j stj hj pj]

theorem Granted.gives_present {vif : Nat} {s s1 : World} (hG : Granted vif s s1) (j : Nat)
    (hj : (s.state j).isSome) : (s1.state j).isSome := by
  obtain ⟨_, _, hv, hother⟩ := hG
  by_cases e : j = vif
  · subst e; rw [hv]; rfl
  · rw [hother j e]; exact hj


theorem frame_handle_scan_done (env : Env) (s : World) (vif : Nat) (evt : scan_event) :
    Frame vif s (handle_scan_done env s vif evt).2 := by
  unfold handle_scan_done
  cases h : s.getDrv vif with
  | none => exact Frame.refl vif s
  | some d =>
    intro j
    by_cases hj : vif = j
    · subst hj
      cases evt <;> cases hs : d.usr_scan_req.scan_result <;>
        simp [state_updDrv, World.state, h, hs, host_if_state.scan_or_listen] <;>
        split <;> simp
    · cases evt <;> cases hs : d.usr_scan_req.scan_result <;>
        simp [state_updDrv, hj, hs]


theorem frame_wilc_scan (env : Env) (s : World) (vif scan_source scan_type : Nat)
    (ch_freq_list : Option (List Nat)) (ch_list_len : Nat) (scan_result_fn : Option Nat)
    (user_arg : Nat) (request : cfg80211_scan_request) (d : host_if_drv)
    (h : s.getDrv vif = some d) :
    ∃ r, wilc_scan env s vif scan_source scan_type ch_freq_list ch_list_len scan_result_fn
      user_arg request = some r ∧ Frame vif s r.world := by
  obtain ⟨v, hv, _⟩ := (getDrv_eq_some_iff s vif d).mp h
  unfold wilc_scan
  simp only [World.getVif, hv, h]
  by_cases hb : scan_busy s.wilc = true
  · simp only [hb, if_true]
    exact ⟨_, rfl, Frame.refl vif s⟩
  · by_cases hc : v.connecting = true
    · simp only [hb, hc, if_true]
      exact ⟨_, rfl, Frame.refl vif s⟩
    · simp only [hb, hc]
      refine ⟨_, rfl, ?_⟩
      intro j
      by_cases hj : vif = j
      · subst hj
        left
        split_ifs <;> simp [state_updDrv, World.state, h]
      · left
        split_ifs <;> simp [state_updDrv, hj]

theorem frame_wilc_send_connect_wid (env : Env) (s : World) (vif : Nat) (d : host_if_drv)
    (h : s.getDrv vif = some d) :
    ∃ r, wilc_send_connect_wid env s vif = some r ∧ Frame vif s r.2 := by
  unfold wilc_send_connect_wid
  simp only [h]
  split_ifs
  all_goals
    refine ⟨_, rfl, ?_⟩
    intro j
    by_cases hj : vif = j
    · subst hj
      simp [state_updDrv, World.state, h, host_if_state.scan_or_listen]
    · simp [state_updDrv, hj]


theorem join_tail (env : Env) (s0 : World) (vif : Nat) (d0 : host_if_drv)
    (h0 : s0.getDrv vif = some d0) :
    ∃ r, (match wilc_send_connect_wid env s0 vif with
        | none => none
        | some (result, s2) =>
          if result ≠ 0 then
            some (result, kfree s2 vif heap_obj.req_ies
              ((s2.getDrv vif).bind fun d => d.conn_info.req_ies))
          else
            some (0, s2.updDrv vif fun d =>
              { d with connect_timer_vif := some vif,
                       connect_timer := some WILC_HIF_CONNECT_TIMEOUT_MS })) = some r ∧
      Frame vif s0 r.2 := by
  obtain ⟨r, hr, hF2⟩ := frame_wilc_send_connect_wid env s0 vif d0 h0
  rw [hr]
  obtain ⟨result, s2⟩ := r
  by_cases hres : result ≠ 0
  · simp only [if_pos hres]
    exact ⟨_, rfl, hF2.trans (Frame.of_state_eq (fun j => by simp))⟩
  · simp only [if_neg hres]
    exact ⟨_, rfl, hF2.trans (Frame.updDrv vif _ _ (fun _ => Or.inl rfl))⟩

theorem frame_wilc_set_join_req_none (env : Env) (s : World) (vif : Nat)
    (ies : Option (List Nat)) (ies_len : Nat) (d : host_if_drv) (h : s.getDrv vif = some d) :
    ∃ r, wilc_set_join_req env s vif none ies ies_len = some r ∧ Frame vif s r.2 := by
  unfold wilc_set_join_req
  simp only [h]
  cases ies with
  | none =>
    simp only [Bool.true_eq_false, if_false]
    exact join_tail env s vif d h
  | some i =>
    simp only []
    have F2 : ∀ b : Bool, Frame vif s ((kmalloc env s).2.updDrv vif fun d =>
        { d with conn_info := { d.conn_info with
            req_ies_len := ies_len,
            req_ies := if b then some (i.take ies_len) else none } }) := fun b =>
      (Frame.of_state_eq (fun j => by simp)).trans
        (Frame.updDrv vif _ _ (fun _ => Or.inl rfl))
    by_cases hk : (kmalloc env s).1 = false
    · simp only [if_pos hk]
      exact ⟨_, rfl, F2 _⟩
    · simp only [if_neg hk]
      obtain ⟨r, hr, hF⟩ := join_tail env ((kmalloc env s).2.updDrv vif fun d =>
          { d with conn_info := { d.conn_info with
              req_ies_len := ies_len,
              req_ies := if (kmalloc env s).1 then some (i.take ies_len) else none } }) vif _
        (by simp [h]; rfl)
      exact ⟨r, hr, (F2 _).trans hF⟩

theorem wilc_set_join_req_bssid (env : Env) (s : World) (vif : Nat) (b : List Nat)
    (ies : Option (List Nat)) (ies_len : Nat) (d : host_if_drv) (h : s.getDrv vif = some d) :
    wilc_set_join_req env s vif (some b) ies ies_len =
      wilc_set_join_req env
        (s.updDrv vif fun d => { d with conn_info := { d.conn_info with bssid := b } })
        vif none ies ies_len := by
  unfold wilc_set_join_req
  simp [h]

theorem frame_wilc_set_join_req (env : Env) (s : World) (vif : Nat) (bssid : Option (List Nat))
    (ies : Option (List Nat)) (ies_len : Nat) (d : host_if_drv) (h : s.getDrv vif = some d) :
    ∃ r, wilc_set_join_req env s vif bssid ies ies_len = some r ∧ Frame vif s r.2 := by
  cases bssid with
  | none => exact frame_wilc_set_join_req_none env s vif ies ies_len d h
  | some b =>
    rw [wilc_set_join_req_bssid env s vif b ies ies_len d h]
    obtain ⟨r, hr, hF⟩ := frame_wilc_set_join_req_none env
      (s.updDrv vif fun d => { d with conn_info := { d.conn_info with bssid := b } }) vif ies
      ies_len _ (by simp [h]; rfl)
    have F1 : Frame vif s
        (s.updDrv vif fun d => { d with conn_info := { d.conn_info with bssid := b } }) :=
      Frame.updDrv vif _ _ (fun _ => Or.inl rfl)
    exact ⟨r, hr, F1.trans hF⟩

theorem frame_handle_connect_cancel (s : World) (vif : Nat) (d : host_if_drv)
    (h : s.getDrv vif = some d) :
    ∃ s1, handle_connect_cancel s vif = some s1 ∧ Frame vif s s1 := by
  unfold handle_connect_cancel
  simp only [h]
  refine ⟨_, rfl, ?_⟩
  intro j
  by_cases hj : vif = j
  · subst hj
    cases hc : d.conn_info.conn_result <;>
      simp [state_updDrv, World.state, h, hc, host_if_state.scan_or_listen]
  · cases hc : d.conn_info.conn_result <;> simp [state_updDrv, hj, hc]

theorem frame_handle_connect_timeout (env : Env) (s : World) (vif : Nat) :
    Frame vif s (handle_connect_timeout env s vif) := by
  unfold handle_connect_timeout
  cases h : s.getDrv vif with
  | none => exact Frame.refl vif s
  | some d =>
    intro j
    by_cases hj : vif = j
    · subst hj
      cases hc : d.conn_info.conn_result <;>
        simp [state_updDrv, World.state, h, hc, host_if_state.scan_or_listen]
    · cases hc : d.conn_info.conn_result <;> simp [state_updDrv, hj, hc]


theorem Frame.step_scan_done {vif : Nat} {s s1 : World} {env : Env} {evt : scan_event}
    (F : Frame vif s s1) : Frame vif s (handle_scan_done env s1 vif evt).2 :=
  F.trans (frame_handle_scan_done env s1 vif evt)

theorem state_updDrv_keep (s : World) (i j : Nat) (f : host_if_drv → host_if_drv)
    (hf : ∀ d, (f d).hif_state = d.hif_state) : (s.updDrv i f).state j = s.state j := by
  rw [state_updDrv]
  split
  · unfold World.state
    cases s.getDrv j <;> simp [hf]
  · rfl

theorem state_get_assoc_res_info (env : Env) (s : World) (vif m j : Nat) :
    (host_int_get_assoc_res_info env s vif m).2.state j = s.state j := by
  unfold host_int_get_assoc_res_info
  simp only []
  split_ifs <;> simp only [] <;>
    exact (state_updDrv_keep _ vif j _ (by intro _; rfl)).trans rfl

theorem state_parse_assoc_resp_info (env : Env) (s : World) (buf : List Nat) (len : Nat)
    (c : wilc_conn_info) (j : Nat) :
    (wilc_parse_assoc_resp_info env s buf len c).2.2.state j = s.state j := by
  unfold wilc_parse_assoc_resp_info
  simp only []
  split_ifs <;> rfl

theorem state_fetch_assoc_resp (env : Env) (s : World) (vif status : Nat) (d : host_if_drv)
    (j : Nat) : (fetch_assoc_resp env s vif status d).2.state j = s.state j := by
  unfold fetch_assoc_resp
  simp only []
  split_ifs
  · rw [state_parse_assoc_resp_info, state_get_assoc_res_info]
    exact state_updDrv_keep _ vif j _ (by intro _; rfl)
  · rw [state_get_assoc_res_info]
    exact state_updDrv_keep _ vif j _ (by intro _; rfl)
  · rfl

theorem frame_host_int_parse_assoc_resp_info (env : Env) (s : World) (vif status fn : Nat)
    (d : host_if_drv) (h : s.getDrv vif = some d) (hcb : d.conn_info.conn_result = some fn) :
    ∃ s1, host_int_parse_assoc_resp_info env s vif status = some s1 ∧ Frame vif s s1 := by
  unfold host_int_parse_assoc_resp_info
  simp only [h, hcb]
  refine ⟨_, rfl, ?_⟩
  have Ff : Frame vif s (fetch_assoc_resp env s vif status d).2 :=
    Frame.of_state_eq (state_fetch_assoc_resp env s vif status d)
  refine Frame.step_updDrv (by intro _; exact Or.inl rfl) ?_
  refine Frame.step_kfree (Frame.step_kfree ?_)
  split_ifs
  · exact Frame.step_updDrv (by intro _; exact Or.inr rfl)
      (Frame.step_emit (Frame.step_updDrv (by intro _; exact Or.inl rfl) Ff))
  · exact Frame.step_updDrv (by intro _; exact Or.inr rfl)
      (Frame.step_emit (Frame.step_updDrv (by intro _; exact Or.inl rfl) Ff))

theorem frame_host_int_handle_disconnect (env : Env) (s : World) (vif : Nat)
    (d : host_if_drv) (h : s.getDrv vif = some d) :
    ∃ s1, host_int_handle_disconnect env s vif = some s1 ∧ Frame vif s s1 := by
  unfold host_int_handle_disconnect
  simp only [h]
  refine ⟨_, rfl, ?_⟩
  refine Frame.step_updDrv (by intro _; exact Or.inr rfl) (Frame.step_kfree ?_)
  cases d.usr_scan_req.scan_result <;> cases d.conn_info.conn_result <;> simp only []
  · exact Frame.refl vif s
  · exact Frame.step_emit (Frame.refl vif s)
  · exact Frame.step_scan_done
      (Frame.step_updDrv (by intro _; exact Or.inl rfl) (Frame.refl vif s))
  · exact Frame.step_emit (Frame.step_scan_done
      (Frame.step_updDrv (by intro _; exact Or.inl rfl) (Frame.refl vif s)))

theorem frame_handle_rcvd_gnrl_async_info (env : Env) (s : World) (vif status : Nat) :
    ∃ s1, handle_rcvd_gnrl_async_info env s vif status = some s1 ∧ Frame vif s s1 := by
  unfold handle_rcvd_gnrl_async_info
  cases h : s.getDrv vif with
  | none => exact ⟨s, rfl, Frame.refl vif s⟩
  | some d =>
    simp only []
    cases hcb : d.conn_info.conn_result with
    | none => exact ⟨s, rfl, Frame.refl vif s⟩
    | some fn =>
      simp only []
      split_ifs
      · exact ⟨_, rfl, Frame.step_updDrv (by intro _; exact Or.inr rfl)
          (Frame.step_emit (Frame.refl vif s))⟩
      · exact frame_host_int_parse_assoc_resp_info env s vif status fn d h hcb
      · exact frame_host_int_handle_disconnect env s vif d h
      · exact ⟨_, rfl, Frame.step_scan_done
          (Frame.step_updDrv (by intro _; exact Or.inl rfl) (Frame.refl vif s))⟩
      · exact ⟨s, rfl, Frame.refl vif s⟩
      · exact ⟨s, rfl, Frame.refl vif s⟩


theorem frame_abort_scans (env : Env) (l : List Nat) :
    ∀ s : World, ∀ j, (abort_scans env l s).state j = s.state j := by
  induction l with
  | nil => intro s j; rfl
  | cons vif_tmp l ih =>
    intro s j
    unfold abort_scans
    cases ht : s.getDrv vif_tmp with
    | none => exact ih s j
    | some dt =>
      simp only []
      split_ifs with hsc
      · rw [ih]
        -- an aborted scan leaves every state as it was
        unfold handle_scan_done
        simp only [getDrv_updDrv_same, ht, Option.map_some']
        cases dt.usr_scan_req.scan_result <;>
          simp [state_updDrv_keep, state_updDrv]
      · exact ih s j

theorem frame_wilc_disconnect (env : Env) (s : World) (vif : Nat) (d : host_if_drv)
    (h : s.getDrv vif = some d) :
    ∃ r, wilc_disconnect env s vif = some r ∧ Frame vif s r.2 := by
  have F0 : Frame vif s (abort_scans env (List.range s.wilc.vif_list.length) s) :=
    Frame.of_state_eq (frame_abort_scans env _ s)
  obtain ⟨⟨dm, em, _⟩, _, _⟩ :=
    abort_scans_spec env vif (List.range s.wilc.vif_list.length) s d h
  unfold wilc_disconnect
  simp only [getDrv_send, em]
  generalize abort_scans env (List.range s.wilc.vif_list.length) s = sm at F0 ⊢
  have F1 : Frame vif s (wilc_send_config_pkt env sm vif cfg_mode.WILC_SET_CFG
      [⟨wid_id.WID_DISCONNECT, wid_type.WID_CHAR, 1, [0, 0]⟩]).2 := Frame.step_send F0
  generalize wilc_send_config_pkt env sm vif cfg_mode.WILC_SET_CFG
      [⟨wid_id.WID_DISCONNECT, wid_type.WID_CHAR, 1, [0, 0]⟩] = r at F1 ⊢
  by_cases hres : r.1.result ≠ 0
  · simp only [if_pos hres]
    exact ⟨_, rfl, F1⟩
  · simp only [if_neg hres]
    refine ⟨_, rfl, ?_⟩
    refine Frame.step_updDrv (by intro _; exact Or.inr rfl) (Frame.step_kfree ?_)
    have F2 : Frame vif s (match dm.usr_scan_req.scan_result with
        | some fn =>
          ((r.2.updDrv vif fun d => { d with scan_timer := none }).emit
            (Ev.scan_result vif fn scan_event.SCAN_EVENT_ABORTED dm.usr_scan_req.arg)).updDrv
            vif fun d => { d with usr_scan_req := { d.usr_scan_req with scan_result := none } }
        | none => r.2) := by
      cases dm.usr_scan_req.scan_result <;> simp only []
      · exact F1
      · exact Frame.step_updDrv (by intro _; exact Or.inl rfl) (Frame.step_emit
          (Frame.step_updDrv (by intro _; exact Or.inl rfl) F1))
    cases dm.conn_info.conn_result <;> simp only []
    · exact F2
    · split_ifs
      · exact Frame.step_emit (Frame.step_updDrv (by intro _; exact Or.inl rfl) F2)
      · exact Frame.step_emit F2
      · exact F2

theorem frame_handle_remain_on_chan (env : Env) (s : World) (vif : Nat)
    (roc : wilc_remain_ch) :
    Frame vif s (handle_remain_on_chan env s vif roc).2 ∨
      Granted vif s (handle_remain_on_chan env s vif roc).2 := by
  unfold handle_remain_on_chan
  cases hv : s.getVif vif with
  | none => exact Or.inl (Frame.refl vif s)
  | some v =>
    cases h : s.getDrv vif with
    | none => exact Or.inl (Frame.refl vif s)
    | some d =>
      simp only []
      by_cases hb : roc_busy s.wilc = true
      · simp only [if_pos hb]
        exact Or.inl (Frame.refl vif s)
      · simp only [if_neg hb]
        by_cases hc : v.connecting = true
        · simp only [if_pos hc]
          exact Or.inl (Frame.refl vif s)
        · simp only [if_neg hc]
          have Fk : Frame vif s (kmalloc env s).2 := Frame.step_kmalloc (Frame.refl vif s)
          by_cases hk : (kmalloc env s).1 = false
          · simp only [if_pos hk]
            exact Or.inl Fk
          · simp only [if_neg hk]
            have Fs : Frame vif s (kfree (wilc_send_config_pkt env (kmalloc env s).2 vif
                cfg_mode.WILC_SET_CFG
                [⟨wid_id.WID_REMAIN_ON_CHAN, wid_type.WID_STR, 2, [1, roc.ch % 256]⟩]).2
                vif heap_obj.wid_val (some ())) := Frame.step_kfree (Frame.step_send Fk)
            by_cases hr : (wilc_send_config_pkt env (kmalloc env s).2 vif
                cfg_mode.WILC_SET_CFG
                [⟨wid_id.WID_REMAIN_ON_CHAN, wid_type.WID_STR, 2, [1, roc.ch % 256]⟩]).1.result ≠ 0
            · simp only [if_pos hr]
              exact Or.inl Fs
            · simp only [if_neg hr]
              right
              refine ⟨?_, by simp [World.state, h], ?_, ?_⟩
              · rw [← roc_busy_eq_scan_busy]
                simpa using hb
              · simp [state_updDrv, h]
              · intro j hj
                simp [state_updDrv, Ne.symm hj]

theorem frame_wilc_handle_roc_expired (env : Env) (s : World) (vif cookie : Nat)
    (d : host_if_drv) (h : s.getDrv vif = some d) :
    ∃ r, wilc_handle_roc_expired env s vif cookie = some r ∧ Frame vif s r.2 := by
  unfold wilc_handle_roc_expired
  simp only [h]
  by_cases hst : d.hif_state = host_if_state.HOST_IF_P2P_LISTEN
  · simp only [if_pos hst]
    have Fk : Frame vif s (kmalloc env s).2 := Frame.step_kmalloc (Frame.refl vif s)
    by_cases hk : (kmalloc env s).1 = false
    · simp only [if_pos hk]
      exact ⟨_, rfl, Fk⟩
    · simp only [if_neg hk]
      have Fs : Frame vif s (kfree (wilc_send_config_pkt env (kmalloc env s).2 vif
          cfg_mode.WILC_SET_CFG
          [⟨wid_id.WID_REMAIN_ON_CHAN, wid_type.WID_STR, 2, [0, WILC_FALSE_FRMWR_CHANNEL]⟩]).2
          vif heap_obj.wid_val (some ())) := Frame.step_kfree (Frame.step_send Fk)
      by_cases hr : (wilc_send_config_pkt env (kmalloc env s).2 vif cfg_mode.WILC_SET_CFG
          [⟨wid_id.WID_REMAIN_ON_CHAN, wid_type.WID_STR, 2,
            [0, WILC_FALSE_FRMWR_CHANNEL]⟩]).1.result ≠ 0
      · simp only [if_pos hr]
        exact ⟨_, rfl, Fs⟩
      · simp only [if_neg hr]
        refine ⟨_, rfl, Frame.step_updDrv ?_ ?_⟩
        · intro _
          right
          by_cases hn : d.assoc_bssid = null_bssid
          · simp only [if_pos hn]; rfl
          · simp only [if_neg hn]; rfl
        · cases d.remain_on_ch.expired <;> simp only []
          · exact Fs
          · exact Frame.step_emit Fs
  · simp only [if_neg hst]
    exact ⟨_, rfl, Frame.refl vif s⟩

theorem frame_wilc_listen_state_expired (env : Env) (s : World) (vif cookie : Nat) :
    ∃ r, wilc_listen_state_expired env s vif cookie = some r ∧ Frame vif s r.2 := by
  unfold wilc_listen_state_expired
  cases h : s.getDrv vif with
  | none => exact ⟨_, rfl, Frame.refl vif s⟩
  | some d =>
    simp only []
    obtain ⟨r, hr, hF⟩ := frame_wilc_handle_roc_expired env
      (s.updDrv vif fun d => { d with remain_on_ch_timer := none }) vif cookie
      { d with remain_on_ch_timer := none } (by simp [h])
    have F0 : Frame vif s (s.updDrv vif fun d => { d with remain_on_ch_timer := none }) :=
      Frame.updDrv vif _ _ (by intro _; exact Or.inl rfl)
    exact ⟨r, hr, F0.trans hF⟩

theorem frame_handle_scan_complete (env : Env) (s : World) (vif : Nat) (d : host_if_drv)
    (h : s.getDrv vif = some d) :
    ∃ s1, handle_scan_complete env s vif = some s1 ∧ Frame vif s s1 := by
  unfold handle_scan_complete
  simp only [h]
  exact ⟨_, rfl, Frame.step_scan_done
    (Frame.step_updDrv (by intro _; exact Or.inl rfl) (Frame.refl vif s))⟩

theorem state_setConnecting (s : World) (vif : Nat) (b : Bool) (j : Nat) :
    (s.setConnecting vif b).state j = s.state j := by
  unfold World.setConnecting World.state World.getDrv
  simp only [List.getElem?_modify]
  by_cases hj : vif = j
  · subst hj
    cases s.wilc.vif_list[vif]? <;> simp
  · simp [hj]


theorem state_start (n j : Nat) (hj : j < n) :
    (World.start n).state j = some host_if_state.HOST_IF_IDLE := by
  simp [World.state, World.getDrv, World.start, List.getElem?_map, List.getElem?_range hj,
    hif_drv_init]

theorem state_start_cases (n j : Nat) (st : host_if_state)
    (h : (World.start n).state j = some st) : st = host_if_state.HOST_IF_IDLE := by
  by_cases hj : j < n
  · rw [state_start n j hj] at h
    cases h
    rfl
  · have : (World.start n).state j = none := by
      have hr : (List.range n)[j]? = none :=
        List.getElem?_eq_none (by simp; omega)
      simp [World.state, World.getDrv, World.start, List.getElem?_map, hr]
    rw [this] at h
    cases h

/-- One step of a run on an interface with a driver context is defined, and it either
leaves the states within the frame of that interface or is an accepted remain-on-channel
request. -/
theorem step_frame (env : Env) (s : World) (op : Op) (d : host_if_drv)
    (h : s.getDrv op.vif = some d) :
    ∃ s1, step env s op = some s1 ∧ (Frame op.vif s s1 ∨ Granted op.vif s s1) := by
  cases op with
  | scan vif a b c e f g r =>
    obtain ⟨r, hr, hF⟩ := frame_wilc_scan env s vif a b c e f g r d h
    exact ⟨r.world, by simp [step, hr], Or.inl hF⟩
  | set_join_req vif b i l =>
    obtain ⟨r, hr, hF⟩ := frame_wilc_set_join_req env s vif b i l d h
    exact ⟨r.2, by simp [step, hr], Or.inl hF⟩
  | remain_on_channel vif c du ch e u =>
    exact ⟨_, rfl, frame_handle_remain_on_chan env s vif _⟩
  | disconnect vif =>
    obtain ⟨r, hr, hF⟩ := frame_wilc_disconnect env s vif d h
    exact ⟨r.2, by simp [step, hr], Or.inl hF⟩
  | listen_state_expired vif c =>
    obtain ⟨r, hr, hF⟩ := frame_wilc_listen_state_expired env s vif c
    exact ⟨r.2, by simp [step, hr], Or.inl hF⟩
  | connect_cancel vif =>
    obtain ⟨r, hr, hF⟩ := frame_handle_connect_cancel s vif d h
    exact ⟨r, hr, Or.inl hF⟩
  | rcvd_gnrl_async_info vif st =>
    obtain ⟨r, hr, hF⟩ := frame_handle_rcvd_gnrl_async_info env s vif st
    exact ⟨r, hr, Or.inl hF⟩
  | scan_complete vif =>
    obtain ⟨r, hr, hF⟩ := frame_handle_scan_complete env s vif d h
    exact ⟨r, hr, Or.inl hF⟩
  | scan_timer vif =>
    exact ⟨_, rfl, Or.inl (frame_handle_scan_done env s vif _)⟩
  | connect_timeout vif =>
    exact ⟨_, rfl, Or.inl (frame_handle_connect_timeout env s vif)⟩
  | listen_timer vif c =>
    obtain ⟨r, hr, hF⟩ := frame_wilc_handle_roc_expired env s vif c d h
    exact ⟨r.2, by simp [step, wilc_handle_listen_state_expired, hr], Or.inl hF⟩
  | set_conn_params vif p =>
    exact ⟨_, rfl, Or.inl (Frame.updDrv vif s _ (by intro _; exact Or.inl rfl))⟩
  | set_connecting vif b =>
    exact ⟨_, rfl, Or.inl (Frame.of_state_eq (state_setConnecting s vif b))⟩

/-- Runs keep the amended exclusion: from a world in which the first `n` interfaces have a
driver context and at most one interface is scanning or listening, every sequence of
steps on those interfaces is defined and ends in such a world. -/
theorem run_keeps_exclusion (env : Env) (n : Nat) (ops : List Op) :
    ∀ s : World, Present n s → at_most_one host_if_state.scan_or_listen s →
      (∀ op ∈ ops, op.vif < n) →
      ∃ s1, run env s ops = some s1 ∧ Present n s1 ∧
        at_most_one host_if_state.scan_or_listen s1 := by
  induction ops with
  | nil => intro s hp hi _; exact ⟨s, rfl, hp, hi⟩
  | cons op ops ih =>
    intro s hp hi hops
    have hv : op.vif < n := hops op (List.mem_cons_self op ops)
    have hsome := hp op.vif hv
    unfold World.state at hsome
    cases hd : s.getDrv op.vif with
    | none => rw [hd] at hsome; cases hsome
    | some d =>
      obtain ⟨s1, hs1, hFG⟩ := step_frame env s op d hd
      have hp1 : Present n s1 := by
        intro j hj
        rcases hFG with hF | hG
        · exact hF.keeps_present j (hp j hj)
        · exact hG.gives_present j (hp j hj)
      have hi1 : at_most_one host_if_state.scan_or_listen s1 := by
        rcases hFG with hF | hG
        · exact hF.keeps_exclusion hi
        · exact hG.gives_exclusion
      obtain ⟨s2, hs2, hp2, hi2⟩ := ih s1 hp1 hi1
        (fun o ho => hops o (List.mem_cons_of_mem op ho))
      refine ⟨s2, ?_, hp2, hi2⟩
      unfold run
      rw [hs1]
      exact hs2

/-- Claim C1 fails as stated: on a device of two interfaces, both just set up, a join
request on interface 0 and then one on interface 1 (every round trip succeeding) leave
both interfaces in `HOST_IF_WAITING_CONN_RESP`, so two interfaces are in a state other
than `HOST_IF_IDLE` and `HOST_IF_CONNECTED`. -/
theorem exclusion_counterexample :
    (run env_ok (World.start 2)
        [Op.set_join_req 0 none none 0, Op.set_join_req 1 none none 0]).map
      (fun s1 => (s1.state 0, s1.state 1)) =
      some (some host_if_state.HOST_IF_WAITING_CONN_RESP,
        some host_if_state.HOST_IF_WAITING_CONN_RESP) ∧
    ∀ s1, run env_ok (World.start 2)
        [Op.set_join_req 0 none none 0, Op.set_join_req 1 none none 0] = some s1 →
      ¬ at_most_one host_if_state.exclusive s1 := by
  have h : (run env_ok (World.start 2)
        [Op.set_join_req 0 none none 0, Op.set_join_req 1 none none 0]).map
      (fun s1 => (s1.state 0, s1.state 1)) =
      some (some host_if_state.HOST_IF_WAITING_CONN_RESP,
        some host_if_state.HOST_IF_WAITING_CONN_RESP) := by decide
  refine ⟨h, ?_⟩
  intro s1 hs1 hinv
  rw [hs1] at h
  simp only [Option.map_some', Option.some.injEq, Prod.mk.injEq] at h
  have := hinv 0 1 _ _ h.1 h.2 (by decide) (by decide)
  cases this

/-- Claim C1, as the code has it: on a device of `n` interfaces, each just set up and in
`HOST_IF_IDLE`, every sequence of `wilc_scan`, `wilc_set_join_req`, `wilc_remain_on_channel`,
`wilc_disconnect`, expiry, event and timeout steps on those interfaces, with any outcomes
of the transport and the allocator, is defined and ends with at most one interface in
`HOST_IF_SCANNING` or `HOST_IF_P2P_LISTEN`. -/
theorem listen_exclusion (env : Env) (n : Nat) (ops : List Op)
    (hops : ∀ op ∈ ops, op.vif < n) :
    ∃ s1, run env (World.start n) ops = some s1 ∧
      at_most_one host_if_state.scan_or_listen s1 := by
  have hp : Present n (World.start n) := by
    intro j hj
    rw [state_start n j hj]
    rfl
  have hi : at_most_one host_if_state.scan_or_listen (World.start n) := by
    intro i j sti stj hi _ pi _
    rw [state_start_cases n i sti hi] at pi
    cases pi
  obtain ⟨s1, hs1, _, hi1⟩ := run_keeps_exclusion env n ops (World.start n) hp hi hops
  exact ⟨s1, hs1, hi1⟩

/-- Claim C1 at a sample input: a remain-on-channel request on interface 0, then a join
request on interface 1. -/
theorem listen_exclusion_witness :
    (∀ op ∈ [Op.remain_on_channel 0 8 100 6 (some 3) 4, Op.set_join_req 1 none none 0],
      op.vif < 2) ∧
    ∃ s1, run env_ok (World.start 2)
        [Op.remain_on_channel 0 8 100 6 (some 3) 4, Op.set_join_req 1 none none 0] = some s1 ∧
      at_most_one host_if_state.scan_or_listen s1 :=
  ⟨by decide, listen_exclusion env_ok 2
    [Op.remain_on_channel 0 8 100 6 (some 3) 4, Op.set_join_req 1 none none 0] (by decide)⟩

/-- Claim C3 at a sample input: MAC status connected and a refused association. -/
theorem handle_rcvd_gnrl_async_info_callback_witness :
    (sample_world host_if_state.HOST_IF_WAITING_CONN_RESP null_bssid).getDrv 0 =
      some (sample_drv host_if_state.HOST_IF_WAITING_CONN_RESP null_bssid) ∧
    ∃ s1, handle_rcvd_gnrl_async_info env_refused
        (sample_world host_if_state.HOST_IF_WAITING_CONN_RESP null_bssid) 0 1 = some s1 ∧
      s1.log.filter (is_conn_result 0) =
        [Ev.conn_result 0 1 conn_event.CONN_DISCONN_EVENT_CONN_RESP 1 2] :=
  ⟨rfl, handle_rcvd_gnrl_async_info_callback env_refused
    (sample_world host_if_state.HOST_IF_WAITING_CONN_RESP null_bssid) 0 1 1
    (sample_drv host_if_state.HOST_IF_WAITING_CONN_RESP null_bssid) rfl rfl rfl⟩

/-! ## MAC-status event during external authentication -/

/-- C13: when `handle_rcvd_gnrl_async_info` runs for an interface in `HOST_IF_EXTERNAL_AUTH`
with a connect-result callback registered, then for every MAC status the state becomes
`HOST_IF_WAITING_CONN_RESP`, one external-authentication request is recorded and nothing
else (so the connect-result callback is not called), `assoc_bssid` and the connect request
with its IE buffer are as before, and the outcome is the same whatever the request returns
(any other environment) and whatever the MAC status is. -/
theorem handle_rcvd_gnrl_async_info_external_auth (env : Env) (s : World) (vif status : Nat)
    (d : host_if_drv) (h : s.getDrv vif = some d)
    (hst : d.hif_state = host_if_state.HOST_IF_EXTERNAL_AUTH)
    (hcb : d.conn_info.conn_result ≠ none) :
    ∃ s1 d1, handle_rcvd_gnrl_async_info env s vif status = some s1 ∧
      s1.getDrv vif = some d1 ∧
      d1.hif_state = host_if_state.HOST_IF_WAITING_CONN_RESP ∧
      s1.log = s.log ++ [Ev.external_auth_request vif] ∧
      d1.assoc_bssid = d.assoc_bssid ∧
      d1.conn_info = d.conn_info ∧
      s1.cfg_calls = s.cfg_calls ∧
      ∀ (env2 : Env) (status2 : Nat),
        handle_rcvd_gnrl_async_info env2 s vif status2 = some s1 := by
  obtain ⟨fn, hfn⟩ := Option.ne_none_iff_exists'.mp hcb
  refine ⟨(s.emit (Ev.external_auth_request vif)).updDrv vif fun d =>
      { d with hif_state := host_if_state.HOST_IF_WAITING_CONN_RESP },
    { d with hif_state := host_if_state.HOST_IF_WAITING_CONN_RESP }, ?_, ?_, rfl, ?_, rfl, rfl,
    ?_, ?_⟩
  · simp [handle_rcvd_gnrl_async_info, h, hfn, hst]
  · simp [h]
  · simp
  · simp
  · intro env2 status2
    simp [handle_rcvd_gnrl_async_info, h, hfn, hst]

set_option maxRecDepth 100000 in
/-- C13 at a sample input: interface 0 in `HOST_IF_EXTERNAL_AUTH`, MAC status 1. -/
theorem handle_rcvd_gnrl_async_info_external_auth_witness :
    ∃ s1 d1, handle_rcvd_gnrl_async_info env_ok
        (sample_world host_if_state.HOST_IF_EXTERNAL_AUTH null_bssid) 0 1 = some s1 ∧
      s1.getDrv 0 = some d1 ∧
      d1.hif_state = host_if_state.HOST_IF_WAITING_CONN_RESP ∧
      s1.log = (sample_world host_if_state.HOST_IF_EXTERNAL_AUTH null_bssid).log
        ++ [Ev.external_auth_request 0] ∧
      d1.assoc_bssid = (sample_drv host_if_state.HOST_IF_EXTERNAL_AUTH null_bssid).assoc_bssid ∧
      d1.conn_info = (sample_drv host_if_state.HOST_IF_EXTERNAL_AUTH null_bssid).conn_info ∧
      s1.cfg_calls = (sample_world host_if_state.HOST_IF_EXTERNAL_AUTH null_bssid).cfg_calls ∧
      ∀ (env2 : Env) (status2 : Nat),
        handle_rcvd_gnrl_async_info env2
          (sample_world host_if_state.HOST_IF_EXTERNAL_AUTH null_bssid) 0 status2 = some s1 :=
  handle_rcvd_gnrl_async_info_external_auth env_ok
    (sample_world host_if_state.HOST_IF_EXTERNAL_AUTH null_bssid) 0 1
    (sample_drv host_if_state.HOST_IF_EXTERNAL_AUTH null_bssid) (by decide) (by decide)
    (by decide)

/-! ## Scan-complete event -/

/-- C14: `handle_scan_complete` for an interface with a driver context sets the state to
`HOST_IF_IDLE` when `assoc_bssid` is all-zero and to `HOST_IF_CONNECTED` otherwise; a
pending scan-result callback is called once, with `SCAN_EVENT_DONE` and the registered
argument, and cleared; nothing else is recorded, so no WID is dispatched; and
`handle_scan_done` returns 0 for `SCAN_EVENT_DONE`. -/
theorem handle_scan_complete_spec (env : Env) (s : World) (vif : Nat) (d : host_if_drv)
    (h : s.getDrv vif = some d) :
    ∃ s1 d1, handle_scan_complete env s vif = some s1 ∧
      s1.getDrv vif = some d1 ∧
      d1.hif_state = (if d.assoc_bssid = null_bssid then host_if_state.HOST_IF_IDLE
        else host_if_state.HOST_IF_CONNECTED) ∧
      d1.usr_scan_req.scan_result = none ∧
      s1.log = s.log ++ (match d.usr_scan_req.scan_result with
        | some fn => [Ev.scan_result vif fn scan_event.SCAN_EVENT_DONE d.usr_scan_req.arg]
        | none => []) ∧
      s1.cfg_calls = s.cfg_calls ∧
      ∀ s0 : World, (handle_scan_done env s0 vif scan_event.SCAN_EVENT_DONE).1 = 0 := by
  have hz : ∀ s0 : World, (handle_scan_done env s0 vif scan_event.SCAN_EVENT_DONE).1 = 0 := by
    intro s0
    unfold handle_scan_done
    cases h0 : s0.getDrv vif with
    | none => rfl
    | some d0 => cases hs : d0.usr_scan_req.scan_result <;> simp [hs]
  have e : handle_scan_complete env s vif = some (handle_scan_done env
      (s.updDrv vif fun d => { d with scan_timer := none }) vif
      scan_event.SCAN_EVENT_DONE).2 := by
    simp only [handle_scan_complete, h]
  rw [e]
  cases hs : d.usr_scan_req.scan_result <;> simp [handle_scan_done, h, hs] <;>
    exact fun s0 => hz s0

set_option maxRecDepth 100000 in
/-- C14 at a sample input: interface 0 scanning while associated. -/
theorem handle_scan_complete_spec_witness :
    ∃ s1 d1, handle_scan_complete env_ok
        (sample_world host_if_state.HOST_IF_SCANNING [2, 0, 0, 0, 0, 1]) 0 = some s1 ∧
      s1.getDrv 0 = some d1 ∧
      d1.hif_state = (if (sample_drv host_if_state.HOST_IF_SCANNING [2, 0, 0, 0, 0, 1]).assoc_bssid
          = null_bssid then host_if_state.HOST_IF_IDLE
        else host_if_state.HOST_IF_CONNECTED) ∧
      d1.usr_scan_req.scan_result = none ∧
      s1.log = (sample_world host_if_state.HOST_IF_SCANNING [2, 0, 0, 0, 0, 1]).log ++
        (match (sample_drv host_if_state.HOST_IF_SCANNING
            [2, 0, 0, 0, 0, 1]).usr_scan_req.scan_result with
        | some fn => [Ev.scan_result 0 fn scan_event.SCAN_EVENT_DONE
            (sample_drv host_if_state.HOST_IF_SCANNING [2, 0, 0, 0, 0, 1]).usr_scan_req.arg]
        | none => []) ∧
      s1.cfg_calls = (sample_world host_if_state.HOST_IF_SCANNING [2, 0, 0, 0, 0, 1]).cfg_calls ∧
      ∀ s0 : World, (handle_scan_done env_ok s0 0 scan_event.SCAN_EVENT_DONE).1 = 0 :=
  handle_scan_complete_spec env_ok
    (sample_world host_if_state.HOST_IF_SCANNING [2, 0, 0, 0, 0, 1]) 0
    (sample_drv host_if_state.HOST_IF_SCANNING [2, 0, 0, 0, 0, 1]) (by decide)

/-! ## Accepted scan requests -/

set_option maxRecDepth 100000 in
/-- C11: a scan request on interface 0 of an idle device that the transport accepts returns
0, registers the scan-result callback and arms the scan timer, and leaves the interface in
`HOST_IF_IDLE`, not in `HOST_IF_SCANNING`: `wilc_scan` has no store of the state. With
that scan in flight, a scan request on interface 1 is accepted as well. -/
theorem wilc_scan_accepted_state :
    (World.start 2).state 0 = some host_if_state.HOST_IF_IDLE ∧
    (wilc_scan env_ok (World.start 2) 0 0 1 (some [1, 6, 11]) 3 (some 7) 9
      ⟨[], [], 0, 0⟩).map (fun r => (r.result, (r.world.getDrv 0).map fun d =>
        (d.hif_state, d.usr_scan_req.scan_result, d.scan_timer))) =
      some (0, some (host_if_state.HOST_IF_IDLE, some 7, some 5000)) ∧
    (wilc_scan env_ok (World.start 2) 0 0 1 (some [1, 6, 11]) 3 (some 7) 9
      ⟨[], [], 0, 0⟩).bind (fun r => (wilc_scan env_ok r.world 1 0 1 (some [1, 6, 11]) 3
        (some 8) 9 ⟨[], [], 0, 0⟩).map fun r1 => (r1.result,
          (r1.world.getDrv 0).map (fun d => d.usr_scan_req.scan_result),
          (r1.world.getDrv 1).map (fun d => d.usr_scan_req.scan_result))) =
      some (0, some (some 7), some (some 8)) :=
  ⟨by decide, by decide, by decide⟩

/-- What `wilc_scan` does, as the code stands, with a request it accepts (no interface with
a driver context is outside `HOST_IF_IDLE` and `HOST_IF_CONNECTED`, the `connecting` flag
of the requesting interface is clear, and the dispatch succeeds): it returns 0 and stores
no state, so every interface is in the state it was in; the request is recorded by the
registered scan-result callback with its argument and by the armed scan timer. -/
theorem wilc_scan_accepted (env : Env) (s : World) (vif scan_source scan_type : Nat)
    (ch_freq_list : Option (List Nat)) (ch_list_len : Nat) (scan_result_fn : Option Nat)
    (user_arg : Nat) (request : cfg80211_scan_request) (v : wilc_vif) (d : host_if_drv)
    (hv : s.getVif vif = some v) (hd : v.hif_drv = some d)
    (hfree : ∀ j dj, s.getDrv j = some dj →
      dj.hif_state = host_if_state.HOST_IF_IDLE ∨
      dj.hif_state = host_if_state.HOST_IF_CONNECTED)
    (hc : v.connecting = false)
    (hok : ∀ wids,
      (env.send_config_pkt s.cfg_calls ⟨vif, cfg_mode.WILC_SET_CFG, wids⟩).result = 0) :
    ∃ r d1, wilc_scan env s vif scan_source scan_type ch_freq_list ch_list_len scan_result_fn
        user_arg request = some r ∧
      r.result = 0 ∧
      (∀ j, r.world.state j = s.state j) ∧
      r.world.getDrv vif = some d1 ∧
      d1.hif_state = d.hif_state ∧
      (d1.hif_state = host_if_state.HOST_IF_IDLE ∨
        d1.hif_state = host_if_state.HOST_IF_CONNECTED) ∧
      d1.usr_scan_req.scan_result = scan_result_fn ∧
      d1.usr_scan_req.arg = user_arg ∧
      d1.scan_timer_vif = some vif ∧
      d1.scan_timer ≠ none := by
  have h : s.getDrv vif = some d := (getDrv_eq_some_iff s vif d).mpr ⟨v, hv, hd⟩
  have hb : scan_busy s.wilc = false := by
    cases e : scan_busy s.wilc with
    | false => rfl
    | true =>
      obtain ⟨j, dj, hj, h1, h2⟩ := (scan_busy_iff s).mp e
      rcases hfree j dj hj with h3 | h3
      · exact absurd h3 h1
      · exact absurd h3 h2
  have hst := hfree vif d h
  unfold wilc_scan
  simp only [hv, h, hb, hc, Bool.false_eq_true, if_false]
  by_cases hn : request.ssids = []
  · simp [hn, hok, h]
    refine ⟨fun j => ?_, hst⟩
    simp only [state_updDrv, state_send, World.state, getDrv_updDrv]
    by_cases hj : vif = j <;> simp [hj, Function.comp_def, getDrv_updDrv]
  · simp [hn, hok, h]
    refine ⟨fun j => ?_, hst⟩
    simp only [state_updDrv, state_send, state_kmalloc, World.state, getDrv_updDrv, getDrv_kmalloc]
    by_cases hj : vif = j <;> simp [hj, Function.comp_def, getDrv_updDrv]

/-- The accepted scan request at a sample input: a scan request on interface 0 of an idle
device of two interfaces. -/
theorem wilc_scan_accepted_witness :
    ∃ r d1, wilc_scan env_ok (World.start 2) 0 0 1 (some [1, 6, 11]) 3 (some 7) 9
        ⟨[], [], 0, 0⟩ = some r ∧
      r.result = 0 ∧
      (∀ j, r.world.state j = (World.start 2).state j) ∧
      r.world.getDrv 0 = some d1 ∧
      d1.hif_state = hif_drv_init.hif_state ∧
      (d1.hif_state = host_if_state.HOST_IF_IDLE ∨
        d1.hif_state = host_if_state.HOST_IF_CONNECTED) ∧
      d1.usr_scan_req.scan_result = some 7 ∧
      d1.usr_scan_req.arg = 9 ∧
      d1.scan_timer_vif = some 0 ∧
      d1.scan_timer ≠ none :=
  wilc_scan_accepted env_ok (World.start 2) 0 0 1 (some [1, 6, 11]) 3 (some 7) 9
    ⟨[], [], 0, 0⟩ ⟨0, false, some hif_drv_init⟩ hif_drv_init rfl rfl
    (fun j dj hj => Or.inl (state_start_cases 2 j dj.hif_state (by simp [World.state, hj])))
    rfl (fun _ => rfl)

/-! ## Scan-timer expiry -/

/-- What `handle_scan_timer` (scan-timer expiry, `handle_scan_done` with
`SCAN_EVENT_ABORTED`) does: it dispatches one SET of `WID_ABORT_RUNNING_SCAN` with value 1,
calls a pending scan-result callback once with `SCAN_EVENT_ABORTED` and the registered
argument, and clears the callback; the branch stores no state and does not touch
`assoc_bssid`. -/
theorem handle_scan_timer_spec (env : Env) (s : World) (vif : Nat) (d : host_if_drv)
    (h : s.getDrv vif = some d) :
    ∃ d1, (handle_scan_timer env s vif).getDrv vif = some d1 ∧
      d1.hif_state = d.hif_state ∧
      d1.assoc_bssid = d.assoc_bssid ∧
      d1.usr_scan_req.scan_result = none ∧
      (∀ j, (handle_scan_timer env s vif).state j = s.state j) ∧
      (handle_scan_timer env s vif).log = s.log ++
        Ev.send_config_pkt vif cfg_mode.WILC_SET_CFG
          [⟨wid_id.WID_ABORT_RUNNING_SCAN, wid_type.WID_CHAR, 1, [1]⟩] ::
        (match d.usr_scan_req.scan_result with
          | some fn => [Ev.scan_result vif fn scan_event.SCAN_EVENT_ABORTED d.usr_scan_req.arg]
          | none => []) := by
  unfold handle_scan_timer handle_scan_done
  cases hs : d.usr_scan_req.scan_result with
  | none => simp [h, hs]
  | some fn =>
    simp [h, hs]
    intro j
    by_cases hj : vif = j <;> simp [hj, World.state, getDrv_updDrv, Function.comp_def]

/-! ## The SSID attribute of a scan request -/

theorem ssid_valuesize_acc (ssids : List cfg80211_ssid) (acc : Nat)
    (hsum : acc + (ssids.map fun x => x.ssid_len + 1).sum ≤ 255) :
    ssids.foldl (fun valuesize x => (valuesize + (x.ssid_len + 1)) % 256) acc =
      acc + (ssids.map fun x => x.ssid_len + 1).sum := by
  induction ssids generalizing acc with
  | nil => simp
  | cons x l ih =>
    simp only [List.foldl_cons, List.map_cons, List.sum_cons] at hsum ⊢
    rw [Nat.mod_eq_of_lt (by omega), ih _ (by omega)]
    omega

theorem ssid_valuesize_eq (ssids : List cfg80211_ssid)
    (hsum : (ssids.map fun x => x.ssid_len + 1).sum ≤ 255) :
    ssid_valuesize ssids = (ssids.map fun x => x.ssid_len + 1).sum := by
  unfold ssid_valuesize
  rw [ssid_valuesize_acc ssids 0 (by omega)]
  omega

theorem ssid_len_le_sum (ssids : List cfg80211_ssid) (x : cfg80211_ssid) (hx : x ∈ ssids) :
    x.ssid_len + 1 ≤ (ssids.map fun x => x.ssid_len + 1).sum :=
  List.single_le_sum (by simp) _ (List.mem_map_of_mem (fun x => x.ssid_len + 1) hx)

theorem ssid_count_le_sum (ssids : List cfg80211_ssid) :
    ssids.length ≤ (ssids.map fun x => x.ssid_len + 1).sum := by
  induction ssids with
  | nil => simp
  | cons x l ih => simp only [List.length_cons, List.map_cons, List.sum_cons]; omega

theorem ssid_probe_bytes_eq (ssids : List cfg80211_ssid)
    (hsum : (ssids.map fun x => x.ssid_len + 1).sum ≤ 255) :
    ssid_probe_bytes ssids =
      ssids.length :: (ssids.map fun x => x.ssid_len :: x.ssid.take x.ssid_len).flatten := by
  unfold ssid_probe_bytes
  have hc := ssid_count_le_sum ssids
  rw [Nat.mod_eq_of_lt (by omega)]
  congr 2
  apply List.map_congr_left
  intro x hx
  have := ssid_len_le_sum ssids x hx
  rw [Nat.mod_eq_of_lt (by omega)]

theorem ssid_probe_bytes_length (ssids : List cfg80211_ssid)
    (hwf : ∀ x ∈ ssids, x.ssid_len ≤ x.ssid.length) :
    (ssids.length :: (ssids.map fun x => x.ssid_len :: x.ssid.take x.ssid_len).flatten).length =
      1 + (ssids.map fun x => x.ssid_len + 1).sum := by
  induction ssids with
  | nil => simp
  | cons x l ih =>
    have hx := hwf x (List.mem_cons_self x l)
    have := ih (fun y hy => hwf y (List.mem_cons_of_mem x hy))
    simp only [List.length_cons, List.map_cons, List.flatten_cons, List.length_append,
      List.length_take, List.sum_cons] at this ⊢
    rw [Nat.min_eq_left hx]
    omega

/-- C17: for every scan request with at least one SSID whose lengths satisfy
`Σ (len_i + 1) ≤ 255`, a call of `wilc_scan` that is not rejected and gets its buffer
dispatches, as the first WID of its one round trip, `WID_SSID_PROBE_REQ` of size
`1 + Σ (len_i + 1)` whose value is the byte `n` (the number of SSIDs) followed, for each
SSID in request order, by the byte `len_i` and the first `len_i` bytes of the SSID; when
every SSID array holds at least `len_i` bytes the value is exactly `size` bytes long. -/
theorem wilc_scan_ssid_probe (env : Env) (s : World) (vif scan_source scan_type : Nat)
    (ch_freq_list : Option (List Nat)) (ch_list_len : Nat) (scan_result_fn : Option Nat)
    (user_arg : Nat) (request : cfg80211_scan_request) (v : wilc_vif) (d : host_if_drv)
    (hv : s.getVif vif = some v) (hd : v.hif_drv = some d)
    (hfree : ∀ j dj, s.getDrv j = some dj →
      dj.hif_state = host_if_state.HOST_IF_IDLE ∨
      dj.hif_state = host_if_state.HOST_IF_CONNECTED)
    (hc : v.connecting = false)
    (halloc : env.kmalloc s.allocs = true)
    (hn : 1 ≤ request.ssids.length)
    (hsum : (request.ssids.map fun x => x.ssid_len + 1).sum ≤ 255) :
    ∃ r w rest, wilc_scan env s vif scan_source scan_type ch_freq_list ch_list_len
        scan_result_fn user_arg request = some r ∧
      r.world.log = s.log ++ [Ev.send_config_pkt vif cfg_mode.WILC_SET_CFG (w :: rest),
        Ev.kfree vif heap_obj.search_ssid_vals] ∧
      w.id = wid_id.WID_SSID_PROBE_REQ ∧
      w.type = wid_type.WID_STR ∧
      w.size = 1 + (request.ssids.map fun x => x.ssid_len + 1).sum ∧
      w.val = request.ssids.length ::
        (request.ssids.map fun x => x.ssid_len :: x.ssid.take x.ssid_len).flatten ∧
      ((∀ x ∈ request.ssids, x.ssid_len ≤ x.ssid.length) → w.val.length = w.size) := by
  have h : s.getDrv vif = some d := (getDrv_eq_some_iff s vif d).mpr ⟨v, hv, hd⟩
  have hb : scan_busy s.wilc = false := by
    cases e : scan_busy s.wilc with
    | false => rfl
    | true =>
      obtain ⟨j, dj, hj, h1, h2⟩ := (scan_busy_iff s).mp e
      rcases hfree j dj hj with h3 | h3
      · exact absurd h3 h1
      · exact absurd h3 h2
  have hne : request.ssids ≠ [] := by
    intro e
    rw [e] at hn
    simp at hn
  unfold wilc_scan
  simp only [hv, h, hb, hc, Bool.false_eq_true, if_false]
  simp only [ne_eq, List.length_eq_zero, hne, not_false_eq_true, if_true, ok_kmalloc,
    allocs_updDrv, halloc]
  refine ⟨_, (⟨wid_id.WID_SSID_PROBE_REQ, wid_type.WID_STR,
      ssid_valuesize request.ssids + 1, ssid_probe_bytes request.ssids⟩ : wid),
    ([⟨wid_id.WID_INFO_ELEMENT_PROBE, wid_type.WID_BIN_DATA, request.ie_len, request.ie⟩,
      ⟨wid_id.WID_SCAN_TYPE, wid_type.WID_CHAR, 1, [scan_type]⟩] ++
     (if (env.scan_duration_supported && decide (scan_type = env.h.WILC_FW_PASSIVE_SCAN) &&
          decide (request.duration ≠ 0)) = true then
        [⟨wid_id.WID_PASSIVE_SCAN_TIME, wid_type.WID_SHORT, 2,
          [request.duration % 256, request.duration / 256 % 256]⟩]
      else []) ++
     [⟨wid_id.WID_SCAN_CHANNEL_LIST, wid_type.WID_BIN_DATA, ch_list_len,
        (lower_channels ch_freq_list ch_list_len).getD []⟩,
      ⟨wid_id.WID_START_SCAN_REQ, wid_type.WID_CHAR, 1, [scan_source]⟩] : List wid),
    rfl, ?_, rfl, rfl, ?_, ssid_probe_bytes_eq request.ssids hsum, ?_⟩
  · simp only [log_kfree, Option.isSome_some, if_true]
    split_ifs <;> simp
  · simp only [ssid_valuesize_eq request.ssids hsum]
    omega
  · intro hwf
    simp only [ssid_probe_bytes_eq request.ssids hsum, ssid_valuesize_eq request.ssids hsum,
      ssid_probe_bytes_length request.ssids hwf]
    omega

set_option maxRecDepth 100000 in
/-- C17 at the sample request: two SSIDs of lengths 4 and 8 give the 15 bytes `0x02`,
`0x04` and 4 bytes, `0x08` and 8 bytes, and size 15. -/
theorem wilc_scan_ssid_probe_witness :
    ∃ r w rest, wilc_scan env_ok (World.start 2) 0 0 1 (some [1, 6, 11]) 3 (some 7) 9
        sample_scan_request = some r ∧
      r.world.log = (World.start 2).log ++
        [Ev.send_config_pkt 0 cfg_mode.WILC_SET_CFG (w :: rest),
         Ev.kfree 0 heap_obj.search_ssid_vals] ∧
      w.id = wid_id.WID_SSID_PROBE_REQ ∧
      w.type = wid_type.WID_STR ∧
      w.size = 15 ∧
      w.val = [2, 4, 119, 105, 108, 99, 8, 101, 109, 98, 101, 100, 100, 101, 100] ∧
      ((∀ x ∈ sample_scan_request.ssids, x.ssid_len ≤ x.ssid.length) → w.val.length = w.size) :=
  wilc_scan_ssid_probe env_ok (World.start 2) 0 0 1 (some [1, 6, 11]) 3 (some 7) 9
    sample_scan_request ⟨0, false, some hif_drv_init⟩ hif_drv_init rfl rfl
    (fun j dj hj => Or.inl (state_start_cases 2 j dj.hif_state (by simp [World.state, hj])))
    rfl rfl (by decide) (by decide)

/-! ## Join request -/

theorem some_vif_scanning_iff (s : World) :
    some_vif_scanning s.wilc = true ↔
      ∃ j dj, s.getDrv j = some dj ∧ dj.hif_state = host_if_state.HOST_IF_SCANNING := by
  unfold some_vif_scanning
  rw [List.any_eq_true]
  constructor
  · rintro ⟨v, hmem, hv⟩
    obtain ⟨j, hj⟩ := List.mem_iff_getElem?.mp hmem
    cases hd : v.hif_drv with
    | none => simp [hd] at hv
    | some dj =>
      simp only [hd, decide_eq_true_eq] at hv
      exact ⟨j, dj, (getDrv_eq_some_iff s j dj).mpr ⟨v, hj, hd⟩, hv⟩
  · rintro ⟨j, dj, hj, hne⟩
    obtain ⟨v, hv, hd⟩ := (getDrv_eq_some_iff s j dj).mp hj
    exact ⟨v, List.mem_iff_getElem?.mpr ⟨j, hv⟩, by simp [hd, hne]⟩

theorem some_vif_scanning_updDrv (s : World) (vif : Nat) (f : host_if_drv → host_if_drv)
    (hf : ∀ d, (f d).hif_state = d.hif_state) :
    some_vif_scanning (s.updDrv vif f).wilc = some_vif_scanning s.wilc := by
  rw [Bool.eq_iff_iff, some_vif_scanning_iff, some_vif_scanning_iff]
  constructor
  · rintro ⟨j, dj, hj, hst⟩
    rw [getDrv_updDrv] at hj
    by_cases e : vif = j
    · rw [if_pos e] at hj
      cases hd : s.getDrv j with
      | none => simp [hd] at hj
      | some d0 =>
        simp only [hd, Option.map_some', Option.some.injEq] at hj
        exact ⟨j, d0, hd, by rw [← hf d0, hj]; exact hst⟩
    · rw [if_neg e] at hj
      exact ⟨j, dj, hj, hst⟩
  · rintro ⟨j, dj, hj, hst⟩
    by_cases e : vif = j
    · exact ⟨j, f dj, by simp [getDrv_updDrv, e, hj], by rw [hf dj]; exact hst⟩
    · exact ⟨j, dj, by simp [getDrv_updDrv, e, hj], hst⟩

theorem wilc_send_connect_wid_spec (env : Env) (s0 : World) (vif : Nat) (d0 : host_if_drv)
    (h0 : s0.getDrv vif = some d0) :
    ∃ wids result s2, wilc_send_connect_wid env s0 vif = some (result, s2) ∧
      ∃ d2, s2.getDrv vif = some d2 ∧
      d2.connect_timer = d0.connect_timer ∧
      d2.connect_timer_vif = d0.connect_timer_vif ∧
      (if some_vif_scanning s0.wilc = true then
        result = -EBUSY ∧ d2.hif_state = d0.hif_state ∧ s2.cfg_calls = s0.cfg_calls
      else if (env.send_config_pkt s0.cfg_calls
          ⟨vif, cfg_mode.WILC_SET_CFG, wids⟩).result ≠ 0 then
        result = (env.send_config_pkt s0.cfg_calls ⟨vif, cfg_mode.WILC_SET_CFG, wids⟩).result ∧
          d2.hif_state = d0.hif_state
      else
        result = 0 ∧
          d2.hif_state = (if d0.conn_info.auth_type = env.h.WILC_FW_AUTH_SAE then
            host_if_state.HOST_IF_EXTERNAL_AUTH
          else host_if_state.HOST_IF_WAITING_CONN_RESP)) := by
  unfold wilc_send_connect_wid
  simp only [h0]
  by_cases hsc : some_vif_scanning s0.wilc = true
  · simp only [if_pos hsc]
    exact ⟨[], _, _, rfl, by simp [h0]⟩
  · simp only [if_neg hsc]
    refine ⟨
      [⟨wid_id.WID_SET_MFP, wid_type.WID_CHAR, 1, [d0.conn_info.mfp_type]⟩,
       ⟨wid_id.WID_INFO_ELEMENT_ASSOCIATE, wid_type.WID_BIN_DATA, d0.conn_info.req_ies_len,
         d0.conn_info.req_ies.getD []⟩,
       ⟨wid_id.WID_11I_MODE, wid_type.WID_CHAR, 1, [d0.conn_info.security]⟩,
       ⟨wid_id.WID_AUTH_TYPE, wid_type.WID_CHAR, 1, [d0.conn_info.auth_type]⟩,
       ⟨wid_id.WID_JOIN_REQ_EXTENDED, wid_type.WID_STR, env.h.sizeof_wilc_join_bss_param,
         d0.conn_info.param⟩], ?_⟩
    simp only [reply_send]
    generalize env.send_config_pkt s0.cfg_calls _ = r
    by_cases hr : r.result ≠ 0
    · simp only [if_pos hr]
      exact ⟨_, _, rfl, by simp [h0]⟩
    · simp only [if_neg hr]
      exact ⟨_, _, rfl, by simp [h0]⟩

theorem join_tail_spec (env : Env) (s0 : World) (vif : Nat) (d0 : host_if_drv)
    (h0 : s0.getDrv vif = some d0) :
    ∃ wids result s1, (match wilc_send_connect_wid env s0 vif with
        | none => none
        | some (result, s2) =>
          if result ≠ 0 then
            some (result, kfree s2 vif heap_obj.req_ies
              ((s2.getDrv vif).bind fun d => d.conn_info.req_ies))
          else
            some (0, s2.updDrv vif fun d =>
              { d with connect_timer_vif := some vif,
                       connect_timer := some WILC_HIF_CONNECT_TIMEOUT_MS })) =
          some (result, s1) ∧
      ∃ d1, s1.getDrv vif = some d1 ∧
      (if some_vif_scanning s0.wilc = true then
        result = -EBUSY ∧ result ≠ 0 ∧ d1.hif_state = d0.hif_state ∧
          d1.connect_timer = d0.connect_timer ∧ d1.connect_timer_vif = d0.connect_timer_vif ∧
          s1.cfg_calls = s0.cfg_calls
      else if (env.send_config_pkt s0.cfg_calls
          ⟨vif, cfg_mode.WILC_SET_CFG, wids⟩).result ≠ 0 then
        result = (env.send_config_pkt s0.cfg_calls ⟨vif, cfg_mode.WILC_SET_CFG, wids⟩).result ∧
          result ≠ 0 ∧ d1.hif_state = d0.hif_state ∧
          d1.connect_timer = d0.connect_timer ∧ d1.connect_timer_vif = d0.connect_timer_vif
      else
        result = 0 ∧
          d1.hif_state = (if d0.conn_info.auth_type = env.h.WILC_FW_AUTH_SAE then
            host_if_state.HOST_IF_EXTERNAL_AUTH
          else host_if_state.HOST_IF_WAITING_CONN_RESP) ∧
          d1.connect_timer = some 9500 ∧ d1.connect_timer_vif = some vif) := by
  obtain ⟨wids, result, s2, e, d2, hd2, ht, htv, hcase⟩ :=
    wilc_send_connect_wid_spec env s0 vif d0 h0
  rw [e]
  refine ⟨wids, ?_⟩
  by_cases hsc : some_vif_scanning s0.wilc = true
  · simp only [if_pos hsc] at hcase ⊢
    obtain ⟨hr, hst, hcc⟩ := hcase
    have hne : result ≠ 0 := by rw [hr]; decide
    simp only [if_pos hne]
    exact ⟨_, _, rfl, d2, by simp [hd2], hr, hne, hst, ht, htv, by simp [hcc]⟩
  · simp only [if_neg hsc] at hcase ⊢
    by_cases hrep : (env.send_config_pkt s0.cfg_calls
        ⟨vif, cfg_mode.WILC_SET_CFG, wids⟩).result ≠ 0
    · simp only [if_pos hrep] at hcase ⊢
      obtain ⟨hr, hst⟩ := hcase
      have hne : result ≠ 0 := by rw [hr]; exact hrep
      simp only [if_pos hne]
      exact ⟨_, _, rfl, d2, by simp [hd2], hr, hne, hst, ht, htv⟩
    · simp only [if_neg hrep] at hcase ⊢
      obtain ⟨hr, hst⟩ := hcase
      have hz : ¬ result ≠ 0 := by simp [hr]
      simp only [if_neg hz]
      refine ⟨_, _, rfl, ?_⟩
      simp [hd2, hst, WILC_HIF_CONNECT_TIMEOUT_MS]

theorem join_tail_from (env : Env) (s s0 : World) (vif : Nat) (d d0 : host_if_drv)
    (h0 : s0.getDrv vif = some d0)
    (hsc : some_vif_scanning s0.wilc = some_vif_scanning s.wilc)
    (hcc : s0.cfg_calls = s.cfg_calls) (hst : d0.hif_state = d.hif_state)
    (ht : d0.connect_timer = d.connect_timer)
    (htv : d0.connect_timer_vif = d.connect_timer_vif)
    (ha : d0.conn_info.auth_type = d.conn_info.auth_type) :
    ∃ wids result s1, (match wilc_send_connect_wid env s0 vif with
        | none => none
        | some (result, s2) =>
          if result ≠ 0 then
            some (result, kfree s2 vif heap_obj.req_ies
              ((s2.getDrv vif).bind fun d => d.conn_info.req_ies))
          else
            some (0, s2.updDrv vif fun d =>
              { d with connect_timer_vif := some vif,
                       connect_timer := some WILC_HIF_CONNECT_TIMEOUT_MS })) =
          some (result, s1) ∧
      ∃ d1, s1.getDrv vif = some d1 ∧
      (if some_vif_scanning s.wilc = true then
        result = -EBUSY ∧ result ≠ 0 ∧ d1.hif_state = d.hif_state ∧
          d1.connect_timer = d.connect_timer ∧ d1.connect_timer_vif = d.connect_timer_vif ∧
          s1.cfg_calls = s.cfg_calls
      else if (env.send_config_pkt s.cfg_calls
          ⟨vif, cfg_mode.WILC_SET_CFG, wids⟩).result ≠ 0 then
        result = (env.send_config_pkt s.cfg_calls ⟨vif, cfg_mode.WILC_SET_CFG, wids⟩).result ∧
          result ≠ 0 ∧ d1.hif_state = d.hif_state ∧
          d1.connect_timer = d.connect_timer ∧ d1.connect_timer_vif = d.connect_timer_vif
      else
        result = 0 ∧
          d1.hif_state = (if d.conn_info.auth_type = env.h.WILC_FW_AUTH_SAE then
            host_if_state.HOST_IF_EXTERNAL_AUTH
          else host_if_state.HOST_IF_WAITING_CONN_RESP) ∧
          d1.connect_timer = some 9500 ∧ d1.connect_timer_vif = some vif) := by
  have T := join_tail_spec env s0 vif d0 h0
  rw [hsc, hcc, hst, ht, htv, ha] at T
  exact T

/-- C12: `wilc_set_join_req` on an interface with a driver context, when the copy of the
IEs (if any are passed) could be allocated. If some interface is scanning the request is
rejected with `-EBUSY` and nothing is dispatched; otherwise one round trip is made, with
WIDs `wids`. On rejection and on a failed dispatch the result is non-zero, the state is
unchanged and the connect timer is as it was (not armed). On success the result is 0, the
state is `HOST_IF_EXTERNAL_AUTH` when `conn_info.auth_type` is `WILC_FW_AUTH_SAE` and
`HOST_IF_WAITING_CONN_RESP` otherwise, and the connect timer is armed for 9500 ms. -/
theorem wilc_set_join_req_spec (env : Env) (s : World) (vif : Nat) (bssid : Option (List Nat))
    (ies : Option (List Nat)) (ies_len : Nat) (d : host_if_drv)
    (h : s.getDrv vif = some d)
    (hcopy : ies = none ∨ env.kmalloc s.allocs = true) :
    ∃ wids result s1, wilc_set_join_req env s vif bssid ies ies_len = some (result, s1) ∧
      ∃ d1, s1.getDrv vif = some d1 ∧
      (if some_vif_scanning s.wilc = true then
        result = -EBUSY ∧ result ≠ 0 ∧ d1.hif_state = d.hif_state ∧
          d1.connect_timer = d.connect_timer ∧ d1.connect_timer_vif = d.connect_timer_vif ∧
          s1.cfg_calls = s.cfg_calls
      else if (env.send_config_pkt s.cfg_calls
          ⟨vif, cfg_mode.WILC_SET_CFG, wids⟩).result ≠ 0 then
        result = (env.send_config_pkt s.cfg_calls ⟨vif, cfg_mode.WILC_SET_CFG, wids⟩).result ∧
          result ≠ 0 ∧ d1.hif_state = d.hif_state ∧
          d1.connect_timer = d.connect_timer ∧ d1.connect_timer_vif = d.connect_timer_vif
      else
        result = 0 ∧
          d1.hif_state = (if d.conn_info.auth_type = env.h.WILC_FW_AUTH_SAE then
            host_if_state.HOST_IF_EXTERNAL_AUTH
          else host_if_state.HOST_IF_WAITING_CONN_RESP) ∧
          d1.connect_timer = some 9500 ∧ d1.connect_timer_vif = some vif) := by
  have hk : ∀ i, ies = some i → env.kmalloc s.allocs = true := by
    intro i hi
    rcases hcopy with e | e
    · rw [hi] at e; cases e
    · exact e
  unfold wilc_set_join_req
  simp only [h]
  cases bssid with
  | none =>
    cases ies with
    | none =>
      simp only [Bool.true_eq_false, if_false]
      exact join_tail_spec env s vif d h
    | some i =>
      simp only [ok_kmalloc, hk i rfl, Bool.true_eq_false, if_false, if_true]
      exact join_tail_from env s _ vif d
        { d with conn_info := { d.conn_info with
            req_ies_len := ies_len, req_ies := some (i.take ies_len) } } (by simp [h])
        (some_vif_scanning_updDrv _ _ _ (by intro _; rfl)) rfl rfl rfl rfl rfl
  | some b =>
    cases ies with
    | none =>
      simp only [Bool.true_eq_false, if_false]
      exact join_tail_from env s _ vif d
        { d with conn_info := { d.conn_info with bssid := b } } (by simp [h])
        (some_vif_scanning_updDrv _ _ _ (by intro _; rfl)) rfl rfl rfl rfl rfl
    | some i =>
      simp only [ok_kmalloc, allocs_updDrv, hk i rfl, Bool.true_eq_false, if_false, if_true]
      exact join_tail_from env s _ vif d
        { d with conn_info :=
            { d.conn_info with bssid := b, req_ies_len := ies_len,
                               req_ies := some (i.take ies_len) } } (by simp [h])
        ((some_vif_scanning_updDrv _ _ _ (by intro _; rfl)).trans
          (some_vif_scanning_updDrv _ _ _ (by intro _; rfl))) rfl rfl rfl rfl rfl

set_option maxRecDepth 100000 in
/-- C12 at a sample input: a join request with two IE bytes on interface 0, idle. -/
theorem wilc_set_join_req_spec_witness :
    ∃ wids result s1, wilc_set_join_req env_ok
        (sample_world host_if_state.HOST_IF_IDLE null_bssid) 0 (some [2, 0, 0, 0, 0, 1])
        (some [48, 0]) 2 = some (result, s1) ∧
      ∃ d1, s1.getDrv 0 = some d1 ∧
      (if some_vif_scanning (sample_world host_if_state.HOST_IF_IDLE null_bssid).wilc = true then
        result = -EBUSY ∧ result ≠ 0 ∧
          d1.hif_state = (sample_drv host_if_state.HOST_IF_IDLE null_bssid).hif_state ∧
          d1.connect_timer = (sample_drv host_if_state.HOST_IF_IDLE null_bssid).connect_timer ∧
          d1.connect_timer_vif =
            (sample_drv host_if_state.HOST_IF_IDLE null_bssid).connect_timer_vif ∧
          s1.cfg_calls = (sample_world host_if_state.HOST_IF_IDLE null_bssid).cfg_calls
      else if (env_ok.send_config_pkt
          (sample_world host_if_state.HOST_IF_IDLE null_bssid).cfg_calls
          ⟨0, cfg_mode.WILC_SET_CFG, wids⟩).result ≠ 0 then
        result = (env_ok.send_config_pkt
            (sample_world host_if_state.HOST_IF_IDLE null_bssid).cfg_calls
            ⟨0, cfg_mode.WILC_SET_CFG, wids⟩).result ∧
          result ≠ 0 ∧
          d1.hif_state = (sample_drv host_if_state.HOST_IF_IDLE null_bssid).hif_state ∧
          d1.connect_timer = (sample_drv host_if_state.HOST_IF_IDLE null_bssid).connect_timer ∧
          d1.connect_timer_vif =
            (sample_drv host_if_state.HOST_IF_IDLE null_bssid).connect_timer_vif
      else
        result = 0 ∧
          d1.hif_state =
            (if (sample_drv host_if_state.HOST_IF_IDLE null_bssid).conn_info.auth_type =
                env_ok.h.WILC_FW_AUTH_SAE then
              host_if_state.HOST_IF_EXTERNAL_AUTH
            else host_if_state.HOST_IF_WAITING_CONN_RESP) ∧
          d1.connect_timer = some 9500 ∧ d1.connect_timer_vif = some 0) :=
  wilc_set_join_req_spec env_ok (sample_world host_if_state.HOST_IF_IDLE null_bssid) 0
    (some [2, 0, 0, 0, 0, 1]) (some [48, 0]) 2
    (sample_drv host_if_state.HOST_IF_IDLE null_bssid) (by decide) (Or.inr rfl)

/-! ## Disconnect notification while connected -/

/-- C16: when `handle_rcvd_gnrl_async_info` runs for an interface in `HOST_IF_CONNECTED`
with MAC status `WILC_MAC_STATUS_DISCONNECTED` and a connect-result callback registered, the
state becomes `HOST_IF_IDLE`, `assoc_bssid` is all-zero, the request-IE buffer is released
(absent, length 0), and the record grows by exactly: for a pending scan, the abort WID and
one call of the scan-result callback with `SCAN_EVENT_ABORTED`, the callback being cleared;
one call of the connect-result callback with the disconnect-notify event; and the release
of the request-IE buffer when there was one. -/
theorem handle_rcvd_gnrl_async_info_disconnected (env : Env) (s : World) (vif : Nat)
    (d : host_if_drv) (fn : Nat) (h : s.getDrv vif = some d)
    (hst : d.hif_state = host_if_state.HOST_IF_CONNECTED)
    (hcb : d.conn_info.conn_result = some fn) :
    ∃ s1 d1, handle_rcvd_gnrl_async_info env s vif env.h.WILC_MAC_STATUS_DISCONNECTED = some s1 ∧
      s1.getDrv vif = some d1 ∧
      d1.hif_state = host_if_state.HOST_IF_IDLE ∧
      d1.assoc_bssid = null_bssid ∧
      d1.conn_info.req_ies = none ∧
      d1.conn_info.req_ies_len = 0 ∧
      d1.usr_scan_req.scan_result = none ∧
      s1.log = s.log ++
        (match d.usr_scan_req.scan_result with
          | some sf =>
            [Ev.send_config_pkt vif cfg_mode.WILC_SET_CFG
              [⟨wid_id.WID_ABORT_RUNNING_SCAN, wid_type.WID_CHAR, 1, [1]⟩],
             Ev.scan_result vif sf scan_event.SCAN_EVENT_ABORTED d.usr_scan_req.arg]
          | none => []) ++
        [Ev.conn_result vif fn conn_event.CONN_DISCONN_EVENT_DISCONN_NOTIF 0 d.conn_info.arg] ++
        (if d.conn_info.req_ies.isSome then [Ev.kfree vif heap_obj.req_ies] else []) := by
  have e : handle_rcvd_gnrl_async_info env s vif env.h.WILC_MAC_STATUS_DISCONNECTED =
      host_int_handle_disconnect env s vif := by
    simp [handle_rcvd_gnrl_async_info, h, hst, hcb]
  rw [e]
  unfold host_int_handle_disconnect
  simp only [h, hcb]
  cases hs : d.usr_scan_req.scan_result with
  | none =>
    simp [h, hs, log_kfree]
  | some sf =>
    simp [h, hs, log_kfree, handle_scan_done]

set_option maxRecDepth 100000 in
/-- C16 at a sample input: interface 0 connected, with a scan pending and request IEs
stored. -/
theorem handle_rcvd_gnrl_async_info_disconnected_witness :
    ∃ s1 d1, handle_rcvd_gnrl_async_info env_ok
        (sample_world host_if_state.HOST_IF_CONNECTED [2, 0, 0, 0, 0, 1]) 0
        env_ok.h.WILC_MAC_STATUS_DISCONNECTED = some s1 ∧
      s1.getDrv 0 = some d1 ∧
      d1.hif_state = host_if_state.HOST_IF_IDLE ∧
      d1.assoc_bssid = null_bssid ∧
      d1.conn_info.req_ies = none ∧
      d1.conn_info.req_ies_len = 0 ∧
      d1.usr_scan_req.scan_result = none ∧
      s1.log = (sample_world host_if_state.HOST_IF_CONNECTED [2, 0, 0, 0, 0, 1]).log ++
        (match (sample_drv host_if_state.HOST_IF_CONNECTED [2, 0, 0, 0, 0, 1]).usr_scan_req.scan_result with
          | some sf =>
            [Ev.send_config_pkt 0 cfg_mode.WILC_SET_CFG
              [⟨wid_id.WID_ABORT_RUNNING_SCAN, wid_type.WID_CHAR, 1, [1]⟩],
             Ev.scan_result 0 sf scan_event.SCAN_EVENT_ABORTED
               (sample_drv host_if_state.HOST_IF_CONNECTED [2, 0, 0, 0, 0, 1]).usr_scan_req.arg]
          | none => []) ++
        [Ev.conn_result 0 1 conn_event.CONN_DISCONN_EVENT_DISCONN_NOTIF 0
          (sample_drv host_if_state.HOST_IF_CONNECTED [2, 0, 0, 0, 0, 1]).conn_info.arg] ++
        (if (sample_drv host_if_state.HOST_IF_CONNECTED [2, 0, 0, 0, 0, 1]).conn_info.req_ies.isSome then
          [Ev.kfree 0 heap_obj.req_ies] else []) :=
  handle_rcvd_gnrl_async_info_disconnected env_ok
    (sample_world host_if_state.HOST_IF_CONNECTED [2, 0, 0, 0, 0, 1]) 0
    (sample_drv host_if_state.HOST_IF_CONNECTED [2, 0, 0, 0, 0, 1]) 1 (by decide) (by decide)
    (by decide)

/-! ## Interface index -/

theorem find_vif_spec (l : List wilc_vif) (pos p : Nat) (v : wilc_vif)
    (hnd : (l.map fun u => u.idx).Nodup) (hp : l[p]? = some v) :
    find_vif (v.idx : Int) l pos = some (pos + p) := by
  induction l generalizing pos p with
  | nil => simp at hp
  | cons u l ih =>
    cases p with
    | zero =>
      simp only [List.getElem?_cons_zero, Option.some.injEq] at hp
      subst hp
      simp [find_vif]
    | succ p =>
      simp only [List.getElem?_cons_succ] at hp
      simp only [List.map_cons, List.nodup_cons] at hnd
      have hmem : v.idx ∈ l.map fun u => u.idx :=
        List.mem_map_of_mem (fun u : wilc_vif => u.idx) (List.mem_iff_getElem?.mpr ⟨p, hp⟩)
      have hne : ¬ ((u.idx : Int) = (v.idx : Int)) := by
        intro e
        have e2 : u.idx = v.idx := by exact_mod_cast e
        rw [e2] at hnd
        exact hnd.1 hmem
      simp only [find_vif, if_neg hne]
      rw [ih (pos + 1) p hnd.2 hp]
      congr 1
      omega

/-- C19: `wilc_get_vif_idx` returns `idx + 1`, which lies in `1..WILC_NUM_CONCURRENT_IFC`
whenever `idx` is below `WILC_NUM_CONCURRENT_IFC`; `wilc_get_vif_from_idx` finds no
interface for index 0, for a negative index and for an index above
`WILC_NUM_CONCURRENT_IFC` (indices being values of type `int`); and in a device list whose
`idx` values are distinct and below `WILC_NUM_CONCURRENT_IFC`, `wilc_get_vif_from_idx` applied
to `wilc_get_vif_idx v` finds the interface `v` itself (the one at the position of `v` in the
list). The constant `WILC_NUM_CONCURRENT_IFC` is a value of type `int`. -/
theorem wilc_get_vif_idx_round_trip (h : netdev_h) (w : wilc)
    (hN : h.WILC_NUM_CONCURRENT_IFC < 2147483648) :
    (∀ v : wilc_vif, wilc_get_vif_idx v = (v.idx : Int) + 1 ∧
      (v.idx < h.WILC_NUM_CONCURRENT_IFC →
        1 ≤ wilc_get_vif_idx v ∧ wilc_get_vif_idx v ≤ (h.WILC_NUM_CONCURRENT_IFC : Int))) ∧
    wilc_get_vif_from_idx h w 0 = none ∧
    (∀ idx : Int, -2147483648 ≤ idx → idx < 0 → wilc_get_vif_from_idx h w idx = none) ∧
    (∀ idx : Int, idx < 2147483648 → idx > (h.WILC_NUM_CONCURRENT_IFC : Int) →
      wilc_get_vif_from_idx h w idx = none) ∧
    ((w.vif_list.map fun u => u.idx).Nodup →
      (∀ u ∈ w.vif_list, u.idx < h.WILC_NUM_CONCURRENT_IFC) →
      ∀ (p : Nat) (v : wilc_vif), w.vif_list[p]? = some v →
        wilc_get_vif_from_idx h w (wilc_get_vif_idx v) = some p) := by
  refine ⟨fun v => ⟨rfl, fun hv => ?_⟩, ?_, fun idx hlo hidx => ?_, fun idx hhi hidx => ?_,
    fun hnd hr p v hp => ?_⟩
  · unfold wilc_get_vif_idx
    constructor <;> omega
  · simp [wilc_get_vif_from_idx, wrap_int]
  · unfold wilc_get_vif_from_idx wrap_int
    simp only []
    rw [if_pos (by omega)]
  · unfold wilc_get_vif_from_idx wrap_int
    simp only []
    rw [if_pos (Or.inr (by omega))]
  · have hv := hr v (List.mem_iff_getElem?.mpr ⟨p, hp⟩)
    have e : wrap_int ((v.idx : Int) + 1 - 1) = (v.idx : Int) := by
      unfold wrap_int
      omega
    unfold wilc_get_vif_from_idx wilc_get_vif_idx
    simp only []
    rw [e, if_neg (by omega), find_vif_spec w.vif_list 0 p v hnd hp]
    simp

/-- C19 at a sample input: on a device of two interfaces, the index of interface 1 leads
back to interface 1. -/
theorem wilc_get_vif_idx_round_trip_witness :
    wilc_get_vif_from_idx sample_h (World.start 2).wilc
      (wilc_get_vif_idx ⟨1, false, some hif_drv_init⟩) = some 1 :=
  (wilc_get_vif_idx_round_trip sample_h (World.start 2).wilc (by decide)).2.2.2.2
    (by decide) (by decide) 1 ⟨1, false, some hif_drv_init⟩ rfl

/-! ## Event decoders -/

/-- C20: when the index at the end of the frame resolves to no interface, or to an
interface without a driver context, each of `wilc_network_info_received`,
`wilc_gnrl_async_info_received` and `wilc_scan_complete_received` leaves the world as it
was: no task is submitted, nothing is allocated and no interface state changes. The same
holds for `wilc_gnrl_async_info_received` when the interface found has a driver context
without a connect-result callback. -/
theorem decoders_drop (env : Env) (s : World) (buffer : List Nat) (length : Nat) :
    ((∀ vif, wilc_get_vif_from_idx env.h s.wilc (frame_id buffer length) = some vif →
        s.getDrv vif = none) →
      wilc_network_info_received env s buffer length = s ∧
      wilc_gnrl_async_info_received env s buffer length = s ∧
      wilc_scan_complete_received env s buffer length = s) ∧
    ((∀ vif d, wilc_get_vif_from_idx env.h s.wilc (frame_id buffer length) = some vif →
        s.getDrv vif = some d → d.conn_info.conn_result = none) →
      wilc_gnrl_async_info_received env s buffer length = s) := by
  constructor
  · intro hdrop
    unfold wilc_network_info_received wilc_gnrl_async_info_received
      wilc_scan_complete_received
    cases hr : wilc_get_vif_from_idx env.h s.wilc (frame_id buffer length) with
    | none => simp [hr]
    | some vif => simp [hr, hdrop vif hr]
  · intro hcb
    unfold wilc_gnrl_async_info_received
    cases hr : wilc_get_vif_from_idx env.h s.wilc (frame_id buffer length) with
    | none => simp [hr]
    | some vif =>
      cases hd : s.getDrv vif with
      | none => simp [hr, hd]
      | some d => simp [hr, hd, hcb vif d hr hd]

set_option maxRecDepth 100000 in
/-- C20 at sample inputs: a frame for index 3 on a device of two interfaces, and a frame
for interface 0, which has no connect-result callback at start of day. -/
theorem decoders_drop_witness :
    (wilc_network_info_received env_ok (World.start 2) (sample_frame 3) 15 = World.start 2 ∧
      wilc_gnrl_async_info_received env_ok (World.start 2) (sample_frame 3) 15 = World.start 2 ∧
      wilc_scan_complete_received env_ok (World.start 2) (sample_frame 3) 15 = World.start 2) ∧
    wilc_gnrl_async_info_received env_ok (World.start 2) (sample_frame 1) 15 = World.start 2 :=
  ⟨(decoders_drop env_ok (World.start 2) (sample_frame 3) 15).1 (fun vif hv => by
      rw [show wilc_get_vif_from_idx env_ok.h (World.start 2).wilc
        (frame_id (sample_frame 3) 15) = none from by decide] at hv
      cases hv),
   (decoders_drop env_ok (World.start 2) (sample_frame 1) 15).2 (fun vif d hv hd => by
      rw [show wilc_get_vif_from_idx env_ok.h (World.start 2).wilc
        (frame_id (sample_frame 1) 15) = some 0 from by decide] at hv
      cases hv
      rw [show (World.start 2).getDrv 0 = some hif_drv_init from by decide] at hd
      cases hd
      rfl)⟩

set_option maxRecDepth 100000 in
/-- The decoders do submit tasks otherwise: on a world where interface 0 has both callbacks
registered, each decoder queues its task for interface 0, with the fields read from the
frame. -/
theorem decoders_submit_example :
    (wilc_network_info_received env_ok
        (sample_world host_if_state.HOST_IF_IDLE null_bssid) (sample_frame 1) 15).log =
      [Ev.queue_work 0 (host_if_msg.handle_rcvd_ntwrk_info 258 200 [9, 8, 1, 0, 0, 0])] ∧
    (wilc_gnrl_async_info_received env_ok
        (sample_world host_if_state.HOST_IF_IDLE null_bssid) (sample_frame 1) 15).log =
      [Ev.queue_work 0 (host_if_msg.handle_rcvd_gnrl_async_info 1)] ∧
    (wilc_scan_complete_received env_ok
        (sample_world host_if_state.HOST_IF_IDLE null_bssid) (sample_frame 1) 15).log =
      [Ev.queue_work 0 host_if_msg.handle_scan_complete] := by
  decide

/-! ## Station parameters -/

theorem length_poke (buf bytes : List Nat) (off : Nat) (h : off + bytes.length ≤ buf.length) :
    (poke buf off bytes).length = buf.length := by
  unfold poke
  simp only [List.length_append, List.length_take, List.length_drop]
  omega

theorem getElem?_poke (buf bytes : List Nat) (off i : Nat) (h : off ≤ buf.length) :
    (poke buf off bytes)[i]? =
      if i < off then buf[i]?
      else if i < off + bytes.length then bytes[i - off]?
      else buf[i]? := by
  unfold poke
  have hl : (buf.take off).length = off := by simp [h]
  by_cases h1 : i < off
  · rw [if_pos h1, List.append_assoc, List.getElem?_append_left (by omega)]
    simp [List.getElem?_take, h1]
  · rw [if_neg h1, List.append_assoc, List.getElem?_append_right (by omega), hl]
    by_cases h2 : i < off + bytes.length
    · rw [if_pos h2, List.getElem?_append_left (by omega)]
    · rw [if_neg h2, List.getElem?_append_right (by omega), List.getElem?_drop]
      congr 1
      omega

theorem poke_bssid (buf B : List Nat) (n : Nat) (hb : B.length = 6)
    (hbuf : buf.length = 40 + n) :
    (poke buf 0 B).length = 40 + n ∧
    ∀ j, (poke buf 0 B)[j]? = if j < 6 then B[j]? else buf[j]? := by
  refine ⟨by rw [length_poke _ _ _ (by omega)]; exact hbuf, fun j => ?_⟩
  rw [getElem?_poke _ _ _ _ (by omega)]
  simp [hb]

theorem poke_aid (b1 A : List Nat) (n : Nat) (hA : A.length = 2) (l1 : b1.length = 40 + n) :
    (poke b1 6 A).length = 40 + n ∧
    ∀ j, (poke b1 6 A)[j]? = if j < 6 then b1[j]? else if j < 8 then A[j - 6]? else b1[j]? := by
  refine ⟨by rw [length_poke _ _ _ (by omega)]; exact l1, fun j => ?_⟩
  rw [getElem?_poke _ _ _ _ (by omega), hA]

theorem poke_count (b2 : List Nat) (n c : Nat) (l2 : b2.length = 40 + n) :
    (poke b2 (6 + 2) [c]).length = 40 + n ∧
    ∀ j, (poke b2 (6 + 2) [c])[j]? =
      if j < 8 then b2[j]? else if j < 9 then some c else b2[j]? := by
  refine ⟨by rw [length_poke _ _ _ (by simp; omega)]; exact l2, fun j => ?_⟩
  rw [getElem?_poke _ _ _ _ (by omega)]
  by_cases h1 : j < 8
  · simp [h1]
  · by_cases h2 : j < 9
    · have : j - 8 = 0 := by omega
      simp [h1, h2, this]
    · simp [h1, h2]

theorem poke_rates (b3 R : List Nat) (n : Nat) (hr : R.length = n) (l3 : b3.length = 40 + n) :
    (if n > 0 then poke b3 (6 + 2 + 1) (List.take n R) else b3).length = 40 + n ∧
    ∀ j, (if n > 0 then poke b3 (6 + 2 + 1) (List.take n R) else b3)[j]? =
      if j < 9 then b3[j]? else if j < 9 + n then R[j - 9]? else b3[j]? := by
  constructor
  · split
    · rw [length_poke _ _ _ (by simp [hr]; omega)]; exact l3
    · exact l3
  · intro j
    split
    · rw [getElem?_poke _ _ _ _ (by omega)]
      simp only [List.length_take, hr, Nat.min_self, List.getElem?_take]
      by_cases h1 : j < 9
      · simp [h1]
      · by_cases h2 : j < 9 + n
        · have : j - 9 < n := by omega
          simp [h1, h2, this]
        · simp [h1, h2]
    · have : n = 0 := by omega
      subst this
      by_cases h1 : j < 9
      · simp [h1]
      · simp [h1]

theorem poke_ht (b4 H : List Nat) (n : Nat) (ht : Bool) (hht : H.length = 26)
    (l4 : b4.length = 40 + n) :
    (if ht = true then poke (poke b4 (6 + 2 + 1 + n) [1]) (6 + 2 + 1 + n + 1) H
      else poke b4 (6 + 2 + 1 + n) [0]).length = 40 + n ∧
    ∀ j, (if ht = true then poke (poke b4 (6 + 2 + 1 + n) [1]) (6 + 2 + 1 + n + 1) H
      else poke b4 (6 + 2 + 1 + n) [0])[j]? =
      if j < 9 + n then b4[j]?
      else if j < 10 + n then some (if ht = true then 1 else 0)
      else if j < 36 + n then (if ht = true then H[j - (10 + n)]? else b4[j]?)
      else b4[j]? := by
  have e1 : 6 + 2 + 1 + n = 9 + n := by omega
  have e2 : 6 + 2 + 1 + n + 1 = 10 + n := by omega
  rw [e2, e1]
  constructor
  · split
    · rw [length_poke _ _ _ (by rw [length_poke _ _ _ (by simp; omega)]; omega),
        length_poke _ _ _ (by simp; omega)]
      exact l4
    · rw [length_poke _ _ _ (by simp; omega)]; exact l4
  · intro j
    by_cases ht1 : ht = true
    · simp only [if_pos ht1]
      rw [getElem?_poke _ _ _ _ (by rw [length_poke _ _ _ (by simp; omega)]; omega),
        getElem?_poke _ _ _ _ (by omega), hht]
      by_cases h1 : j < 9 + n
      · have : j < 10 + n := by omega
        simp [h1, this]
      · by_cases h2 : j < 10 + n
        · have : j - (9 + n) = 0 := by omega
          have h4 : j < 9 + n + 1 := by omega
          simp [h1, h2, this, h4]
        · have h4 : ¬ j < 9 + n + 1 := by omega
          by_cases h3 : j < 36 + n
          · have : j < 10 + n + 26 := by omega
            simp [h1, h2, h3, this, h4]
          · have : ¬ j < 10 + n + 26 := by omega
            simp [h1, h2, h3, this, h4]
    · simp only [if_neg ht1]
      rw [getElem?_poke _ _ _ _ (by omega)]
      by_cases h1 : j < 9 + n
      · simp [h1]
      · by_cases h2 : j < 10 + n
        · have : j - (9 + n) = 0 := by omega
          have h4 : j < 9 + n + 1 := by omega
          simp [h1, h2, this, h4]
        · have h4 : ¬ j < 9 + n + 1 := by omega
          by_cases h3 : j < 36 + n <;> simp [h1, h2, h3, h4]

theorem pack_combine (buf b1 b2 b3 b4 b5 B A R H M S : List Nat) (n c i : Nat) (ht : Bool)
    (hM : M.length = 2) (hS : S.length = 2) (hbuf : buf.length = 40 + n)
    (l5 : b5.length = 40 + n)
    (g1 : ∀ j, b1[j]? = if j < 6 then B[j]? else buf[j]?)
    (g2 : ∀ j, b2[j]? = if j < 6 then b1[j]? else if j < 8 then A[j - 6]? else b1[j]?)
    (g3 : ∀ j, b3[j]? = if j < 8 then b2[j]? else if j < 9 then some c else b2[j]?)
    (g4 : ∀ j, b4[j]? = if j < 9 then b3[j]? else if j < 9 + n then R[j - 9]? else b3[j]?)
    (g5 : ∀ j, b5[j]? = if j < 9 + n then b4[j]?
      else if j < 10 + n then some (if ht = true then 1 else 0)
      else if j < 36 + n then (if ht = true then H[j - (10 + n)]? else b4[j]?)
      else b4[j]?) :
    (poke (poke b5 (6 + 2 + 1 + n + 1 + 26) M) (6 + 2 + 1 + n + 1 + 26 + 2) S)[i]? =
      if i < 6 then B[i]?
      else if i < 8 then A[i - 6]?
      else if i < 9 then some c
      else if i < 9 + n then R[i - 9]?
      else if i < 10 + n then some (if ht = true then 1 else 0)
      else if i < 36 + n then (if ht = true then H[i - (10 + n)]? else buf[i]?)
      else if i < 38 + n then M[i - (36 + n)]?
      else if i < 40 + n then S[i - (38 + n)]?
      else none := by
  have e6 : 6 + 2 + 1 + n + 1 + 26 = 36 + n := by omega
  have e7 : 6 + 2 + 1 + n + 1 + 26 + 2 = 38 + n := by omega
  rw [e7, e6]
  have l6 : (poke b5 (36 + n) M).length = 40 + n := by
    rw [length_poke _ _ _ (by omega)]; exact l5
  rw [getElem?_poke _ _ _ _ (by omega), getElem?_poke _ _ _ _ (by omega), hM, hS]
  have hend : ∀ j, 40 + n ≤ j → buf[j]? = none := fun j hj =>
    List.getElem?_eq_none (by omega)
  by_cases h1 : i < 6
  · have a1 : i < 38 + n := by omega
    have a2 : i < 36 + n := by omega
    have a3 : i < 9 + n := by omega
    have a4 : i < 9 := by omega
    have a5 : i < 8 := by omega
    simp only [h1, a1, a2, a3, a4, a5, if_true, if_false]
    rw [g5]; simp only [h1, a1, a2, a3, a4, a5, if_true, if_false]
    rw [g4]; simp only [h1, a1, a2, a3, a4, a5, if_true, if_false]
    rw [g3]; simp only [h1, a1, a2, a3, a4, a5, if_true, if_false]
    rw [g2]; simp only [h1, a1, a2, a3, a4, a5, if_true, if_false]
    rw [g1]; simp only [h1, a1, a2, a3, a4, a5, if_true, if_false]
  by_cases h2 : i < 8
  · have a1 : i < 38 + n := by omega
    have a2 : i < 36 + n := by omega
    have a3 : i < 9 + n := by omega
    have a4 : i < 9 := by omega
    simp only [h1, h2, a1, a2, a3, a4, if_true, if_false]
    rw [g5]; simp only [h1, h2, a1, a2, a3, a4, if_true, if_false]
    rw [g4]; simp only [h1, h2, a1, a2, a3, a4, if_true, if_false]
    rw [g3]; simp only [h1, h2, a1, a2, a3, a4, if_true, if_false]
    rw [g2]; simp only [h1, h2, a1, a2, a3, a4, if_true, if_false]
  by_cases h3 : i < 9
  · have a1 : i < 38 + n := by omega
    have a2 : i < 36 + n := by omega
    have a3 : i < 9 + n := by omega
    simp only [h1, h2, h3, a1, a2, a3, if_true, if_false]
    rw [g5]; simp only [h1, h2, h3, a1, a2, a3, if_true, if_false]
    rw [g4]; simp only [h1, h2, h3, a1, a2, a3, if_true, if_false]
    rw [g3]; simp only [h1, h2, h3, a1, a2, a3, if_true, if_false]
  by_cases h4 : i < 9 + n
  · have a1 : i < 38 + n := by omega
    have a2 : i < 36 + n := by omega
    simp only [h1, h2, h3, h4, a1, a2, if_true, if_false]
    rw [g5]; simp only [h1, h2, h3, h4, a1, a2, if_true, if_false]
    rw [g4]; simp only [h1, h2, h3, h4, a1, a2, if_true, if_false]
  by_cases h5 : i < 10 + n
  · have a1 : i < 38 + n := by omega
    have a2 : i < 36 + n := by omega
    simp only [h1, h2, h3, h4, h5, a1, a2, if_true, if_false]
    rw [g5]; simp only [h1, h2, h3, h4, h5, a1, a2, if_true, if_false]
  by_cases h6 : i < 36 + n
  · have a1 : i < 38 + n := by omega
    simp only [h1, h2, h3, h4, h5, h6, a1, if_true, if_false]
    rw [g5]; simp only [h1, h2, h3, h4, h5, h6, a1, if_true, if_false]
    rw [g4]; simp only [h1, h2, h3, h4, h5, h6, a1, if_true, if_false]
    rw [g3]; simp only [h1, h2, h3, h4, h5, h6, a1, if_true, if_false]
    rw [g2]; simp only [h1, h2, h3, h4, h5, h6, a1, if_true, if_false]
    rw [g1]; simp only [h1, h2, h3, h4, h5, h6, a1, if_true, if_false]
  by_cases h7 : i < 38 + n
  · have a1 : i < 36 + n + 2 := by omega
    simp only [h1, h2, h3, h4, h5, h6, h7, a1, if_true, if_false]
  by_cases h8 : i < 40 + n
  · have a1 : i < 38 + n + 2 := by omega
    simp only [h1, h2, h3, h4, h5, h6, h7, h8, a1, if_true, if_false]
  · have a1 : ¬ i < 38 + n + 2 := by omega
    have a2 : ¬ i < 36 + n + 2 := by omega
    simp only [h1, h2, h3, h4, h5, h6, h7, h8, a1, a2, if_true, if_false, hend i (by omega)]
    rw [g5]; simp only [h1, h2, h3, h4, h5, h6, h7, h8, a1, a2, if_true, if_false, hend i (by omega)]
    rw [g4]; simp only [h1, h2, h3, h4, h5, h6, h7, h8, a1, a2, if_true, if_false, hend i (by omega)]
    rw [g3]; simp only [h1, h2, h3, h4, h5, h6, h7, h8, a1, a2, if_true, if_false, hend i (by omega)]
    rw [g2]; simp only [h1, h2, h3, h4, h5, h6, h7, h8, a1, a2, if_true, if_false, hend i (by omega)]
    rw [g1]; simp only [h1, h2, h3, h4, h5, h6, h7, h8, a1, a2, if_true, if_false, hend i (by omega)]

theorem getElem?_pack (buf : List Nat) (p : add_sta_param) (i : Nat)
    (hb : p.bssid.length = 6)
    (hr : (p.supported_rates.getD []).length = p.supported_rates_len)
    (hht : p.ht_capa.length = 26)
    (hbuf : buf.length = 40 + p.supported_rates_len) :
    (wilc_hif_pack_sta_param buf p)[i]? =
      if i < 6 then p.bssid[i]?
      else if i < 8 then (put_unaligned_le16 p.aid)[i - 6]?
      else if i < 9 then some (p.supported_rates_len % 256)
      else if i < 9 + p.supported_rates_len then (p.supported_rates.getD [])[i - 9]?
      else if i < 10 + p.supported_rates_len then some (if p.ht_supported = true then 1 else 0)
      else if i < 36 + p.supported_rates_len then
        (if p.ht_supported = true then p.ht_capa[i - (10 + p.supported_rates_len)]?
          else buf[i]?)
      else if i < 38 + p.supported_rates_len then
        (put_unaligned_le16 p.flags_mask)[i - (36 + p.supported_rates_len)]?
      else if i < 40 + p.supported_rates_len then
        (put_unaligned_le16 p.flags_set)[i - (38 + p.supported_rates_len)]?
      else none := by
  have s1 := poke_bssid buf p.bssid p.supported_rates_len hb hbuf
  have s2 := poke_aid _ (put_unaligned_le16 p.aid) p.supported_rates_len rfl s1.1
  have s3 := poke_count _ p.supported_rates_len (p.supported_rates_len % 256) s2.1
  have s4 := poke_rates _ (p.supported_rates.getD []) p.supported_rates_len hr s3.1
  have s5 := poke_ht _ p.ht_capa p.supported_rates_len p.ht_supported hht s4.1
  exact pack_combine buf _ _ _ _ _ p.bssid (put_unaligned_le16 p.aid)
    (p.supported_rates.getD []) p.ht_capa (put_unaligned_le16 p.flags_mask)
    (put_unaligned_le16 p.flags_set) p.supported_rates_len (p.supported_rates_len % 256) i
    p.ht_supported rfl rfl hbuf s5.1 s1.2 s2.2 s3.2 s4.2 s5.2

theorem length_pack (buf : List Nat) (p : add_sta_param)
    (hb : p.bssid.length = 6)
    (hr : (p.supported_rates.getD []).length = p.supported_rates_len)
    (hht : p.ht_capa.length = 26)
    (hbuf : buf.length = 40 + p.supported_rates_len) :
    (wilc_hif_pack_sta_param buf p).length = 40 + p.supported_rates_len := by
  have h1 := getElem?_pack buf p (40 + p.supported_rates_len) hb hr hht hbuf
  have h2 := getElem?_pack buf p (39 + p.supported_rates_len) hb hr hht hbuf
  have a1 : ¬ 40 + p.supported_rates_len < 6 := by omega
  have a2 : ¬ 40 + p.supported_rates_len < 8 := by omega
  have a3 : ¬ 40 + p.supported_rates_len < 9 := by omega
  have b1 : ¬ 39 + p.supported_rates_len < 6 := by omega
  have b2 : ¬ 39 + p.supported_rates_len < 8 := by omega
  have b3 : ¬ 39 + p.supported_rates_len < 9 := by omega
  have b4 : 39 + p.supported_rates_len - (38 + p.supported_rates_len) = 1 := by omega
  simp only [a1, a2, a3, if_false, Nat.add_lt_add_iff_right, Nat.lt_irrefl,
    (by decide : ¬ 40 < 9), (by decide : ¬ 40 < 10), (by decide : ¬ 40 < 36),
    (by decide : ¬ 40 < 38)] at h1
  simp only [b1, b2, b3, b4, if_false, if_true, Nat.add_lt_add_iff_right,
    (by decide : ¬ 39 < 9), (by decide : ¬ 39 < 10), (by decide : ¬ 39 < 36),
    (by decide : ¬ 39 < 38), (by decide : 39 < 40), put_unaligned_le16] at h2
  have h3 := List.getElem?_eq_none_iff.mp h1
  have h4 : 39 + p.supported_rates_len < (wilc_hif_pack_sta_param buf p).length := by
    by_contra hc
    rw [List.getElem?_eq_none (by omega)] at h2
    simp at h2
  omega

theorem pack_round_trip (buf : List Nat) (p : add_sta_param)
    (hb : p.bssid.length = 6) (haid : p.aid < 65536) (hn : p.supported_rates_len < 256)
    (hr : (p.supported_rates.getD []).length = p.supported_rates_len)
    (hht : p.ht_capa.length = 26) (hm : p.flags_mask < 65536) (hs : p.flags_set < 65536)
    (hbuf : buf.length = 40 + p.supported_rates_len) :
    (wilc_hif_pack_sta_param buf p).take 6 = p.bssid ∧
    get_le16 (wilc_hif_pack_sta_param buf p) 6 = p.aid ∧
    (wilc_hif_pack_sta_param buf p).getD 8 0 = p.supported_rates_len ∧
    ((wilc_hif_pack_sta_param buf p).drop 9).take p.supported_rates_len =
      p.supported_rates.getD [] ∧
    (wilc_hif_pack_sta_param buf p).getD (9 + p.supported_rates_len) 0 =
      (if p.ht_supported = true then 1 else 0) ∧
    (p.ht_supported = true →
      ((wilc_hif_pack_sta_param buf p).drop (10 + p.supported_rates_len)).take 26 =
        p.ht_capa) ∧
    (p.ht_supported = false →
      ((wilc_hif_pack_sta_param buf p).drop (10 + p.supported_rates_len)).take 26 =
        (buf.drop (10 + p.supported_rates_len)).take 26) ∧
    get_le16 (wilc_hif_pack_sta_param buf p) (36 + p.supported_rates_len) = p.flags_mask ∧
    get_le16 (wilc_hif_pack_sta_param buf p) (38 + p.supported_rates_len) = p.flags_set := by
  have G := fun i => getElem?_pack buf p i hb hr hht hbuf
  generalize wilc_hif_pack_sta_param buf p = out at G ⊢
  generalize p.supported_rates_len = n at *
  refine ⟨?_, ?_, ?_, ?_, ?_, ?_, ?_, ?_, ?_⟩
  · apply List.ext_getElem?
    intro i
    rw [List.getElem?_take]
    by_cases h : i < 6
    · rw [if_pos h, G, if_pos h]
    · rw [if_neg h, List.getElem?_eq_none (by omega)]
  · have f6 := G 6
    have f7 := G 7
    simp only [(by decide : ¬ 6 < 6), (by decide : 6 < 8), (by decide : ¬ 7 < 6),
      (by decide : 7 < 8), if_true, if_false, put_unaligned_le16] at f6 f7
    simp only [get_le16, List.getD_eq_getElem?_getD, f6, f7]
    simp
    omega
  · have f8 := G 8
    simp only [(by decide : ¬ 8 < 6), (by decide : ¬ 8 < 8), (by decide : 8 < 9),
      if_true, if_false] at f8
    simp only [List.getD_eq_getElem?_getD, f8]
    simp
    omega
  · apply List.ext_getElem?
    intro i
    rw [List.getElem?_take, List.getElem?_drop]
    by_cases h : i < n
    · have a1 : ¬ 9 + i < 6 := by omega
      have a2 : ¬ 9 + i < 8 := by omega
      have a3 : ¬ 9 + i < 9 := by omega
      have a4 : 9 + i < 9 + n := by omega
      have a5 : 9 + i - 9 = i := by omega
      rw [if_pos h, G, if_neg a1, if_neg a2, if_neg a3, if_pos a4, a5]
    · rw [if_neg h, List.getElem?_eq_none (by omega)]
  · have a1 : ¬ 9 + n < 6 := by omega
    have a2 : ¬ 9 + n < 8 := by omega
    have a3 : ¬ 9 + n < 9 := by omega
    have a4 : ¬ 9 + n < 9 + n := by omega
    have a5 : 9 + n < 10 + n := by omega
    rw [List.getD_eq_getElem?_getD, G, if_neg a1, if_neg a2, if_neg a3, if_neg a4, if_pos a5]
    rfl
  · intro ht
    apply List.ext_getElem?
    intro i
    rw [List.getElem?_take, List.getElem?_drop]
    by_cases h : i < 26
    · have a1 : ¬ 10 + n + i < 6 := by omega
      have a2 : ¬ 10 + n + i < 8 := by omega
      have a3 : ¬ 10 + n + i < 9 := by omega
      have a4 : ¬ 10 + n + i < 9 + n := by omega
      have a5 : ¬ 10 + n + i < 10 + n := by omega
      have a6 : 10 + n + i < 36 + n := by omega
      have a7 : 10 + n + i - (10 + n) = i := by omega
      rw [if_pos h, G, if_neg a1, if_neg a2, if_neg a3, if_neg a4, if_neg a5, if_pos a6,
        if_pos ht, a7]
    · rw [if_neg h, List.getElem?_eq_none (by omega)]
  · intro ht
    have ht1 : ¬ p.ht_supported = true := by simp [ht]
    apply List.ext_getElem?
    intro i
    rw [List.getElem?_take, List.getElem?_drop, List.getElem?_take, List.getElem?_drop]
    by_cases h : i < 26
    · have a1 : ¬ 10 + n + i < 6 := by omega
      have a2 : ¬ 10 + n + i < 8 := by omega
      have a3 : ¬ 10 + n + i < 9 := by omega
      have a4 : ¬ 10 + n + i < 9 + n := by omega
      have a5 : ¬ 10 + n + i < 10 + n := by omega
      have a6 : 10 + n + i < 36 + n := by omega
      rw [if_pos h, G, if_neg a1, if_neg a2, if_neg a3, if_neg a4, if_neg a5, if_pos a6,
        if_neg ht1, if_pos h]
    · rw [if_neg h, if_neg h]
  · have f6 := G (36 + n)
    have f7 := G (36 + n + 1)
    have a1 : ¬ 36 + n < 6 := by omega
    have a2 : ¬ 36 + n < 8 := by omega
    have a3 : ¬ 36 + n < 9 := by omega
    have a4 : ¬ 36 + n < 9 + n := by omega
    have a5 : ¬ 36 + n < 10 + n := by omega
    have a6 : ¬ 36 + n < 36 + n := by omega
    have a7 : 36 + n < 38 + n := by omega
    have c1 : ¬ 36 + n + 1 < 6 := by omega
    have c2 : ¬ 36 + n + 1 < 8 := by omega
    have c3 : ¬ 36 + n + 1 < 9 := by omega
    have c4 : ¬ 36 + n + 1 < 9 + n := by omega
    have c5 : ¬ 36 + n + 1 < 10 + n := by omega
    have c6 : ¬ 36 + n + 1 < 36 + n := by omega
    have c7 : 36 + n + 1 < 38 + n := by omega
    have c8 : 36 + n + 1 - (36 + n) = 1 := by omega
    simp only [a1, a2, a3, a4, a5, a6, a7, c1, c2, c3, c4, c5, c6, c7, c8, if_true, if_false,
      put_unaligned_le16, Nat.sub_self] at f6 f7
    simp only [get_le16, List.getD_eq_getElem?_getD, f6, f7]
    simp
    omega
  · have f6 := G (38 + n)
    have f7 := G (38 + n + 1)
    have a1 : ¬ 38 + n < 6 := by omega
    have a2 : ¬ 38 + n < 8 := by omega
    have a3 : ¬ 38 + n < 9 := by omega
    have a4 : ¬ 38 + n < 9 + n := by omega
    have a5 : ¬ 38 + n < 10 + n := by omega
    have a6 : ¬ 38 + n < 36 + n := by omega
    have a7 : ¬ 38 + n < 38 + n := by omega
    have a8 : 38 + n < 40 + n := by omega
    have c1 : ¬ 38 + n + 1 < 6 := by omega
    have c2 : ¬ 38 + n + 1 < 8 := by omega
    have c3 : ¬ 38 + n + 1 < 9 := by omega
    have c4 : ¬ 38 + n + 1 < 9 + n := by omega
    have c5 : ¬ 38 + n + 1 < 10 + n := by omega
    have c6 : ¬ 38 + n + 1 < 36 + n := by omega
    have c7 : ¬ 38 + n + 1 < 38 + n := by omega
    have c8 : 38 + n + 1 < 40 + n := by omega
    have c9 : 38 + n + 1 - (38 + n) = 1 := by omega
    simp only [a1, a2, a3, a4, a5, a6, a7, a8, c1, c2, c3, c4, c5, c6, c7, c8, c9, if_true,
      if_false, put_unaligned_le16, Nat.sub_self] at f6 f7
    simp only [get_le16, List.getD_eq_getElem?_getD, f6, f7]
    simp
    omega

/-- C18: `handle_add_station`, when `WILC_ADD_STA_LENGTH` is 40 and the allocation succeeds,
dispatches `WID_ADD_STA` with size `40 + n` (`n` the number of supported rates) and, as
value, the buffer `wilc_hif_pack_sta_param` filled: it is exactly `40 + n` bytes long, and
reading it back at the offsets of the layout gives the parameters: `bssid` at 0..5, `aid`
little-endian at 6..7, the rate count at 8, the rates at 9..9+n-1, the HT flag at 9+n, the
HT capability bytes at 10+n..35+n when the flag is 1, `flags_mask` at 36+n..37+n and
`flags_set` at 38+n..39+n. The parameters are well-formed: six address bytes, 26
capability bytes, `n` rate bytes with `n` in a byte, and 16-bit `aid` and flag words. -/
theorem handle_add_station_encoding (env : Env) (s : World) (vif : Nat) (p : add_sta_param)
    (hL : env.h.WILC_ADD_STA_LENGTH = 40) (halloc : env.kmalloc s.allocs = true)
    (hb : p.bssid.length = 6) (haid : p.aid < 65536) (hn : p.supported_rates_len < 256)
    (hr : (p.supported_rates.getD []).length = p.supported_rates_len)
    (hht : p.ht_capa.length = 26) (hm : p.flags_mask < 65536) (hs : p.flags_set < 65536) :
    ∃ out, out = wilc_hif_pack_sta_param
        (fresh_buffer env s.allocs (40 + p.supported_rates_len)) p ∧
      (handle_add_station env s vif p).log = s.log ++
        [Ev.send_config_pkt vif cfg_mode.WILC_SET_CFG
          [⟨wid_id.WID_ADD_STA, wid_type.WID_BIN, 40 + p.supported_rates_len, out⟩],
         Ev.kfree vif heap_obj.wid_val] ++
        (if p.supported_rates.isSome then [Ev.kfree vif heap_obj.supported_rates] else []) ++
        [Ev.kfree vif heap_obj.msg] ∧
      out.length = 40 + p.supported_rates_len ∧
      out.take 6 = p.bssid ∧
      get_le16 out 6 = p.aid ∧
      out.getD 8 0 = p.supported_rates_len ∧
      (out.drop 9).take p.supported_rates_len = p.supported_rates.getD [] ∧
      out.getD (9 + p.supported_rates_len) 0 = (if p.ht_supported = true then 1 else 0) ∧
      (p.ht_supported = true →
        (out.drop (10 + p.supported_rates_len)).take 26 = p.ht_capa) ∧
      get_le16 out (36 + p.supported_rates_len) = p.flags_mask ∧
      get_le16 out (38 + p.supported_rates_len) = p.flags_set := by
  have hbuf : (fresh_buffer env s.allocs (40 + p.supported_rates_len)).length =
      40 + p.supported_rates_len := by
    simp [fresh_buffer]
  obtain ⟨r1, r2, r3, r4, r5, r6, _, r8, r9⟩ :=
    pack_round_trip (fresh_buffer env s.allocs (40 + p.supported_rates_len)) p hb haid hn hr
      hht hm hs hbuf
  refine ⟨_, rfl, ?_, length_pack _ p hb hr hht hbuf, r1, r2, r3, r4, r5, r6, r8, r9⟩
  unfold handle_add_station
  simp only [ok_kmalloc, halloc, hL, Bool.true_eq_false, if_false]
  simp [log_kfree]

set_option maxRecDepth 100000 in
/-- C18 at a sample input: a station with four rates and HT capabilities. -/
theorem handle_add_station_encoding_witness :
    ∃ out, out = wilc_hif_pack_sta_param
        (fresh_buffer env_ok (World.start 2).allocs (40 + sample_sta_ht.supported_rates_len)) sample_sta_ht ∧
      (handle_add_station env_ok (World.start 2) 0 sample_sta_ht).log = (World.start 2).log ++
        [Ev.send_config_pkt 0 cfg_mode.WILC_SET_CFG
          [⟨wid_id.WID_ADD_STA, wid_type.WID_BIN, 40 + sample_sta_ht.supported_rates_len, out⟩],
         Ev.kfree 0 heap_obj.wid_val] ++
        (if sample_sta_ht.supported_rates.isSome then [Ev.kfree 0 heap_obj.supported_rates] else []) ++
        [Ev.kfree 0 heap_obj.msg] ∧
      out.length = 40 + sample_sta_ht.supported_rates_len ∧
      out.take 6 = sample_sta_ht.bssid ∧
      get_le16 out 6 = sample_sta_ht.aid ∧
      out.getD 8 0 = sample_sta_ht.supported_rates_len ∧
      (out.drop 9).take sample_sta_ht.supported_rates_len = sample_sta_ht.supported_rates.getD [] ∧
      out.getD (9 + sample_sta_ht.supported_rates_len) 0 = (if sample_sta_ht.ht_supported = true then 1 else 0) ∧
      (sample_sta_ht.ht_supported = true →
        (out.drop (10 + sample_sta_ht.supported_rates_len)).take 26 = sample_sta_ht.ht_capa) ∧
      get_le16 out (36 + sample_sta_ht.supported_rates_len) = sample_sta_ht.flags_mask ∧
      get_le16 out (38 + sample_sta_ht.supported_rates_len) = sample_sta_ht.flags_set :=
  handle_add_station_encoding env_ok (World.start 2) 0 sample_sta_ht rfl rfl (by decide)
    (by decide) (by decide) (by decide) (by decide) (by decide) (by decide)

set_option maxRecDepth 100000 in
/-- The bytes of the sample station without HT capabilities, packed into a buffer whose
bytes were all 170: the 26 bytes after the HT flag keep the value 170. -/
theorem pack_sample :
    wilc_hif_pack_sta_param (fresh_buffer env_ok 0 44) sample_sta =
      [2, 0, 0, 0, 0, 9, 2, 1, 4, 2, 4, 11, 22, 0] ++ List.replicate 26 170 ++ [3, 0, 1, 2] := by
  decide

/-! ## Teardown -/

theorem getDrv_detach (s : World) (i j : Nat) :
    (s.detach i).getDrv j = if i = j then none else s.getDrv j := by
  unfold World.detach World.getDrv
  simp only [List.getElem?_modify]
  by_cases hij : i = j
  · subst hij
    cases hv : s.wilc.vif_list[i]? <;> simp
  · simp [hij]

@[simp] theorem log_detach (s : World) (i : Nat) : (s.detach i).log = s.log := rfl

@[simp] theorem cfg_calls_detach (s : World) (i : Nat) : (s.detach i).cfg_calls = s.cfg_calls :=
  rfl

/-- C25: `wilc_deinit` on an interface with a driver context returns 0 and detaches the
context; what it does before is recorded as exactly: the cancellation of the scan, connect,
periodic-statistics and listen timers, one call of a pending scan-result callback with
`SCAN_EVENT_ABORTED` and the registered argument (no call when none is pending), and the
release of the context; no round trip is made and the other interfaces keep their
contexts. On an interface without a driver context it returns `-EFAULT` and the world is
as it was. -/
theorem wilc_deinit_spec (s : World) (vif : Nat) :
    (∀ d, s.getDrv vif = some d →
      ∃ s1, wilc_deinit s vif = (0, s1) ∧
        s1.getDrv vif = none ∧
        s1.log = s.log ++
          [Ev.del_timer_sync vif timer_id.scan_timer,
           Ev.del_timer_sync vif timer_id.connect_timer,
           Ev.del_timer_sync vif timer_id.periodic_rssi,
           Ev.del_timer_sync vif timer_id.remain_on_ch_timer] ++
          (match d.usr_scan_req.scan_result with
            | some fn =>
              [Ev.scan_result vif fn scan_event.SCAN_EVENT_ABORTED d.usr_scan_req.arg]
            | none => []) ++
          [Ev.kfree vif heap_obj.hif_drv] ∧
        (∀ j, j ≠ vif → s1.getDrv j = s.getDrv j) ∧
        s1.cfg_calls = s.cfg_calls) ∧
    (s.getDrv vif = none → wilc_deinit s vif = (-EFAULT, s)) := by
  constructor
  · intro d h
    unfold wilc_deinit
    simp only [h]
    refine ⟨_, rfl, by simp [getDrv_detach], ?_, ?_, ?_⟩
    · cases hs : d.usr_scan_req.scan_result <;> simp
    · intro j hj
      have hne : ¬ vif = j := fun e => hj e.symm
      cases hs : d.usr_scan_req.scan_result <;> simp [getDrv_detach, getDrv_updDrv, hne]
    · cases hs : d.usr_scan_req.scan_result <;> simp
  · intro h
    unfold wilc_deinit
    simp only [h]

set_option maxRecDepth 100000 in
/-- C25 at sample inputs: interface 0 with a scan pending, and a device whose interface 0
has no driver context. -/
theorem wilc_deinit_spec_witness :
    (∃ s1, wilc_deinit (sample_world host_if_state.HOST_IF_CONNECTED [2, 0, 0, 0, 0, 1]) 0 =
        (0, s1) ∧
      s1.getDrv 0 = none ∧
      s1.log = (sample_world host_if_state.HOST_IF_CONNECTED [2, 0, 0, 0, 0, 1]).log ++
        [Ev.del_timer_sync 0 timer_id.scan_timer,
         Ev.del_timer_sync 0 timer_id.connect_timer,
         Ev.del_timer_sync 0 timer_id.periodic_rssi,
         Ev.del_timer_sync 0 timer_id.remain_on_ch_timer] ++
        (match (sample_drv host_if_state.HOST_IF_CONNECTED
            [2, 0, 0, 0, 0, 1]).usr_scan_req.scan_result with
          | some fn =>
            [Ev.scan_result 0 fn scan_event.SCAN_EVENT_ABORTED
              (sample_drv host_if_state.HOST_IF_CONNECTED [2, 0, 0, 0, 0, 1]).usr_scan_req.arg]
          | none => []) ++
        [Ev.kfree 0 heap_obj.hif_drv] ∧
      (∀ j, j ≠ 0 →
        s1.getDrv j = (sample_world host_if_state.HOST_IF_CONNECTED [2, 0, 0, 0, 0, 1]).getDrv j) ∧
      s1.cfg_calls = (sample_world host_if_state.HOST_IF_CONNECTED [2, 0, 0, 0, 0, 1]).cfg_calls) ∧
    wilc_deinit ((World.start 2).detach 0) 0 = (-EFAULT, (World.start 2).detach 0) :=
  ⟨(wilc_deinit_spec (sample_world host_if_state.HOST_IF_CONNECTED [2, 0, 0, 0, 0, 1]) 0).1
      (sample_drv host_if_state.HOST_IF_CONNECTED [2, 0, 0, 0, 0, 1]) (by decide),
    (wilc_deinit_spec ((World.start 2).detach 0) 0).2 (by decide)⟩

/-! ## Statistics -/

theorem wrap_int_emod (x : Int) (hlo : -2147483648 ≤ x) (hhi : x < 2147483648) :
    wrap_int (x % 4294967296) = x ∧ (x % 4294967296 ≠ 0 ↔ x ≠ 0) := by
  unfold wrap_int
  constructor <;> omega

/-- C26: `wilc_get_statistics` makes one GET round trip, with WIDs `wids`, and hands back
the return value of the transport (an `int`). When the GET failed nothing else is recorded:
the filter is left untouched. When it succeeded, with `link_speed` the speed the transport
stored, the filter is enabled when `link_speed > TCP_ACK_FILTER_LINK_SPEED_THRESH` and
`link_speed ≠ DEFAULT_LINK_SPEED`, disabled when `link_speed ≠ DEFAULT_LINK_SPEED` and
`link_speed ≤ TCP_ACK_FILTER_LINK_SPEED_THRESH`, and left untouched when
`link_speed = DEFAULT_LINK_SPEED`. -/
theorem wilc_get_statistics_filter (env : Env) (s : World) (vif : Nat) (stats : rf_info)
    (hint : ∀ n q, -2147483648 ≤ (env.send_config_pkt n q).result ∧
      (env.send_config_pkt n q).result < 2147483648) :
    ∃ wids,
      (wilc_get_statistics env s vif stats).result =
        (env.send_config_pkt s.cfg_calls ⟨vif, cfg_mode.WILC_GET_CFG, wids⟩).result ∧
      (wilc_get_statistics env s vif stats).stats =
        stats_stored stats
          (env.send_config_pkt s.cfg_calls ⟨vif, cfg_mode.WILC_GET_CFG, wids⟩).val ∧
      (wilc_get_statistics env s vif stats).world.log =
        s.log ++ [Ev.send_config_pkt vif cfg_mode.WILC_GET_CFG wids] ++
          (if (env.send_config_pkt s.cfg_calls ⟨vif, cfg_mode.WILC_GET_CFG, wids⟩).result ≠ 0
            then []
          else if (wilc_get_statistics env s vif stats).stats.link_speed = env.h.DEFAULT_LINK_SPEED
            then []
          else if (wilc_get_statistics env s vif stats).stats.link_speed >
              env.h.TCP_ACK_FILTER_LINK_SPEED_THRESH
            then [Ev.wilc_enable_tcp_ack_filter vif true]
          else [Ev.wilc_enable_tcp_ack_filter vif false]) := by
  refine ⟨[⟨wid_id.WID_LINKSPEED, wid_type.WID_CHAR, 1, [stats.link_speed]⟩,
     ⟨wid_id.WID_RSSI, wid_type.WID_CHAR, 1, [stats.rssi]⟩,
     ⟨wid_id.WID_SUCCESS_FRAME_COUNT, wid_type.WID_INT, 4, put_unaligned_le32 stats.tx_cnt⟩,
     ⟨wid_id.WID_RECEIVED_FRAGMENT_COUNT, wid_type.WID_INT, 4, put_unaligned_le32 stats.rx_cnt⟩,
     ⟨wid_id.WID_FAILED_COUNT, wid_type.WID_INT, 4, put_unaligned_le32 stats.tx_fail_cnt⟩], ?_⟩
  unfold wilc_get_statistics
  simp only [reply_send]
  obtain ⟨hlo, hhi⟩ := hint s.cfg_calls ⟨vif, cfg_mode.WILC_GET_CFG,
    [⟨wid_id.WID_LINKSPEED, wid_type.WID_CHAR, 1, [stats.link_speed]⟩,
     ⟨wid_id.WID_RSSI, wid_type.WID_CHAR, 1, [stats.rssi]⟩,
     ⟨wid_id.WID_SUCCESS_FRAME_COUNT, wid_type.WID_INT, 4, put_unaligned_le32 stats.tx_cnt⟩,
     ⟨wid_id.WID_RECEIVED_FRAGMENT_COUNT, wid_type.WID_INT, 4, put_unaligned_le32 stats.rx_cnt⟩,
     ⟨wid_id.WID_FAILED_COUNT, wid_type.WID_INT, 4, put_unaligned_le32 stats.tx_fail_cnt⟩]⟩
  generalize env.send_config_pkt s.cfg_calls _ = r at hlo hhi ⊢
  obtain ⟨hw, hz⟩ := wrap_int_emod r.result hlo hhi
  rw [hw]
  by_cases h0 : r.result = 0
  · have h1 : ¬ r.result % 4294967296 ≠ 0 := fun h => (hz.mp h) h0
    simp only [if_neg h1, h0, ne_eq, not_true_eq_false, if_false]
    by_cases hd : (stats_stored stats r.val).link_speed = env.h.DEFAULT_LINK_SPEED
    · simp [hd]
    · by_cases ht : (stats_stored stats r.val).link_speed >
          env.h.TCP_ACK_FILTER_LINK_SPEED_THRESH
      · simp [hd, ht]
      · simp [hd, ht]
  · have h1 : r.result % 4294967296 ≠ 0 := hz.mpr h0
    simp only [if_pos h1]
    simp [h0]

/-- C26 at a sample input: a GET that succeeds and stores nothing. -/
theorem wilc_get_statistics_filter_witness :
    ∃ wids,
      (wilc_get_statistics env_ok (World.start 2) 0 ⟨11, 0, 0, 0, 0⟩).result =
        (env_ok.send_config_pkt (World.start 2).cfg_calls
          ⟨0, cfg_mode.WILC_GET_CFG, wids⟩).result ∧
      (wilc_get_statistics env_ok (World.start 2) 0 ⟨11, 0, 0, 0, 0⟩).stats =
        stats_stored ⟨11, 0, 0, 0, 0⟩
          (env_ok.send_config_pkt (World.start 2).cfg_calls
            ⟨0, cfg_mode.WILC_GET_CFG, wids⟩).val ∧
      (wilc_get_statistics env_ok (World.start 2) 0 ⟨11, 0, 0, 0, 0⟩).world.log =
        (World.start 2).log ++ [Ev.send_config_pkt 0 cfg_mode.WILC_GET_CFG wids] ++
          (if (env_ok.send_config_pkt (World.start 2).cfg_calls
              ⟨0, cfg_mode.WILC_GET_CFG, wids⟩).result ≠ 0
            then []
          else if (wilc_get_statistics env_ok (World.start 2) 0 ⟨11, 0, 0, 0, 0⟩).stats.link_speed
              = env_ok.h.DEFAULT_LINK_SPEED
            then []
          else if (wilc_get_statistics env_ok (World.start 2) 0 ⟨11, 0, 0, 0, 0⟩).stats.link_speed >
              env_ok.h.TCP_ACK_FILTER_LINK_SPEED_THRESH
            then [Ev.wilc_enable_tcp_ack_filter 0 true]
          else [Ev.wilc_enable_tcp_ack_filter 0 false]) :=
  wilc_get_statistics_filter env_ok (World.start 2) 0 ⟨11, 0, 0, 0, 0⟩
    (fun _ _ => ⟨(by decide : (-2147483648 : Int) ≤ 0), (by decide : (0 : Int) < 2147483648)⟩)

/-! ## Buffered EAP frames -/

set_option maxRecDepth 100000 in
/-- C27: `wilc_send_buffered_eap` at a call whose task record is allocated and whose copy
buffer of `size + pkt_offset = 4` bytes is not: the call has no defined result (the four
bytes are stored through the `NULL` pointer), where the claim has it return an
out-of-memory error; the same call returns 0 and queues the task when the buffer is
allocated. -/
theorem wilc_send_buffered_eap_alloc_failure :
    wilc_send_buffered_eap env_second_alloc_fails (World.start 2) (some 0) (some 1) (some 2)
      [1, 2, 3, 4] 4 0 7 = none ∧
    (wilc_send_buffered_eap env_ok (World.start 2) (some 0) (some 1) (some 2)
      [1, 2, 3, 4] 4 0 7).map (fun r => (r.1, r.2.log)) =
      some (0, [Ev.queue_work 0
        (host_if_msg.handle_send_buffered_eap 1 2 (some [1, 2, 3, 4]) 4 0 7)]) := by
  decide

/-! ## Scan timeout -/

/-- C29: on a build for kernels whose scan request carries a per-channel duration, a scan
request that `wilc_scan` accepts arms the scan timer for `duration * ch_list_len + 500` ms
when `scan_type` is `WILC_FW_PASSIVE_SCAN` and `request.duration` is not 0, and for 5000 ms
otherwise; with a 16-bit `duration` and an 8-bit `ch_list_len` the computed value is below
`2 ^ 32`, so it is not reduced in its 32-bit variable. -/
theorem wilc_scan_timeout (env : Env) (s : World) (vif scan_source scan_type : Nat)
    (ch_freq_list : Option (List Nat)) (ch_list_len : Nat) (scan_result_fn : Option Nat)
    (user_arg : Nat) (request : cfg80211_scan_request) (v : wilc_vif) (d : host_if_drv)
    (hv : s.getVif vif = some v) (hd : v.hif_drv = some d)
    (hfree : ∀ j dj, s.getDrv j = some dj →
      dj.hif_state = host_if_state.HOST_IF_IDLE ∨
      dj.hif_state = host_if_state.HOST_IF_CONNECTED)
    (hc : v.connecting = false)
    (hok : ∀ wids,
      (env.send_config_pkt s.cfg_calls ⟨vif, cfg_mode.WILC_SET_CFG, wids⟩).result = 0)
    (hsup : env.scan_duration_supported = true)
    (hdur : request.duration < 65536) (hch : ch_list_len < 256) :
    ∃ r d1, wilc_scan env s vif scan_source scan_type ch_freq_list ch_list_len scan_result_fn
        user_arg request = some r ∧
      r.result = 0 ∧
      r.world.getDrv vif = some d1 ∧
      d1.scan_timer = some
        (if scan_type = env.h.WILC_FW_PASSIVE_SCAN ∧ request.duration ≠ 0 then
          request.duration * ch_list_len + 500
        else 5000) ∧
      request.duration * ch_list_len + 500 < 4294967296 := by
  have h : s.getDrv vif = some d := (getDrv_eq_some_iff s vif d).mpr ⟨v, hv, hd⟩
  have hb : scan_busy s.wilc = false := by
    cases e : scan_busy s.wilc with
    | false => rfl
    | true =>
      obtain ⟨j, dj, hj, h1, h2⟩ := (scan_busy_iff s).mp e
      rcases hfree j dj hj with h3 | h3
      · exact absurd h3 h1
      · exact absurd h3 h2
  have hbound : request.duration * ch_list_len + 500 < 4294967296 := by
    have : request.duration * ch_list_len ≤ 65535 * 255 :=
      Nat.mul_le_mul (by omega) (by omega)
    omega
  have hmod : (request.duration * ch_list_len + 500) % 4294967296 =
      request.duration * ch_list_len + 500 := Nat.mod_eq_of_lt hbound
  unfold wilc_scan
  simp only [hv, h, hb, hc, Bool.false_eq_true, if_false]
  by_cases hn : request.ssids = []
  · simp [hn, hok, h, hsup, hmod, WILC_HIF_SCAN_TIMEOUT_MS]
    exact hbound
  · simp [hn, hok, h, hsup, hmod, WILC_HIF_SCAN_TIMEOUT_MS]
    exact hbound

/-- C29 at a sample input: a passive scan of three channels with a dwell of 120 ms arms the
timer for 860 ms. -/
theorem wilc_scan_timeout_witness :
    ∃ r d1, wilc_scan env_ok (World.start 2) 0 0 0 (some [1, 6, 11]) 3 (some 7) 9
        ⟨[], [], 0, 120⟩ = some r ∧
      r.result = 0 ∧
      r.world.getDrv 0 = some d1 ∧
      d1.scan_timer = some 860 ∧
      120 * 3 + 500 < 4294967296 :=
  wilc_scan_timeout env_ok (World.start 2) 0 0 0 (some [1, 6, 11]) 3 (some 7) 9
    ⟨[], [], 0, 120⟩ ⟨0, false, some hif_drv_init⟩ hif_drv_init rfl rfl
    (fun j dj hj => Or.inl (state_start_cases 2 j dj.hif_state (by simp [World.state, hj])))
    rfl (fun _ => rfl) rfl (by decide) (by decide)

/-! ## Lengths of inbound frames -/

theorem is_callback_queue_work (vif : Nat) (m : host_if_msg) :
    is_callback (Ev.queue_work vif m) = false := rfl

theorem is_callback_kfree (vif : Nat) (o : heap_obj) :
    is_callback (Ev.kfree vif o) = false := rfl

theorem frame_id_eq (buffer : List Nat) (length : Nat) (h4 : 4 ≤ length)
    (h32 : length < 4294967296) :
    frame_id buffer length = int_of_u32 (get_unaligned_le32 buffer (length - 4)) := by
  unfold frame_id
  have e : (length % 4294967296 + 4294967296 - 4) % 4294967296 = length - 4 := by omega
  rw [e]

theorem get_le16_lt (buf : List Nat) (off : Nat) : get_le16 buf off < 65536 := by
  unfold get_le16
  omega

/-- C22: for a frame of `length` bytes (at least 4, fitting 32 bits) all three decoders
resolve the interface from the little-endian 32-bit value at offset `length - 4`, the last
four bytes. When that resolves to an interface with a driver context and the allocations
and the submission succeed: `wilc_gnrl_async_info_received` (a connect-result callback
being registered) queues for that interface a task whose MAC status is the byte at offset
7; `wilc_network_info_received` queues a task with `frame_len` the 16-bit value of (the
little-endian 16-bit value at offsets 6..7) minus 1, which is that value minus 1 when it is
at least 1, `rssi` the byte at offset 8 and `mgmt` the `frame_len` bytes from offset 9 on,
exactly `frame_len` of them when the buffer holds that many; and
`wilc_scan_complete_received` (a scan-result callback being registered) queues its task. -/
theorem decoders_fields (env : Env) (s : World) (buffer : List Nat) (length vif : Nat)
    (d : host_if_drv) (h4 : 4 ≤ length) (h32 : length < 4294967296)
    (hvif : wilc_get_vif_from_idx env.h s.wilc
      (int_of_u32 (get_unaligned_le32 buffer (length - 4))) = some vif)
    (hdrv : s.getDrv vif = some d)
    (ha1 : env.kmalloc s.allocs = true) (ha2 : env.kmalloc (s.allocs + 1) = true)
    (hq1 : env.queue_work (s.allocs + 1) = true)
    (hq2 : env.queue_work (s.allocs + 2) = true) :
    frame_id buffer length = int_of_u32 (get_unaligned_le32 buffer (length - 4)) ∧
    (d.conn_info.conn_result ≠ none →
      (wilc_gnrl_async_info_received env s buffer length).log = s.log ++
        [Ev.queue_work vif (host_if_msg.handle_rcvd_gnrl_async_info (buffer.getD 7 0))]) ∧
    (wilc_network_info_received env s buffer length).log = s.log ++
      [Ev.queue_work vif (host_if_msg.handle_rcvd_ntwrk_info
        ((get_le16 buffer 6 + 65535) % 65536) (buffer.getD 8 0)
        ((buffer.drop 9).take ((get_le16 buffer 6 + 65535) % 65536)))] ∧
    (1 ≤ get_le16 buffer 6 →
      (get_le16 buffer 6 + 65535) % 65536 = get_le16 buffer 6 - 1) ∧
    (9 + (get_le16 buffer 6 + 65535) % 65536 ≤ buffer.length →
      ((buffer.drop 9).take ((get_le16 buffer 6 + 65535) % 65536)).length =
        (get_le16 buffer 6 + 65535) % 65536) ∧
    (d.usr_scan_req.scan_result ≠ none →
      (wilc_scan_complete_received env s buffer length).log = s.log ++
        [Ev.queue_work vif host_if_msg.handle_scan_complete]) := by
  have hid := frame_id_eq buffer length h4 h32
  have hlt := get_le16_lt buffer 6
  have ha : (kmalloc env s).2.allocs = s.allocs + 1 := rfl
  have hb : (kmalloc env (kmalloc env s).2).2.allocs = s.allocs + 2 := rfl
  refine ⟨hid, ?_, ?_, ?_, ?_, ?_⟩
  · intro hcb
    unfold wilc_gnrl_async_info_received
    simp only [hid, hvif, hdrv, wilc_alloc_work, wilc_enqueue_work, ok_kmalloc, ha1, ha, hq1, hcb]
    simp
  · unfold wilc_network_info_received
    simp only [hid, hvif, hdrv, wilc_alloc_work, wilc_enqueue_work, ok_kmalloc, ha1, ha, ha2,
      hb, hq2]
    simp
  · intro h1
    omega
  · intro hl
    rw [List.length_take, List.length_drop]
    omega
  · intro hcb
    unfold wilc_scan_complete_received
    simp only [hid, hvif, hdrv, wilc_alloc_work, wilc_enqueue_work, ok_kmalloc, ha1, ha, hq1, hcb]
    simp [hcb]

set_option maxRecDepth 100000 in
/-- C22 at a sample input: a frame of 15 bytes for interface index 1 whose length field at
offsets 6..7 is 3, on a world where interface 0 has both callbacks registered. -/
theorem decoders_fields_witness :
    frame_id [73, 0, 15, 0, 0, 0, 3, 0, 200, 9, 8, 1, 0, 0, 0] 15 =
      int_of_u32 (get_unaligned_le32 [73, 0, 15, 0, 0, 0, 3, 0, 200, 9, 8, 1, 0, 0, 0] (15 - 4)) ∧
    ((sample_drv host_if_state.HOST_IF_IDLE null_bssid).conn_info.conn_result ≠ none →
      (wilc_gnrl_async_info_received env_ok (sample_world host_if_state.HOST_IF_IDLE null_bssid)
        [73, 0, 15, 0, 0, 0, 3, 0, 200, 9, 8, 1, 0, 0, 0] 15).log =
        (sample_world host_if_state.HOST_IF_IDLE null_bssid).log ++
        [Ev.queue_work 0 (host_if_msg.handle_rcvd_gnrl_async_info
          (([73, 0, 15, 0, 0, 0, 3, 0, 200, 9, 8, 1, 0, 0, 0] : List Nat).getD 7 0))]) ∧
    (wilc_network_info_received env_ok (sample_world host_if_state.HOST_IF_IDLE null_bssid)
      [73, 0, 15, 0, 0, 0, 3, 0, 200, 9, 8, 1, 0, 0, 0] 15).log =
      (sample_world host_if_state.HOST_IF_IDLE null_bssid).log ++
      [Ev.queue_work 0 (host_if_msg.handle_rcvd_ntwrk_info 2 200 [9, 8])] ∧
    (1 ≤ get_le16 [73, 0, 15, 0, 0, 0, 3, 0, 200, 9, 8, 1, 0, 0, 0] 6 →
      (get_le16 [73, 0, 15, 0, 0, 0, 3, 0, 200, 9, 8, 1, 0, 0, 0] 6 + 65535) % 65536 =
        get_le16 [73, 0, 15, 0, 0, 0, 3, 0, 200, 9, 8, 1, 0, 0, 0] 6 - 1) ∧
    (9 + (get_le16 [73, 0, 15, 0, 0, 0, 3, 0, 200, 9, 8, 1, 0, 0, 0] 6 + 65535) % 65536 ≤
        ([73, 0, 15, 0, 0, 0, 3, 0, 200, 9, 8, 1, 0, 0, 0] : List Nat).length →
      ((([73, 0, 15, 0, 0, 0, 3, 0, 200, 9, 8, 1, 0, 0, 0] : List Nat).drop 9).take
        ((get_le16 [73, 0, 15, 0, 0, 0, 3, 0, 200, 9, 8, 1, 0, 0, 0] 6 + 65535) % 65536)).length =
        (get_le16 [73, 0, 15, 0, 0, 0, 3, 0, 200, 9, 8, 1, 0, 0, 0] 6 + 65535) % 65536) ∧
    ((sample_drv host_if_state.HOST_IF_IDLE null_bssid).usr_scan_req.scan_result ≠ none →
      (wilc_scan_complete_received env_ok (sample_world host_if_state.HOST_IF_IDLE null_bssid)
        [73, 0, 15, 0, 0, 0, 3, 0, 200, 9, 8, 1, 0, 0, 0] 15).log =
        (sample_world host_if_state.HOST_IF_IDLE null_bssid).log ++
        [Ev.queue_work 0 host_if_msg.handle_scan_complete]) :=
  decoders_fields env_ok (sample_world host_if_state.HOST_IF_IDLE null_bssid)
    [73, 0, 15, 0, 0, 0, 3, 0, 200, 9, 8, 1, 0, 0, 0] 15 0
    (sample_drv host_if_state.HOST_IF_IDLE null_bssid) (by decide) (by decide) (by decide)
    (by decide) rfl rfl rfl rfl

/-! ## Beacon -/

theorem poke_nil (buf : List Nat) (off : Nat) : poke buf off [] = buf := by
  unfold poke
  simp

theorem poke_zero_tail (pre bytes : List Nat) (m off : Nat) (hoff : off = pre.length) :
    poke (pre ++ List.replicate m 0) off bytes =
      (pre ++ bytes) ++ List.replicate (m - bytes.length) 0 := by
  subst hoff
  unfold poke
  rw [List.take_left' rfl, List.drop_append]
  simp

theorem length_put_unaligned_le32 (v : Nat) : (put_unaligned_le32 v).length = 4 := rfl

theorem get_put_unaligned_le32 (v : Nat) (rest : List Nat) (hv : v < 4294967296) :
    get_unaligned_le32 (put_unaligned_le32 v ++ rest) 0 = v := by
  unfold get_unaligned_le32 put_unaligned_le32
  simp
  omega

theorem get_unaligned_le32_append (pre l : List Nat) (off : Nat) (h : off = pre.length) :
    get_unaligned_le32 (pre ++ l) off = get_unaligned_le32 l 0 := by
  subst h
  unfold get_unaligned_le32
  simp [List.getD_eq_getElem?_getD, List.getElem?_append_right]

theorem beacon_bytes_eq (interval dtim_period : Nat) (params : cfg80211_beacon_data)
    (hh : params.head.length = params.head_len) (ht : params.tail.length = params.tail_len) :
    beacon_bytes (params.head_len + params.tail_len + 16) interval dtim_period params =
      put_unaligned_le32 interval ++ put_unaligned_le32 dtim_period ++
        put_unaligned_le32 params.head_len ++ params.head ++
        put_unaligned_le32 params.tail_len ++ params.tail := by
  have ifh : ∀ (buf : List Nat) (cur : Nat),
      (if params.head_len > 0 then poke buf cur (params.head.take params.head_len) else buf) =
        poke buf cur params.head := by
    intro buf cur
    rw [List.take_of_length_le (by omega)]
    split
    · rfl
    · have : params.head = [] := List.length_eq_zero.mp (by omega)
      rw [this, poke_nil]
  have ift : ∀ (buf : List Nat) (cur : Nat),
      (if params.tail_len > 0 then poke buf cur (params.tail.take params.tail_len) else buf) =
        poke buf cur params.tail := by
    intro buf cur
    rw [List.take_of_length_le (by omega)]
    split
    · rfl
    · have : params.tail = [] := List.length_eq_zero.mp (by omega)
      rw [this, poke_nil]
  unfold beacon_bytes
  simp only [ifh, ift]
  have e0 : List.replicate (params.head_len + params.tail_len + 16) 0 =
      ([] : List Nat) ++ List.replicate (params.head_len + params.tail_len + 16) 0 := rfl
  rw [e0, poke_zero_tail [] _ _ 0 rfl, poke_zero_tail _ _ _ 4 (by rfl),
    poke_zero_tail _ _ _ (4 + 4) (by rfl), poke_zero_tail _ _ _ (4 + 4 + 4) (by rfl),
    poke_zero_tail _ _ _ (4 + 4 + 4 + params.head_len)
      (by simp only [List.length_append, List.length_nil, length_put_unaligned_le32, hh]),
    poke_zero_tail _ _ _ (4 + 4 + 4 + params.head_len + 4)
      (by simp only [List.length_append, List.length_nil, length_put_unaligned_le32, hh])]
  have ez : params.head_len + params.tail_len + 16 - (put_unaligned_le32 interval).length -
      (put_unaligned_le32 dtim_period).length - (put_unaligned_le32 params.head_len).length -
      params.head.length - (put_unaligned_le32 params.tail_len).length -
      params.tail.length = 0 := by
    simp only [length_put_unaligned_le32]
    omega
  rw [ez]
  simp

/-- C30: for every interval, DTIM period, head and tail (the two buffers holding `head_len`
and `tail_len` bytes), `wilc_add_beacon`, when its buffer is allocated, makes one SET of
`WID_ADD_BEACON` with size `head_len + tail_len + 16` and a value of exactly that many
bytes, equal to `LE32(interval) ++ LE32(dtim_period) ++ LE32(head_len) ++ head ++
LE32(tail_len) ++ tail`; reading the value back at those offsets gives the six fields
(the four numbers being 32-bit values). The result is that of the transport. -/
theorem wilc_add_beacon_layout (env : Env) (s : World) (vif interval dtim_period : Nat)
    (params : cfg80211_beacon_data)
    (halloc : env.kmalloc s.allocs = true)
    (hh : params.head.length = params.head_len) (ht : params.tail.length = params.tail_len)
    (hi : interval < 4294967296) (hd : dtim_period < 4294967296)
    (hhl : params.head_len < 4294967296) (htl : params.tail_len < 4294967296) :
    ∃ val,
      val = put_unaligned_le32 interval ++ put_unaligned_le32 dtim_period ++
        put_unaligned_le32 params.head_len ++ params.head ++
        put_unaligned_le32 params.tail_len ++ params.tail ∧
      val.length = params.head_len + params.tail_len + 16 ∧
      (wilc_add_beacon env s vif interval dtim_period params).2.log = s.log ++
        [Ev.send_config_pkt vif cfg_mode.WILC_SET_CFG
          [⟨wid_id.WID_ADD_BEACON, wid_type.WID_BIN,
            params.head_len + params.tail_len + 16, val⟩],
         Ev.kfree vif heap_obj.wid_val] ∧
      (wilc_add_beacon env s vif interval dtim_period params).1 =
        (env.send_config_pkt s.cfg_calls ⟨vif, cfg_mode.WILC_SET_CFG,
          [⟨wid_id.WID_ADD_BEACON, wid_type.WID_BIN,
            params.head_len + params.tail_len + 16, val⟩]⟩).result ∧
      get_unaligned_le32 val 0 = interval ∧
      get_unaligned_le32 val 4 = dtim_period ∧
      get_unaligned_le32 val 8 = params.head_len ∧
      (val.drop 12).take params.head_len = params.head ∧
      get_unaligned_le32 val (12 + params.head_len) = params.tail_len ∧
      val.drop (16 + params.head_len) = params.tail := by
  refine ⟨_, rfl, ?_, ?_, ?_, ?_, ?_, ?_, ?_, ?_, ?_⟩
  · simp only [List.length_append, length_put_unaligned_le32, hh, ht]
    omega
  · unfold wilc_add_beacon
    simp only [ok_kmalloc, halloc, Bool.true_eq_false, if_false, beacon_bytes_eq _ _ _ hh ht]
    simp [log_kfree]
  · unfold wilc_add_beacon
    simp only [ok_kmalloc, halloc, Bool.true_eq_false, if_false, beacon_bytes_eq _ _ _ hh ht]
    rfl
  · simp only [List.append_assoc]
    exact get_put_unaligned_le32 interval _ hi
  · have e : put_unaligned_le32 interval ++ put_unaligned_le32 dtim_period ++
        put_unaligned_le32 params.head_len ++ params.head ++
        put_unaligned_le32 params.tail_len ++ params.tail =
        put_unaligned_le32 interval ++ (put_unaligned_le32 dtim_period ++
          (put_unaligned_le32 params.head_len ++ params.head ++
          put_unaligned_le32 params.tail_len ++ params.tail)) := by
      simp only [List.append_assoc]
    rw [e, get_unaligned_le32_append _ _ 4 (by rfl)]
    exact get_put_unaligned_le32 dtim_period _ hd
  · have e : put_unaligned_le32 interval ++ put_unaligned_le32 dtim_period ++
        put_unaligned_le32 params.head_len ++ params.head ++
        put_unaligned_le32 params.tail_len ++ params.tail =
        (put_unaligned_le32 interval ++ put_unaligned_le32 dtim_period) ++
          (put_unaligned_le32 params.head_len ++ (params.head ++
          put_unaligned_le32 params.tail_len ++ params.tail)) := by
      simp only [List.append_assoc]
    rw [e, get_unaligned_le32_append _ _ 8 (by rfl)]
    exact get_put_unaligned_le32 params.head_len _ hhl
  · have e : put_unaligned_le32 interval ++ put_unaligned_le32 dtim_period ++
        put_unaligned_le32 params.head_len ++ params.head ++
        put_unaligned_le32 params.tail_len ++ params.tail =
        (put_unaligned_le32 interval ++ put_unaligned_le32 dtim_period ++
          put_unaligned_le32 params.head_len) ++
          (params.head ++ (put_unaligned_le32 params.tail_len ++ params.tail)) := by
      simp only [List.append_assoc]
    rw [e, List.drop_left' (by rfl), List.take_left' hh]
  · have e : put_unaligned_le32 interval ++ put_unaligned_le32 dtim_period ++
        put_unaligned_le32 params.head_len ++ params.head ++
        put_unaligned_le32 params.tail_len ++ params.tail =
        (put_unaligned_le32 interval ++ put_unaligned_le32 dtim_period ++
          put_unaligned_le32 params.head_len ++ params.head) ++
          (put_unaligned_le32 params.tail_len ++ params.tail) := by
      simp only [List.append_assoc]
    rw [e, get_unaligned_le32_append _ _ (12 + params.head_len)
      (by simp only [List.length_append, length_put_unaligned_le32, hh])]
    exact get_put_unaligned_le32 params.tail_len _ htl
  · have e : put_unaligned_le32 interval ++ put_unaligned_le32 dtim_period ++
        put_unaligned_le32 params.head_len ++ params.head ++
        put_unaligned_le32 params.tail_len ++ params.tail =
        (put_unaligned_le32 interval ++ put_unaligned_le32 dtim_period ++
          put_unaligned_le32 params.head_len ++ params.head ++
          put_unaligned_le32 params.tail_len) ++ params.tail := by
      simp only [List.append_assoc]
    rw [e, List.drop_left' (by
      simp only [List.length_append, length_put_unaligned_le32, hh]
      omega)]

set_option maxRecDepth 100000 in
/-- C30 at the sample beacon, interval 100 and DTIM period 2: the 21 bytes sent. -/
theorem wilc_add_beacon_layout_witness :
    ∃ val,
      val = [100, 0, 0, 0, 2, 0, 0, 0, 3, 0, 0, 0, 128, 0, 7, 2, 0, 0, 0, 221, 9] ∧
      val.length = 3 + 2 + 16 ∧
      (wilc_add_beacon env_ok (World.start 2) 0 100 2 sample_beacon).2.log =
        (World.start 2).log ++
        [Ev.send_config_pkt 0 cfg_mode.WILC_SET_CFG
          [⟨wid_id.WID_ADD_BEACON, wid_type.WID_BIN, 3 + 2 + 16, val⟩],
         Ev.kfree 0 heap_obj.wid_val] ∧
      (wilc_add_beacon env_ok (World.start 2) 0 100 2 sample_beacon).1 =
        (env_ok.send_config_pkt (World.start 2).cfg_calls ⟨0, cfg_mode.WILC_SET_CFG,
          [⟨wid_id.WID_ADD_BEACON, wid_type.WID_BIN, 3 + 2 + 16, val⟩]⟩).result ∧
      get_unaligned_le32 val 0 = 100 ∧
      get_unaligned_le32 val 4 = 2 ∧
      get_unaligned_le32 val 8 = 3 ∧
      (val.drop 12).take 3 = [128, 0, 7] ∧
      get_unaligned_le32 val (12 + 3) = 2 ∧
      val.drop (16 + 3) = [221, 9] :=
  wilc_add_beacon_layout env_ok (World.start 2) 0 100 2 sample_beacon rfl rfl rfl (by decide)
    (by decide) (by decide) (by decide)

/-! ## Join parameters -/

theorem find_ie_from_whole (eid fuel : Nat) (l e : List Nat)
    (h : find_ie_from eid fuel l = some e) :
    ∃ len rest, e = eid :: len :: rest ∧ len ≤ rest.length := by
  induction fuel generalizing l with
  | zero => simp [find_ie_from] at h
  | succ n ih =>
    match l, h with
    | id :: len :: rest, h =>
      simp only [find_ie_from] at h
      by_cases h1 : len ≤ rest.length
      · rw [if_pos h1] at h
        by_cases h2 : id = eid
        · rw [if_pos h2] at h
          cases h
          exact ⟨len, rest, by rw [h2], h1⟩
        · rw [if_neg h2] at h
          exact ih _ h
      · rw [if_neg h1] at h
        cases h
    | [], h => simp [find_ie_from] at h
    | [_], h => simp [find_ie_from] at h

theorem cfg80211_find_ie_whole (eid : Nat) (ies e : List Nat)
    (h : cfg80211_find_ie eid ies = some e) :
    ∃ len rest, e = eid :: len :: rest ∧ len ≤ rest.length :=
  find_ie_from_whole eid ies.length ies e h

theorem ie_payload_length (eid : Nat) (ies : List Nat) :
    (ie_payload (cfg80211_find_ie eid ies)).length = ie_len (cfg80211_find_ie eid ies) := by
  cases h : cfg80211_find_ie eid ies with
  | none => rfl
  | some e =>
    obtain ⟨len, rest, rfl, hl⟩ := cfg80211_find_ie_whole eid ies e h
    simp [ie_payload, ie_len, hl]

theorem poke_head (a c : Nat) (l : List Nat) : poke (a :: l) 0 [c] = c :: l := by
  simp [poke]

theorem supp_stage1 (M rl : Nat) (P : List Nat) (hP : P.length = rl) :
    poke (poke (List.replicate (M + 1) 0) 0 [rl]) 1 P =
      [rl] ++ P ++ List.replicate (M - rl) 0 := by
  have e0 : List.replicate (M + 1) 0 = 0 :: List.replicate M 0 := rfl
  rw [e0, poke_head]
  have e1 : rl :: List.replicate M 0 = [rl] ++ List.replicate M 0 := rfl
  rw [e1, poke_zero_tail [rl] P M 1 rfl, hP]

theorem supp_stage2 (M rl cnt : Nat) (P X : List Nat) (hP : P.length = rl)
    (hX : X.length = cnt - rl) (h : rl ≤ cnt) :
    poke (poke ([rl] ++ P ++ List.replicate (M - rl) 0) 0 [cnt]) (rl + 1) X =
      [cnt] ++ P ++ X ++ List.replicate (M - cnt) 0 := by
  have e0 : [rl] ++ P ++ List.replicate (M - rl) 0 = rl :: (P ++ List.replicate (M - rl) 0) := by
    simp
  rw [e0, poke_head]
  have e1 : cnt :: (P ++ List.replicate (M - rl) 0) =
      ([cnt] ++ P) ++ List.replicate (M - rl) 0 := by simp
  rw [e1, poke_zero_tail ([cnt] ++ P) X (M - rl) (rl + 1) (by simp [hP]), hX]
  have e2 : M - rl - (cnt - rl) = M - cnt := by omega
  rw [e2]

theorem supp_final (M rl e : Nat) (P PE : List Nat) (hM : M < 256) (hP : P.length = rl)
    (hrl : rl ≤ M) (hPE : e ≤ PE.length) :
    (if rl < M then
      poke (poke ([rl] ++ P ++ List.replicate (M - rl) 0) 0
          [if e > M - rl then M % 256
            else (([rl] ++ P ++ List.replicate (M - rl) 0).getD 0 0 + e) % 256])
        (rl + 1)
        (PE.take ((if e > M - rl then M % 256
            else (([rl] ++ P ++ List.replicate (M - rl) 0).getD 0 0 + e) % 256) - rl))
    else [rl] ++ P ++ List.replicate (M - rl) 0) =
      [min M (rl + e)] ++ P ++ PE.take (min M (rl + e) - rl) ++
        List.replicate (M - min M (rl + e)) 0 := by
  have hg : ([rl] ++ P ++ List.replicate (M - rl) 0).getD 0 0 = rl := by simp
  rw [hg]
  by_cases h : rl < M
  · rw [if_pos h]
    by_cases he : e > M - rl
    · have hm : min M (rl + e) = M := by omega
      rw [if_pos he, Nat.mod_eq_of_lt hM, hm]
      exact supp_stage2 M rl M P _ hP (by rw [List.length_take]; omega) hrl
    · have hm : min M (rl + e) = rl + e := by omega
      rw [if_neg he, Nat.mod_eq_of_lt (by omega), hm]
      exact supp_stage2 M rl (rl + e) P _ hP (by rw [List.length_take]; omega) (by omega)
  · have hm : min M (rl + e) = M := by omega
    have hrM : rl = M := by omega
    rw [if_neg h, hm, hrM]
    simp

/-- C23: with `r` and `e` the lengths of the supported-rates and extended-supported-rates
elements of the information elements (0 when the element is absent) and
`M = WILC_MAX_RATES_SUPPORTED` (a value that fits the `u8` count), the `supp_rates` array
of the join parameters `wilc_parse_join_bss_param` builds is: the count `min M (r + e)`,
then the first `min r M` supported rates, then the first `min M (r + e) - min r M`
extended rates, then zeros up to the `M + 1` bytes of the array; the array keeps its
length, so no byte beyond `supp_rates[M]` is written. -/
theorem wilc_parse_join_bss_param_rates (env : Env) (s : World) (ies : List Nat)
    (halloc : env.kmalloc s.allocs = true)
    (hM : env.h.WILC_MAX_RATES_SUPPORTED < 256) :
    ∃ p, (wilc_parse_join_bss_param env s ies).1 = some p ∧
      p.supp_rates =
        [min env.h.WILC_MAX_RATES_SUPPORTED
          (ie_len (cfg80211_find_ie WLAN_EID_SUPP_RATES ies) +
            ie_len (cfg80211_find_ie WLAN_EID_EXT_SUPP_RATES ies))] ++
        (ie_payload (cfg80211_find_ie WLAN_EID_SUPP_RATES ies)).take
          (min (ie_len (cfg80211_find_ie WLAN_EID_SUPP_RATES ies))
            env.h.WILC_MAX_RATES_SUPPORTED) ++
        (ie_payload (cfg80211_find_ie WLAN_EID_EXT_SUPP_RATES ies)).take
          (min env.h.WILC_MAX_RATES_SUPPORTED
            (ie_len (cfg80211_find_ie WLAN_EID_SUPP_RATES ies) +
              ie_len (cfg80211_find_ie WLAN_EID_EXT_SUPP_RATES ies)) -
            min (ie_len (cfg80211_find_ie WLAN_EID_SUPP_RATES ies))
              env.h.WILC_MAX_RATES_SUPPORTED) ++
        List.replicate (env.h.WILC_MAX_RATES_SUPPORTED -
          min env.h.WILC_MAX_RATES_SUPPORTED
            (ie_len (cfg80211_find_ie WLAN_EID_SUPP_RATES ies) +
              ie_len (cfg80211_find_ie WLAN_EID_EXT_SUPP_RATES ies))) 0 ∧
      p.supp_rates.length = env.h.WILC_MAX_RATES_SUPPORTED + 1 := by
  generalize hMd : env.h.WILC_MAX_RATES_SUPPORTED = M at hM ⊢
  have hPR := ie_payload_length WLAN_EID_SUPP_RATES ies
  have hPE := ie_payload_length WLAN_EID_EXT_SUPP_RATES ies
  -- the array in terms of the two elements
  have key : (wilc_parse_join_bss_param env s ies).1 =
      some ⟨(match cfg80211_find_ie WLAN_EID_SSID ies with
        | some ssid_elm =>
          if ssid_elm.getD 1 0 ≤ IEEE80211_MAX_SSID_LEN then
            poke (List.replicate IEEE80211_MAX_SSID_LEN 0) 0
              ((ssid_elm.drop 2).take (ssid_elm.getD 1 0))
          else List.replicate IEEE80211_MAX_SSID_LEN 0
        | none => List.replicate IEEE80211_MAX_SSID_LEN 0),
        [min M (ie_len (cfg80211_find_ie WLAN_EID_SUPP_RATES ies) +
            ie_len (cfg80211_find_ie WLAN_EID_EXT_SUPP_RATES ies))] ++
        (ie_payload (cfg80211_find_ie WLAN_EID_SUPP_RATES ies)).take
          (min (ie_len (cfg80211_find_ie WLAN_EID_SUPP_RATES ies)) M) ++
        (ie_payload (cfg80211_find_ie WLAN_EID_EXT_SUPP_RATES ies)).take
          (min M (ie_len (cfg80211_find_ie WLAN_EID_SUPP_RATES ies) +
              ie_len (cfg80211_find_ie WLAN_EID_EXT_SUPP_RATES ies)) -
            min (ie_len (cfg80211_find_ie WLAN_EID_SUPP_RATES ies)) M) ++
        List.replicate (M - min M (ie_len (cfg80211_find_ie WLAN_EID_SUPP_RATES ies) +
              ie_len (cfg80211_find_ie WLAN_EID_EXT_SUPP_RATES ies))) 0⟩ := by
    unfold wilc_parse_join_bss_param
    simp only [ok_kmalloc, halloc, Bool.true_eq_false, if_false, hMd]
    congr 2
    generalize cfg80211_find_ie WLAN_EID_SUPP_RATES ies = R at hPR ⊢
    generalize cfg80211_find_ie WLAN_EID_EXT_SUPP_RATES ies = E at hPE ⊢
    cases R with
    | none =>
      have s1 : List.replicate (M + 1) 0 =
          [0] ++ ([] : List Nat) ++ List.replicate (M - 0) 0 := rfl
      cases E with
      | none =>
        simp only [ie_len, ie_payload]
        simp
        rfl
      | some eE =>
        simp only [ie_len, ie_payload] at hPE ⊢
        generalize eE.getD 1 0 = e at hPE ⊢
        generalize eE.drop 2 = PE at hPE ⊢
        have hle : e ≤ PE.length := by rw [List.length_take] at hPE; omega
        rw [s1, supp_final M 0 e [] PE hM rfl (Nat.zero_le M) hle, List.take_take]
        have e1 : min (min M (0 + e) - min 0 M) e = min M (0 + e) - 0 := by omega
        rw [e1]
        simp
    | some eR =>
      simp only [ie_len, ie_payload] at hPR ⊢
      generalize eR.getD 1 0 = r at hPR ⊢
      generalize eR.drop 2 = PR at hPR ⊢
      have hler : r ≤ PR.length := by rw [List.length_take] at hPR; omega
      have hrl : (if r > M then M % 256 else r) = min r M := by
        rw [Nat.mod_eq_of_lt hM]
        split <;> omega
      rw [hrl, supp_stage1 M (min r M) _ (by rw [List.length_take]; omega)]
      have hP : (List.take (min r M) PR).length = min r M := by
        rw [List.length_take]; omega
      have tP : List.take (min r M) (List.take r PR) = List.take (min r M) PR := by
        rw [List.take_take]
        congr 1
        omega
      rw [tP]
      cases E with
      | none =>
        simp only [ie_len, ie_payload, ite_self]
        have e1 : min M (r + 0) = min r M := by omega
        rw [e1]
        simp
      | some eE =>
        simp only [ie_len, ie_payload] at hPE ⊢
        generalize eE.getD 1 0 = e at hPE ⊢
        generalize eE.drop 2 = PE at hPE ⊢
        have hle : e ≤ PE.length := by rw [List.length_take] at hPE; omega
        rw [supp_final M (min r M) e _ PE hM hP (by omega) hle, List.take_take]
        have e1 : min M (min r M + e) = min M (r + e) := by omega
        have e2 : min (min M (r + e) - min r M) e = min M (r + e) - min r M := by omega
        rw [e1, e2]
  refine ⟨_, key, rfl, ?_⟩
  simp only [List.length_append, List.length_take, List.length_replicate, List.length_singleton,
    hPR, hPE]
  omega

set_option maxRecDepth 100000 in
/-- C23 at the sample elements: 8 supported and 6 extended rates with `M = 12` give the
count 12, the 8 supported rates and the first 4 extended rates. -/
theorem wilc_parse_join_bss_param_rates_witness :
    ∃ p, (wilc_parse_join_bss_param env_ok (World.start 2) sample_ies).1 = some p ∧
      p.supp_rates = [12, 130, 132, 139, 150, 12, 18, 24, 36, 48, 72, 96, 108] ∧
      p.supp_rates.length = 12 + 1 :=
  wilc_parse_join_bss_param_rates env_ok (World.start 2) sample_ies rfl (by decide)

set_option maxRecDepth 100000 in
/-- C24, counterexample: for an SSID element of 33 bytes the `ssid` field is not the first
32 bytes of the payload: it is all zero. -/
theorem wilc_parse_join_bss_param_ssid_counterexample :
    ie_len (cfg80211_find_ie WLAN_EID_SSID long_ssid_ies) = 33 ∧
    (wilc_parse_join_bss_param env_ok (World.start 2) long_ssid_ies).1.map (fun p => p.ssid) =
      some (List.replicate 32 0) ∧
    (wilc_parse_join_bss_param env_ok (World.start 2) long_ssid_ies).1.map (fun p => p.ssid) ≠
      some ((ie_payload (cfg80211_find_ie WLAN_EID_SSID long_ssid_ies)).take
        (min 33 IEEE80211_MAX_SSID_LEN)) := by
  decide

/-- C24, amended: for an SSID element of length `L` (0 when there is none) the `ssid` field
of the join parameters, an array of `IEEE80211_MAX_SSID_LEN` bytes, holds the `L` bytes of
the payload followed by zeros when `L ≤ IEEE80211_MAX_SSID_LEN`; an SSID longer than the
maximum is discarded, not truncated: the field is then all zero. -/
theorem wilc_parse_join_bss_param_ssid (env : Env) (s : World) (ies : List Nat)
    (halloc : env.kmalloc s.allocs = true) :
    ∃ p, (wilc_parse_join_bss_param env s ies).1 = some p ∧
      p.ssid.length = IEEE80211_MAX_SSID_LEN ∧
      (ie_len (cfg80211_find_ie WLAN_EID_SSID ies) ≤ IEEE80211_MAX_SSID_LEN →
        p.ssid = ie_payload (cfg80211_find_ie WLAN_EID_SSID ies) ++
          List.replicate
            (IEEE80211_MAX_SSID_LEN - ie_len (cfg80211_find_ie WLAN_EID_SSID ies)) 0) ∧
      (IEEE80211_MAX_SSID_LEN < ie_len (cfg80211_find_ie WLAN_EID_SSID ies) →
        p.ssid = List.replicate IEEE80211_MAX_SSID_LEN 0) := by
  have hP := ie_payload_length WLAN_EID_SSID ies
  unfold wilc_parse_join_bss_param
  simp only [ok_kmalloc, halloc, Bool.true_eq_false, if_false]
  refine ⟨_, rfl, ?_⟩
  simp only []
  generalize cfg80211_find_ie WLAN_EID_SSID ies = S at hP ⊢
  cases S with
  | none => simp [ie_len, ie_payload]
  | some e =>
    simp only [ie_len, ie_payload] at hP ⊢
    generalize e.getD 1 0 = L at hP ⊢
    generalize e.drop 2 = P at hP ⊢
    have e0 : List.replicate IEEE80211_MAX_SSID_LEN 0 =
        ([] : List Nat) ++ List.replicate IEEE80211_MAX_SSID_LEN 0 := rfl
    by_cases hL : L ≤ IEEE80211_MAX_SSID_LEN
    · simp only [if_pos hL]
      rw [e0, poke_zero_tail [] _ _ 0 rfl, hP]
      refine ⟨?_, fun _ => ?_, fun h => absurd hL (by omega)⟩
      · simp only [List.nil_append, List.length_append, List.length_replicate, hP]
        omega
      · simp
    · rw [if_neg hL]
      exact ⟨List.length_replicate _ _, fun h => absurd h hL, fun _ => rfl⟩

set_option maxRecDepth 100000 in
/-- C24, amended, at the sample elements: the SSID of 4 bytes followed by 28 zeros. -/
theorem wilc_parse_join_bss_param_ssid_witness :
    ∃ p, (wilc_parse_join_bss_param env_ok (World.start 2) sample_ies).1 = some p ∧
      p.ssid.length = IEEE80211_MAX_SSID_LEN ∧
      (ie_len (cfg80211_find_ie WLAN_EID_SSID sample_ies) ≤ IEEE80211_MAX_SSID_LEN →
        p.ssid = [119, 105, 108, 99] ++ List.replicate 28 0) ∧
      (IEEE80211_MAX_SSID_LEN < ie_len (cfg80211_find_ie WLAN_EID_SSID sample_ies) →
        p.ssid = List.replicate IEEE80211_MAX_SSID_LEN 0) :=
  wilc_parse_join_bss_param_ssid env_ok (World.start 2) sample_ies rfl

set_option maxRecDepth 100000 in
/-- C31: `handle_set_mcast_filter` for one address on a host with 8-byte pointers sends a
`WID_SETUP_MULTICAST_FILTER` value of size 22, not `8 + 6 * 1 = 14`: the two 32-bit fields
and the address are followed by 8 bytes the encoder never writes, here as the allocator
left them (170 with `env_ok`, 0 with `env_zero_garbage`), so the value is not determined by
`(enabled, cnt, mc_list)`; with 4-byte pointers the size is 18. -/
theorem handle_set_mcast_filter_size :
    (handle_set_mcast_filter env_ok (World.start 2) 0 sample_mc).log =
      [Ev.send_config_pkt 0 cfg_mode.WILC_SET_CFG
        [⟨wid_id.WID_SETUP_MULTICAST_FILTER, wid_type.WID_BIN, 22,
          [1, 0, 0, 0] ++ [1, 0, 0, 0] ++ [1, 0, 94, 0, 0, 251] ++ List.replicate 8 170⟩],
       Ev.kfree 0 heap_obj.mc_list, Ev.kfree 0 heap_obj.wid_val, Ev.kfree 0 heap_obj.msg] ∧
    (handle_set_mcast_filter env_zero_garbage (World.start 2) 0 sample_mc).log =
      [Ev.send_config_pkt 0 cfg_mode.WILC_SET_CFG
        [⟨wid_id.WID_SETUP_MULTICAST_FILTER, wid_type.WID_BIN, 22,
          [1, 0, 0, 0] ++ [1, 0, 0, 0] ++ [1, 0, 94, 0, 0, 251] ++ List.replicate 8 0⟩],
       Ev.kfree 0 heap_obj.mc_list, Ev.kfree 0 heap_obj.wid_val, Ev.kfree 0 heap_obj.msg] ∧
    (handle_set_mcast_filter env_32bit (World.start 2) 0 sample_mc).log =
      [Ev.send_config_pkt 0 cfg_mode.WILC_SET_CFG
        [⟨wid_id.WID_SETUP_MULTICAST_FILTER, wid_type.WID_BIN, 18,
          [1, 0, 0, 0] ++ [1, 0, 0, 0] ++ [1, 0, 94, 0, 0, 251] ++ List.replicate 4 170⟩],
       Ev.kfree 0 heap_obj.mc_list, Ev.kfree 0 heap_obj.wid_val, Ev.kfree 0 heap_obj.msg] ∧
    8 + 6 * sample_mc.cnt = 14 := by
  decide

/-! ## Buffer of the SSID attribute -/

set_option maxRecDepth 1000000 in
/-- C32: for a scan request with eight SSIDs of 32 bytes the 8-bit accumulator wraps:
`wilc_scan` allocates 9 bytes and declares an attribute of size 9, and writes 265 bytes
through the buffer. -/
theorem wilc_scan_ssid_overflow :
    search_ssid_vals_size eight_ssids_request.ssids = 9 ∧
    (ssid_probe_bytes eight_ssids_request.ssids).length = 265 ∧
    (wilc_scan env_ok (World.start 2) 0 0 1 (some [1, 6, 11]) 3 (some 7) 9
      eight_ssids_request).map (fun r => r.world.log.take 1) =
      some [Ev.send_config_pkt 0 cfg_mode.WILC_SET_CFG
        [⟨wid_id.WID_SSID_PROBE_REQ, wid_type.WID_STR, 9,
            ssid_probe_bytes eight_ssids_request.ssids⟩,
         ⟨wid_id.WID_INFO_ELEMENT_PROBE, wid_type.WID_BIN_DATA, 0, []⟩,
         ⟨wid_id.WID_SCAN_TYPE, wid_type.WID_CHAR, 1, [1]⟩,
         ⟨wid_id.WID_SCAN_CHANNEL_LIST, wid_type.WID_BIN_DATA, 3, [0, 5, 10]⟩,
         ⟨wid_id.WID_START_SCAN_REQ, wid_type.WID_CHAR, 1, [0]⟩]] := by
  decide

/-! ## Station record and the buffer it is packed into -/

set_option maxRecDepth 100000 in
/-- C33: `wilc_hif_pack_sta_param` on the same parameters (no HT capabilities) and two
buffers of 44 bytes, one holding zeros and one holding 255, gives two different records:
the 26 bytes after the HT flag are those of the buffer. So do two runs of
`handle_add_station` whose allocations hold different bytes. -/
theorem wilc_hif_pack_sta_param_inherits :
    wilc_hif_pack_sta_param (List.replicate 44 0) sample_sta =
      [2, 0, 0, 0, 0, 9, 2, 1, 4, 2, 4, 11, 22, 0] ++ List.replicate 26 0 ++ [3, 0, 1, 2] ∧
    wilc_hif_pack_sta_param (List.replicate 44 255) sample_sta =
      [2, 0, 0, 0, 0, 9, 2, 1, 4, 2, 4, 11, 22, 0] ++ List.replicate 26 255 ++ [3, 0, 1, 2] ∧
    (handle_add_station env_ok (World.start 2) 0 sample_sta).log.take 1 =
      [Ev.send_config_pkt 0 cfg_mode.WILC_SET_CFG [⟨wid_id.WID_ADD_STA, wid_type.WID_BIN, 44,
        [2, 0, 0, 0, 0, 9, 2, 1, 4, 2, 4, 11, 22, 0] ++ List.replicate 26 170 ++
          [3, 0, 1, 2]⟩]] ∧
    (handle_add_station env_zero_garbage (World.start 2) 0 sample_sta).log.take 1 =
      [Ev.send_config_pkt 0 cfg_mode.WILC_SET_CFG [⟨wid_id.WID_ADD_STA, wid_type.WID_BIN, 44,
        [2, 0, 0, 0, 0, 9, 2, 1, 4, 2, 4, 11, 22, 0] ++ List.replicate 26 0 ++
          [3, 0, 1, 2]⟩]] := by
  decide

/-! ## Removal of all stations -/

set_option maxRecDepth 100000 in
/-- C34: `wilc_del_allstation` on a table of nine addresses whose only non-zero entry is at
position 1 sends a `WID_DEL_ALL_STA` value of size 7 that starts with the count 1 and the
all-zero address of position 0: the first 7 bytes, those the size covers, do not hold the
non-zero address, which lies behind them. On a table whose entries are all zero the
function sends nothing and returns 0. -/
theorem wilc_del_allstation_sparse :
    wilc_del_allstation env_ok (World.start 2) 0 sample_sta_table =
      (0, { World.start 2 with
        log := [Ev.send_config_pkt 0 cfg_mode.WILC_SET_CFG
          [⟨wid_id.WID_DEL_ALL_STA, wid_type.WID_STR, 7,
            [1] ++ [0, 0, 0, 0, 0, 0] ++ [2, 0, 0, 0, 0, 7] ++ List.replicate 42 0⟩]],
        cfg_calls := 1 }) ∧
    ([1] ++ [0, 0, 0, 0, 0, 0] ++ [2, 0, 0, 0, 0, 7] ++ List.replicate 42 0).take 7 =
      [1, 0, 0, 0, 0, 0, 0] ∧
    wilc_del_allstation env_ok (World.start 2) 0 (List.replicate 9 null_bssid) =
      (0, World.start 2) := by
  decide

/-! ## Request elements and their length -/

set_option maxRecDepth 100000 in
/-- C35: `wilc_set_join_req` with three bytes of request elements, on interfaces whose
`req_ies` is absent with `req_ies_len = 0`: when the copy cannot be allocated it returns
`-ENOMEM`, when the dispatch fails it returns the failure, when an interface is scanning it
returns `-EBUSY`; each time `req_ies` is absent afterwards and `req_ies_len` is 3. -/
theorem wilc_set_join_req_stale_len :
    ((World.start 2).getDrv 0).map (fun d => (d.conn_info.req_ies, d.conn_info.req_ies_len)) =
      some (none, 0) ∧
    (wilc_set_join_req env_no_memory (World.start 2) 0 (some [2, 0, 0, 0, 0, 1])
      (some [48, 0, 1]) 3).map (fun r => (r.1, (r.2.getDrv 0).map fun d =>
        (d.conn_info.req_ies, d.conn_info.req_ies_len))) = some (-ENOMEM, some (none, 3)) ∧
    (wilc_set_join_req env_fail (World.start 2) 0 (some [2, 0, 0, 0, 0, 1])
      (some [48, 0, 1]) 3).map (fun r => (r.1, (r.2.getDrv 0).map fun d =>
        (d.conn_info.req_ies, d.conn_info.req_ies_len))) = some (-EIO_errno, some (none, 3)) ∧
    ((sample_world host_if_state.HOST_IF_SCANNING null_bssid).getDrv 1).map
      (fun d => (d.conn_info.req_ies, d.conn_info.req_ies_len)) = some (none, 0) ∧
    (wilc_set_join_req env_ok (sample_world host_if_state.HOST_IF_SCANNING null_bssid) 1
      (some [2, 0, 0, 0, 0, 1]) (some [48, 0, 1]) 3).map (fun r => (r.1, (r.2.getDrv 1).map fun d =>
        (d.conn_info.req_ies, d.conn_info.req_ies_len))) = some (-EBUSY, some (none, 3)) :=
  ⟨by decide, by decide, by decide, by decide, by decide⟩

/-! ## Length of the association response -/

set_option maxRecDepth 100000 in
/-- C36: `wilc_parse_assoc_resp_info` on a received length of 1 (the zeroed buffer of 256
bytes with one byte stored, header of 6 bytes): the status read is 0, success, and
`resp_ies_len` is 65531, the 16-bit value of `1 - 6`, which is not below the received
length; the copy is asked for 65531 bytes from offset 6 of the buffer of 256 bytes. The
call returns 0. -/
theorem wilc_parse_assoc_resp_info_short :
    (wilc_parse_assoc_resp_info env_ok (World.start 2) ([1] ++ List.replicate 255 0) 1
      hif_drv_init.conn_info).1 = 0 ∧
    (wilc_parse_assoc_resp_info env_ok (World.start 2) ([1] ++ List.replicate 255 0) 1
      hif_drv_init.conn_info).2.1.status = WLAN_STATUS_SUCCESS ∧
    (wilc_parse_assoc_resp_info env_ok (World.start 2) ([1] ++ List.replicate 255 0) 1
      hif_drv_init.conn_info).2.1.resp_ies_len = 65531 ∧
    (wilc_parse_assoc_resp_info env_ok (World.start 2) ([1] ++ List.replicate 255 0) 1
      hif_drv_init.conn_info).2.1.resp_ies = some (List.replicate 250 0) ∧
    ¬ (65531 < 1) := by
  decide

/-! ## Scan-complete event during a connect or listen phase -/

set_option maxRecDepth 100000 in
/-- C37: `handle_scan_complete` on an interface in `HOST_IF_WAITING_CONN_RESP`,
`HOST_IF_EXTERNAL_AUTH` or `HOST_IF_P2P_LISTEN` with no association leaves it in
`HOST_IF_IDLE`. The first of these is reached from the start: an accepted scan, a join
request that is dispatched, then the scan-complete task. -/
theorem handle_scan_complete_leaves_phase :
    (handle_scan_complete env_ok (sample_world host_if_state.HOST_IF_WAITING_CONN_RESP null_bssid)
      0).bind (fun s => s.state 0) = some host_if_state.HOST_IF_IDLE ∧
    (handle_scan_complete env_ok (sample_world host_if_state.HOST_IF_EXTERNAL_AUTH null_bssid)
      0).bind (fun s => s.state 0) = some host_if_state.HOST_IF_IDLE ∧
    (handle_scan_complete env_ok (sample_world host_if_state.HOST_IF_P2P_LISTEN null_bssid)
      0).bind (fun s => s.state 0) = some host_if_state.HOST_IF_IDLE ∧
    (run env_ok (World.start 2)
      [Op.scan 0 0 1 (some [1, 6, 11]) 3 (some 7) 9 sample_scan_request,
       Op.set_conn_params 0 ⟨0, 1, 0, 6, [], some 1, 2⟩,
       Op.set_join_req 0 (some [2, 0, 0, 0, 0, 1]) (some [48, 0]) 2]).bind
      (fun s => (s.getDrv 0).map fun d => (d.hif_state, d.usr_scan_req.scan_result)) =
      some (host_if_state.HOST_IF_WAITING_CONN_RESP, some 7) ∧
    (run env_ok (World.start 2)
      [Op.scan 0 0 1 (some [1, 6, 11]) 3 (some 7) 9 sample_scan_request,
       Op.set_conn_params 0 ⟨0, 1, 0, 6, [], some 1, 2⟩,
       Op.set_join_req 0 (some [2, 0, 0, 0, 0, 1]) (some [48, 0]) 2,
       Op.scan_complete 0]).bind (fun s => s.state 0) =
      some host_if_state.HOST_IF_IDLE := by
  decide

/-! ## Frames after a disconnect -/

theorem getDrv_of_wilc_eq (s s1 : World) (h : s1.wilc = s.wilc) (j : Nat) :
    s1.getDrv j = s.getDrv j := by
  unfold World.getDrv
  rw [h]

theorem gnrl_async_info_tasks (env : Env) (s : World) (buffer : List Nat) (length : Nat) :
    (wilc_gnrl_async_info_received env s buffer length).wilc = s.wilc ∧
    ∃ l, (wilc_gnrl_async_info_received env s buffer length).log = s.log ++ l ∧
      ∀ e ∈ l, ∀ v m, e = Ev.queue_work v m →
        ∃ d, s.getDrv v = some d ∧ d.conn_info.conn_result ≠ none := by
  unfold wilc_gnrl_async_info_received
  simp only []
  cases wilc_get_vif_from_idx env.h s.wilc (frame_id buffer length) with
  | none => exact ⟨rfl, [], by simp, by simp⟩
  | some vif =>
    simp only []
    cases hd : s.getDrv vif with
    | none => exact ⟨rfl, [], by simp, by simp⟩
    | some d =>
      simp only [wilc_alloc_work, wilc_enqueue_work]
      by_cases h0 : d.conn_info.conn_result = none
      · exact ⟨by simp [h0], [], by simp [h0], by simp⟩
      · by_cases h1 : env.kmalloc s.allocs = false
        · exact ⟨by simp [h0, h1], [], by simp [h0, h1], by simp⟩
        · by_cases h3 : env.queue_work (kmalloc env s).2.allocs = true
          · refine ⟨by simp [h0, h1, h3], [Ev.queue_work vif
              (host_if_msg.handle_rcvd_gnrl_async_info (buffer.getD 7 0))],
              by simp [h0, h1, h3], ?_⟩
            intro e he v m hv
            simp only [List.mem_singleton] at he
            rw [he] at hv
            injection hv with hv1 _
            exact ⟨d, by rw [← hv1]; exact hd, h0⟩
          · refine ⟨by simp [h0, h1, h3, EINVAL], [Ev.kfree vif heap_obj.msg],
              by simp [h0, h1, h3, EINVAL], ?_⟩
            intro e he v m hv
            simp only [List.mem_singleton] at he
            rw [he] at hv
            exact absurd hv (by simp)

theorem gnrl_frames_tasks (env : Env) (frames : List (List Nat × Nat)) :
    ∀ s : World, (gnrl_frames_received env s frames).wilc = s.wilc ∧
      ∃ l, (gnrl_frames_received env s frames).log = s.log ++ l ∧
        ∀ e ∈ l, ∀ v m, e = Ev.queue_work v m →
          ∃ d, s.getDrv v = some d ∧ d.conn_info.conn_result ≠ none := by
  induction frames with
  | nil => intro s; exact ⟨rfl, [], by simp [gnrl_frames_received], by simp⟩
  | cons f fs ih =>
    intro s
    obtain ⟨hw, l1, hl1, hq1⟩ := gnrl_async_info_tasks env s f.1 f.2
    obtain ⟨hw2, l2, hl2, hq2⟩ := ih (wilc_gnrl_async_info_received env s f.1 f.2)
    have e : gnrl_frames_received env s (f :: fs) =
        gnrl_frames_received env (wilc_gnrl_async_info_received env s f.1 f.2) fs := rfl
    rw [e]
    refine ⟨hw2.trans hw, l1 ++ l2, by rw [hl2, hl1, List.append_assoc], ?_⟩
    intro ev hev v m hv
    rcases List.mem_append.mp hev with h | h
    · exact hq1 ev h v m hv
    · obtain ⟨d, hd, hc⟩ := hq2 ev h v m hv
      exact ⟨d, by rw [← getDrv_of_wilc_eq s _ hw v]; exact hd, hc⟩

theorem wilc_disconnect_cleared (env : Env) (s s1 : World) (vif : Nat)
    (h : wilc_disconnect env s vif = some (0, s1)) :
    ∃ d, s1.getDrv vif = some d ∧ d.conn_info.conn_result = none ∧
      d.hif_state = host_if_state.HOST_IF_IDLE ∧ d.assoc_bssid = null_bssid := by
  unfold wilc_disconnect at h
  simp only [reply_send, getDrv_send] at h
  generalize abort_scans env (List.range s.wilc.vif_list.length) s = sm at h
  generalize env.send_config_pkt sm.cfg_calls _ = r at h
  by_cases hr : r.result ≠ 0
  · simp only [if_pos hr, Option.some.injEq, Prod.mk.injEq] at h
    exact absurd h.1 hr
  · simp only [if_neg hr] at h
    cases hd : sm.getDrv vif with
    | none => simp [hd] at h
    | some d0 =>
      simp only [hd, Option.some.injEq, Prod.mk.injEq, true_and] at h
      subst h
      cases hs : d0.usr_scan_req.scan_result <;> cases hc : d0.conn_info.conn_result <;>
        simp [hd] <;> split_ifs <;> simp [hd]

/-- C38: after a `wilc_disconnect` that returned 0 the connect-result callback of the
interface is cleared, and however many general-async-info frames are then handed to
`wilc_gnrl_async_info_received`, the device is as the disconnect left it (the interface
is in `HOST_IF_IDLE` with an all-zero `assoc_bssid`) and no task for the interface is
among the entries the frames add to the record; a frame whose index names the interface
is dropped, the world staying as it was. -/
theorem wilc_disconnect_then_frames (env : Env) (s s1 : World) (vif : Nat)
    (frames : List (List Nat × Nat))
    (h : wilc_disconnect env s vif = some (0, s1)) :
    ((s1.getDrv vif).map fun d => d.conn_info.conn_result) = some none ∧
    (gnrl_frames_received env s1 frames).wilc = s1.wilc ∧
    (gnrl_frames_received env s1 frames).state vif = some host_if_state.HOST_IF_IDLE ∧
    (((gnrl_frames_received env s1 frames).getDrv vif).map fun d => d.assoc_bssid) =
      some null_bssid ∧
    (∃ l, (gnrl_frames_received env s1 frames).log = s1.log ++ l ∧
      ∀ e ∈ l, ∀ m, e ≠ Ev.queue_work vif m) ∧
    ∀ buffer length, wilc_get_vif_from_idx env.h s1.wilc (frame_id buffer length) = some vif →
      wilc_gnrl_async_info_received env s1 buffer length = s1 := by
  obtain ⟨d, hd, hc, hst, hb⟩ := wilc_disconnect_cleared env s s1 vif h
  obtain ⟨hw, l, hl, hq⟩ := gnrl_frames_tasks env frames s1
  have hg := getDrv_of_wilc_eq s1 _ hw vif
  refine ⟨by simp [hd, hc], hw, by simp [World.state, hg, hd, hst], by simp [hg, hd, hb],
    ⟨l, hl, ?_⟩, ?_⟩
  · intro e he m hm
    obtain ⟨d1, hd1, hc1⟩ := hq e he vif m hm
    rw [hd] at hd1
    injection hd1 with hd1
    exact hc1 (by rw [← hd1]; exact hc)
  · intro buffer length hidx
    unfold wilc_gnrl_async_info_received
    simp only [hidx, hd, hc, if_true]

set_option maxRecDepth 100000 in
/-- C38 at a sample input: a connected interface is disconnected, then two frames for it
arrive. -/
theorem wilc_disconnect_then_frames_witness :
    ∃ s1, wilc_disconnect env_ok
        (sample_world host_if_state.HOST_IF_CONNECTED [2, 0, 0, 0, 0, 1]) 0 = some (0, s1) ∧
      (gnrl_frames_received env_ok s1 [(sample_frame 1, 15), (sample_frame 1, 15)]).state 0 =
        some host_if_state.HOST_IF_IDLE ∧
      ∃ l, (gnrl_frames_received env_ok s1 [(sample_frame 1, 15), (sample_frame 1, 15)]).log =
          s1.log ++ l ∧ ∀ e ∈ l, ∀ m, e ≠ Ev.queue_work 0 m :=
  ⟨_, rfl, (wilc_disconnect_then_frames env_ok
      (sample_world host_if_state.HOST_IF_CONNECTED [2, 0, 0, 0, 0, 1]) _ 0
      [(sample_frame 1, 15), (sample_frame 1, 15)] rfl).2.2.1,
    (wilc_disconnect_then_frames env_ok
      (sample_world host_if_state.HOST_IF_CONNECTED [2, 0, 0, 0, 0, 1]) _ 0
      [(sample_frame 1, 15), (sample_frame 1, 15)] rfl).2.2.2.2.1⟩

/-! ## MAC-status events that change nothing -/

/-- C39: `handle_rcvd_gnrl_async_info` leaves the world as it was (no callback, no round
trip, the same state, `assoc_bssid`, scan request and connection information) when the
interface is in a state other than `HOST_IF_EXTERNAL_AUTH` and `HOST_IF_WAITING_CONN_RESP`
and the MAC status is not `WILC_MAC_STATUS_DISCONNECTED`; and, in every state, when the
interface has no driver context or no connect-result callback. -/
theorem handle_rcvd_gnrl_async_info_frame (env : Env) (s : World) (vif status : Nat) :
    (∀ d, s.getDrv vif = some d →
      d.hif_state ≠ host_if_state.HOST_IF_EXTERNAL_AUTH →
      d.hif_state ≠ host_if_state.HOST_IF_WAITING_CONN_RESP →
      status ≠ env.h.WILC_MAC_STATUS_DISCONNECTED →
      handle_rcvd_gnrl_async_info env s vif status = some s) ∧
    (s.getDrv vif = none → handle_rcvd_gnrl_async_info env s vif status = some s) ∧
    (∀ d, s.getDrv vif = some d → d.conn_info.conn_result = none →
      handle_rcvd_gnrl_async_info env s vif status = some s) := by
  refine ⟨?_, ?_, ?_⟩
  · intro d hd h1 h2 h3
    unfold handle_rcvd_gnrl_async_info
    simp only [hd]
    cases hc : d.conn_info.conn_result with
    | none => rfl
    | some fn => simp only [if_neg h1, if_neg h2, if_neg h3]
  · intro hd
    unfold handle_rcvd_gnrl_async_info
    simp only [hd]
  · intro d hd hc
    unfold handle_rcvd_gnrl_async_info
    simp only [hd, hc]

set_option maxRecDepth 100000 in
/-- C39 at sample inputs: a connected interface and the MAC status 1; an interface
without connect-result callback in `HOST_IF_WAITING_CONN_RESP`. -/
theorem handle_rcvd_gnrl_async_info_frame_witness :
    handle_rcvd_gnrl_async_info env_ok
        (sample_world host_if_state.HOST_IF_CONNECTED [2, 0, 0, 0, 0, 1]) 0 1 =
      some (sample_world host_if_state.HOST_IF_CONNECTED [2, 0, 0, 0, 0, 1]) ∧
    handle_rcvd_gnrl_async_info env_ok
        (sample_world host_if_state.HOST_IF_CONNECTED [2, 0, 0, 0, 0, 1]) 7 0 =
      some (sample_world host_if_state.HOST_IF_CONNECTED [2, 0, 0, 0, 0, 1]) ∧
    handle_rcvd_gnrl_async_info env_ok (World.start 2) 1 0 = some (World.start 2) :=
  ⟨(handle_rcvd_gnrl_async_info_frame env_ok
      (sample_world host_if_state.HOST_IF_CONNECTED [2, 0, 0, 0, 0, 1]) 0 1).1
      (sample_drv host_if_state.HOST_IF_CONNECTED [2, 0, 0, 0, 0, 1]) rfl (by decide)
      (by decide) (by decide),
   (handle_rcvd_gnrl_async_info_frame env_ok
      (sample_world host_if_state.HOST_IF_CONNECTED [2, 0, 0, 0, 0, 1]) 7 0).2.1 rfl,
   (handle_rcvd_gnrl_async_info_frame env_ok (World.start 2) 1 0).2.2 hif_drv_init rfl rfl⟩

/-! ## Network information -/

theorem wrap_int_small (x : Int) (hlo : -2147483648 ≤ x) (hhi : x < 2147483648) :
    wrap_int x = x := by
  unfold wrap_int
  omega

theorem ntwrk_info_offset_cases (rcvd_info : wilc_rcvd_net_info) :
    (ntwrk_info_offset rcvd_info = some offsetof_beacon_variable ∧
      (ieee80211_is_probe_resp (get_le16 rcvd_info.mgmt 0) = true ∨
        ieee80211_is_beacon (get_le16 rcvd_info.mgmt 0) = true)) ∨
    (ntwrk_info_offset rcvd_info = none ∧
      ieee80211_is_probe_resp (get_le16 rcvd_info.mgmt 0) = false ∧
        ieee80211_is_beacon (get_le16 rcvd_info.mgmt 0) = false) := by
  unfold ntwrk_info_offset
  cases hp : ieee80211_is_probe_resp (get_le16 rcvd_info.mgmt 0) <;>
    cases hb : ieee80211_is_beacon (get_le16 rcvd_info.mgmt 0) <;>
    simp [offsetof_probe_resp_variable, offsetof_beacon_variable]

theorem ds_channel_eq (e : List Nat) (c : Nat) :
    (if 0 < ie_len (some e) then (ie_payload (some e)).getD 0 0 else c) =
      (if e.getD 1 0 > 0 then e.getD 2 0 else c) := by
  simp only [ie_len, ie_payload, gt_iff_lt]
  by_cases h0 : 0 < e.getD 1 0
  · rw [if_pos h0, if_pos h0]
    simp only [List.getD_eq_getElem?_getD, List.getElem?_take, List.getElem?_drop]
    have h1 : 0 < e[1]?.getD 0 := by simpa using h0
    simp [h1]
  · rw [if_neg h0, if_neg h0]

/-- C40: `handle_rcvd_ntwrk_info` for an interface with a driver context and a `u16`
`frame_len` ends, releases the frame copy and the task record, and leaves the device as it
was. It calls the scan-result callback exactly once, with `SCAN_EVENT_NETWORK_FOUND` and
the registered argument, when a callback is registered, the frame is a probe response or a
beacon, and `frame_len` is above the offset of the variable part; otherwise it calls
nothing. The channel handed to the callback is the first payload byte of the first DS
parameter set among the elements that lie within the frame when that element has a
non-zero length, and the channel received otherwise; the other fields are as received. -/
theorem handle_rcvd_ntwrk_info_spec (s : World) (vif : Nat) (rcvd_info : wilc_rcvd_net_info)
    (d : host_if_drv) (hd : s.getDrv vif = some d) (hlen : rcvd_info.frame_len < 65536) :
    ∃ s1 l, handle_rcvd_ntwrk_info s vif rcvd_info = some s1 ∧ s1.wilc = s.wilc ∧
      s1.log = s.log ++ l ++ [Ev.kfree vif heap_obj.mgmt, Ev.kfree vif heap_obj.msg] ∧
      (l.filter is_network_found).length ≤ 1 ∧
      (∀ fn, d.usr_scan_req.scan_result = some fn →
        (ieee80211_is_probe_resp (get_le16 rcvd_info.mgmt 0) = true ∨
          ieee80211_is_beacon (get_le16 rcvd_info.mgmt 0) = true) →
        offsetof_beacon_variable < rcvd_info.frame_len →
        l = [Ev.scan_result_info vif fn scan_event.SCAN_EVENT_NETWORK_FOUND
          { rcvd_info with ch :=
              if 0 < ie_len (cfg80211_find_ie WLAN_EID_DS_PARAMS
                  ((rcvd_info.mgmt.drop offsetof_beacon_variable).take
                    (rcvd_info.frame_len - offsetof_beacon_variable))) then
                (ie_payload (cfg80211_find_ie WLAN_EID_DS_PARAMS
                  ((rcvd_info.mgmt.drop offsetof_beacon_variable).take
                    (rcvd_info.frame_len - offsetof_beacon_variable)))).getD 0 0
              else rcvd_info.ch }
          d.usr_scan_req.arg]) ∧
      (¬ (d.usr_scan_req.scan_result ≠ none ∧
          (ieee80211_is_probe_resp (get_le16 rcvd_info.mgmt 0) = true ∨
            ieee80211_is_beacon (get_le16 rcvd_info.mgmt 0) = true) ∧
          offsetof_beacon_variable < rcvd_info.frame_len) → l = []) := by
  have hmod : rcvd_info.frame_len % 65536 = rcvd_info.frame_len := Nat.mod_eq_of_lt hlen
  unfold handle_rcvd_ntwrk_info
  simp only [hmod]
  rcases ntwrk_info_offset_cases rcvd_info with ⟨ho, hk⟩ | ⟨ho, hp, hb⟩
  · rw [ho]
    simp only []
    have hw : wrap_int ((rcvd_info.frame_len : Int) - (offsetof_beacon_variable : Int)) =
        (rcvd_info.frame_len : Int) - (offsetof_beacon_variable : Int) :=
      wrap_int_small _ (by unfold offsetof_beacon_variable; omega)
        (by unfold offsetof_beacon_variable; omega)
    rw [hw]
    by_cases hle : (rcvd_info.frame_len : Int) - (offsetof_beacon_variable : Int) ≤ 0
    · rw [if_pos hle]
      refine ⟨_, [], rfl, rfl, by simp, by simp, ?_, fun _ => rfl⟩
      intro fn _ _ hlt
      exact absurd hle (by omega)
    · rw [if_neg hle]
      have hlt : offsetof_beacon_variable < rcvd_info.frame_len := by omega
      have hn : ((rcvd_info.frame_len : Int) - (offsetof_beacon_variable : Int)).toNat =
          rcvd_info.frame_len - offsetof_beacon_variable := by omega
      rw [hn]
      simp only [hd]
      generalize cfg80211_find_ie WLAN_EID_DS_PARAMS
        ((rcvd_info.mgmt.drop offsetof_beacon_variable).take
          (rcvd_info.frame_len - offsetof_beacon_variable)) = E
      have fin : ∀ c : Nat,
          (c = if 0 < ie_len E then (ie_payload E).getD 0 0 else rcvd_info.ch) →
          ∃ s1 l,
            (match d.usr_scan_req.scan_result with
              | some fn =>
                some (((s.emit (Ev.scan_result_info vif fn scan_event.SCAN_EVENT_NETWORK_FOUND
                  { rcvd_info with ch := c } d.usr_scan_req.arg)).emit
                    (Ev.kfree vif heap_obj.mgmt)).emit (Ev.kfree vif heap_obj.msg))
              | none =>
                some ((s.emit (Ev.kfree vif heap_obj.mgmt)).emit (Ev.kfree vif heap_obj.msg))) =
              some s1 ∧
            s1.wilc = s.wilc ∧
            s1.log = s.log ++ l ++ [Ev.kfree vif heap_obj.mgmt, Ev.kfree vif heap_obj.msg] ∧
            (l.filter is_network_found).length ≤ 1 ∧
            (∀ fn, d.usr_scan_req.scan_result = some fn →
              (ieee80211_is_probe_resp (get_le16 rcvd_info.mgmt 0) = true ∨
                ieee80211_is_beacon (get_le16 rcvd_info.mgmt 0) = true) →
              offsetof_beacon_variable < rcvd_info.frame_len →
              l = [Ev.scan_result_info vif fn scan_event.SCAN_EVENT_NETWORK_FOUND
                { rcvd_info with ch :=
                    if 0 < ie_len E then (ie_payload E).getD 0 0 else rcvd_info.ch }
                d.usr_scan_req.arg]) ∧
            (¬ (d.usr_scan_req.scan_result ≠ none ∧
                (ieee80211_is_probe_resp (get_le16 rcvd_info.mgmt 0) = true ∨
                  ieee80211_is_beacon (get_le16 rcvd_info.mgmt 0) = true) ∧
                offsetof_beacon_variable < rcvd_info.frame_len) → l = []) := by
        intro c hc
        cases hs : d.usr_scan_req.scan_result with
        | none =>
          refine ⟨_, [], rfl, rfl, by simp, by simp, ?_, fun _ => rfl⟩
          intro fn hfn
          exact absurd hfn (by simp)
        | some fn =>
          refine ⟨_, [Ev.scan_result_info vif fn scan_event.SCAN_EVENT_NETWORK_FOUND
            { rcvd_info with ch := c } d.usr_scan_req.arg], rfl, rfl, by simp,
            by simp [is_network_found], ?_, ?_⟩
          · intro fn1 hfn1 _ _
            injection hfn1 with hfn1
            rw [hfn1, hc]
          · intro hneg
            exact absurd ⟨by simp, hk, hlt⟩ hneg
      cases E with
      | none => exact fin _ (by simp [ie_len])
      | some e => exact fin _ (ds_channel_eq e rcvd_info.ch).symm
  · rw [ho]
    refine ⟨_, [], rfl, rfl, by simp, by simp, ?_, fun _ => rfl⟩
    intro fn _ hk _
    rcases hk with hk | hk
    · rw [hp] at hk; exact absurd hk (by simp)
    · rw [hb] at hk; exact absurd hk (by simp)

set_option maxRecDepth 100000 in
/-- C40 at a sample input: the probe response of 45 bytes whose DS parameter set names
channel 6, for an interface with a scan-result callback. -/
theorem handle_rcvd_ntwrk_info_spec_witness :
    ∃ s1 l, handle_rcvd_ntwrk_info (sample_world host_if_state.HOST_IF_IDLE null_bssid) 0
        sample_net_info = some s1 ∧
      s1.log = (sample_world host_if_state.HOST_IF_IDLE null_bssid).log ++ l ++
        [Ev.kfree 0 heap_obj.mgmt, Ev.kfree 0 heap_obj.msg] ∧
      l = [Ev.scan_result_info 0 5 scan_event.SCAN_EVENT_NETWORK_FOUND
        { sample_net_info with ch := 6 } 6] := by
  obtain ⟨s1, l, h1, _, h2, _, h3, _⟩ := handle_rcvd_ntwrk_info_spec
    (sample_world host_if_state.HOST_IF_IDLE null_bssid) 0 sample_net_info
    (sample_drv host_if_state.HOST_IF_IDLE null_bssid) rfl (by decide)
  exact ⟨s1, l, h1, h2, h3 5 rfl (Or.inl (by decide)) (by decide)⟩

end Hif
